import Mathlib

/-!
# University food delivery backend: order settlement and assignment

A shallow embedding of the order controller
(`src/controllers/order.controller.js`), of the wallet handlers of the shop,
user and admin controllers (`shop.controller.js`, `user.controller.js`,
`admin.controller.js`) and of the Mongoose models they work on
(`src/models/order.model.js`, `shop.model.js`, `user.model.js`,
`payoutRequest.model.js`, `systemSettings.model.js`).

Conventions of the embedding

* JavaScript numbers that carry money, rates and distances are rationals
  (exact decimal arithmetic); `Math.round x` is `⌊x + 1/2⌋` and
  `Math.ceil x` is `⌈x⌉`. The code computes in double precision: a value
  computed here is the code's value as long as no exact product lies within
  the rounding error of a midpoint between two integers (for `Math.round`),
  of an integer (for `Math.ceil`) or of a bound it is compared with.
* Mongo object ids are natural numbers; a reference that may be absent is an
  `Option`.
* `new Date()` is a natural number handed to the handler by its caller.
* A request handler is a function from the database to a response and the
  database it leaves behind.
* `document.save()` validates enum paths: a text outside the enum makes the
  save throw, nothing is written and the handler answers 500.
* The answer of an outside service (the distance function, the payment
  gateway) is an argument of the handler.
-/

namespace FoodDelivery

/-! ## Numbers -/

/-- A stored JavaScript number: a finite value or one of the three
non-finite ones. -/
inductive JsNumber where
  | finite (q : ℚ)
  | nan
  | posInf
  | negInf
  deriving DecidableEq

/-- `Math.round`: the nearest integer, a tie going up. -/
def mathRound (x : ℚ) : ℤ := ⌊x + 1 / 2⌋

/-- `getGpRate` (order.controller.js 34-46). The argument is the stored
`commissionPercentage`, `none` when the settings document or the field is
missing (`settings?.commissionPercentage ?? 0`). -/
def getGpRate (commissionPercentage : Option JsNumber) : ℚ :=
  match commissionPercentage with
  | none => 0
  | some (JsNumber.finite pct) => min (max pct 0) 100 / 100
  | some _ => 0

/-! ## Visibility delay -/

/-- `calculateVisibilityDelay` (order.controller.js 690-713); `none` is a
`null` or `undefined` distance. The products are the exact ones: the code forms
them in double precision, and where a double product falls on the other side of
a bound or of an integer its result differs by a step (for 1.1 km the code
gives 12, the exact products 11). -/
def calculateVisibilityDelay (distanceInKm : Option ℚ) : ℤ :=
  match distanceInKm with
  | none => 60
  | some km =>
    let distanceInMeters := km * 1000
    if distanceInMeters ≤ 100 then 1
    else if distanceInMeters ≤ 1000 then 10
    else
      let additionalKm := km - 1
      10 + ⌈additionalKm * 10⌉

/-! ## Settlement arithmetic -/

/-- `netAmount` of `confirmPickup` (line 1690):
`Math.round(grossAmount * (1 - gpRate) * 100) / 100`, on the exact product. -/
def pickupNetAmount (grossAmount gpRate : ℚ) : ℚ :=
  (mathRound (grossAmount * (1 - gpRate) * 100) : ℚ) / 100

/-- `platformIncome` of `confirmDelivery` (line 1963):
`Math.round(foodPrice * gpRate * 100) / 100`, on the exact product. -/
def platformIncome (foodPrice gpRate : ℚ) : ℚ :=
  (mathRound (foodPrice * gpRate * 100) : ℚ) / 100

/-- `shopEarnings` of `confirmDelivery` (line 1964):
`Math.round((foodPrice - platformIncome) * 100) / 100`, on the exact
difference. -/
def shopEarnings (foodPrice gpRate : ℚ) : ℚ :=
  (mathRound ((foodPrice - platformIncome foodPrice gpRate) * 100) : ℚ) / 100

/-! ## Data model -/

/-- The `status` enum of a shop order (order.model.js). -/
inductive OrderStatus where
  | pending
  | preparing
  | outOfDelivery
  | delivered
  | cancelled
  deriving DecidableEq

/-- The string stored for a status. -/
def OrderStatus.toJs : OrderStatus → String
  | .pending => "pending"
  | .preparing => "preparing"
  | .outOfDelivery => "out of delivery"
  | .delivered => "delivered"
  | .cancelled => "cancelled"

/-- The `paymentMethod` enum of an order (order.model.js). -/
inductive PaymentMethod where
  | cod
  | online
  | promptpay
  | card
  deriving DecidableEq

/-- `["online", "promptpay", "card"].includes(paymentMethod)`. -/
def PaymentMethod.isOnlinePayment : PaymentMethod → Bool
  | .cod => false
  | _ => true

/-- The embedded `shopOrderItemSchema`: the item reference, the name, and the
price and quantity, which the schema does not require. -/
structure OrderItem where
  item : Nat
  name : String := ""
  price : Option ℚ := none
  quantity : Option ℚ := none
  deriving DecidableEq

/-- The embedded `shopOrderSchema`, without the unused `assignment`
reference. -/
structure ShopOrder where
  id : Nat
  shop : Option Nat := none
  owner : Option Nat := none
  subtotal : ℚ := 0
  shopOrderItems : List OrderItem := []
  status : OrderStatus := OrderStatus.pending
  cancelReason : Option String := none
  cancelledAt : Option Nat := none
  assignedDeliveryBoy : Option Nat := none
  deliveryOtp : Option String := none
  otpExpires : Option Nat := none
  deliveredAt : Option Nat := none
  preparingStartedAt : Option Nat := none
  readyForDeliveryAt : Option Nat := none
  pickedUpAt : Option Nat := none
  arrivedAtCustomerAt : Option Nat := none
  deriving DecidableEq

/-- The `orderSchema`. -/
structure Order where
  id : Nat
  user : Option Nat := none
  paymentMethod : PaymentMethod
  totalAmount : ℚ := 0
  deliveryFee : ℚ := 0
  shopOrders : List ShopOrder := []
  payment : Bool := false
  stripePaymentId : String := ""
  deriving DecidableEq

/-- The `chargeId` strings the settlement code writes. -/
inductive ChargeId where
  /-- The order's `stripePaymentId`. -/
  | stripe (paymentId : String)
  /-- The text `ORDER-` followed by the order id. -/
  | order (orderId : Nat)
  /-- The text `COD-` followed by the order id. -/
  | cod (orderId : Nat)
  /-- The text `WALLET-` followed by the order id. -/
  | wallet (orderId : Nat)
  deriving DecidableEq

/-- An entry of a shop's `payments` ledger (shop.model.js). Every entry the
handlers below write has currency `thb`, status `succeeded` and no receipt
url. -/
structure Payment where
  chargeId : ChargeId
  paymentIntentId : Option String := none
  orderId : Option Nat := none
  amount : ℚ
  walletCredit : Bool := false
  createdAt : Nat := 0
  deriving DecidableEq

/-- The `status` enum of a courier payout entry (user.model.js). -/
inductive PayoutStatus where
  | pending
  | inTransit
  | paid
  | canceled
  | failed
  | onHold
  deriving DecidableEq

/-- The `type` enum of a payout entry. -/
inductive PayoutType where
  | manual
  | automatic
  deriving DecidableEq

/-- The `source` enum of a courier payout entry. -/
inductive PayoutSource where
  | wallet
  | jobCredit
  deriving DecidableEq

/-- The `payoutId` strings. -/
inductive PayoutId where
  /-- The text `WALLET-`, the order id, a dash and `Date.now()`. -/
  | walletCredit (orderId : Nat) (now : Nat)
  /-- The text `payout_`, `Date.now()`, an underscore and the id of the shop or
  user that asks for the payout. -/
  | manual (now : Nat) (requester : Nat)
  /-- Any other identifier. -/
  | other (s : String)
  deriving DecidableEq

/-- An entry of a courier's `payouts` ledger (user.model.js); the currency is
always `thb` and the method `standard`. -/
structure Payout where
  payoutId : PayoutId
  amount : ℚ
  status : PayoutStatus := PayoutStatus.pending
  type : PayoutType := PayoutType.manual
  source : PayoutSource := PayoutSource.wallet
  orderId : Option Nat := none
  createdAt : Nat := 0
  deriving DecidableEq

/-- An entry of a shop's `payouts` ledger (shop.model.js); the currency is
always `thb` and the method `standard`. The shop enum has no `on_hold`. -/
structure ShopPayout where
  payoutId : PayoutId
  amount : ℚ
  status : PayoutStatus := PayoutStatus.pending
  type : PayoutType := PayoutType.manual
  createdAt : Nat := 0
  deriving DecidableEq

/-- The two fields of `ePaymentAccount` that the payout handlers test. -/
structure EPaymentAccount where
  bank : String := ""
  accountNumber : String := ""
  deriving DecidableEq

/-- A stored pair of coordinates; either may be missing. -/
structure Location where
  latitude : Option ℚ := none
  longitude : Option ℚ := none
  deriving DecidableEq

/-- The part of `shopSchema` the handlers read and write. -/
structure Shop where
  id : Nat
  owner : Option Nat := none
  cafeteria : String := ""
  location : Option Location := none
  payments : List Payment := []
  payouts : List ShopPayout := []
  ePaymentAccount : EPaymentAccount := {}
  stripeBankAccountId : Option String := none
  deriving DecidableEq

/-- The `role` enum of a user (user.model.js). -/
inductive Role where
  | user
  | owner
  | deliveryBoy
  | admin
  deriving DecidableEq

/-- The part of `userSchema` the handlers read and write. -/
structure User where
  id : Nat
  role : Role
  jobCredit : ℚ := 0
  payouts : List Payout := []
  ePaymentAccount : EPaymentAccount := {}
  /-- The array `location.coordinates`: longitude first, then latitude. -/
  coordinates : Option (List ℚ) := some [0, 0]
  deriving DecidableEq

/-- The `requesterType` enum of a payout request. -/
inductive RequesterType where
  | user
  | shop
  | deliverer
  deriving DecidableEq

/-- The `status` enum of a payout request. -/
inductive PayoutRequestStatus where
  | pending
  | approved
  | rejected
  | paid
  deriving DecidableEq

/-- The `payoutRequestSchema` (payoutRequest.model.js); the currency is always
`thb` and the method `standard`. The last three fields are written by the
administrator only. -/
structure PayoutRequest where
  id : Nat
  user : Nat
  shop : Option Nat := none
  requesterType : RequesterType := RequesterType.user
  amount : ℚ
  bankInfo : String := ""
  status : PayoutRequestStatus := PayoutRequestStatus.pending
  transactionId : Option PayoutId := none
  adminNote : String := ""
  processedBy : Option Nat := none
  processedAt : Option Nat := none
  deriving DecidableEq

/-- The `location` of an entry of `cafeteriaSettings`
(systemSettings.model.js). -/
structure CafeteriaLocation where
  lat : Option ℚ := some 0
  lng : Option ℚ := some 0
  deriving DecidableEq

/-- An entry of `cafeteriaSettings` in the settings document. -/
structure CafeteriaSetting where
  name : String
  location : Option CafeteriaLocation := none
  deriving DecidableEq

/-- The collections, and the settings the handlers read: the commission and
the cafeterias (none when there is no settings document). -/
structure Db where
  orders : List Order := []
  shops : List Shop := []
  users : List User := []
  payoutRequests : List PayoutRequest := []
  commissionPercentage : Option JsNumber := none
  cafeteriaSettings : List CafeteriaSetting := []
  deriving DecidableEq

/-- What `res.status(code).json(\x7b message \x7d)` sends. -/
structure Response where
  status : Nat
  message : String
  deriving DecidableEq

/-! ## Store primitives -/

/-- Apply `f` to the first element that satisfies `p`. -/
def modifyFirst {α : Type} (p : α → Bool) (f : α → α) : List α → List α
  | [] => []
  | x :: xs => if p x then f x :: xs else x :: modifyFirst p f xs

/-- Apply `f` to the element at position `i`, if there is one. -/
def modifyAt {α : Type} (f : α → α) : Nat → List α → List α
  | _, [] => []
  | 0, x :: xs => f x :: xs
  | i + 1, x :: xs => x :: modifyAt f i xs

/-- `Order.findById`. -/
def findOrder (db : Db) (orderId : Nat) : Option Order :=
  db.orders.find? (fun o => o.id == orderId)

/-- `Shop.findById`. -/
def findShop (db : Db) (shopId : Nat) : Option Shop :=
  db.shops.find? (fun s => s.id == shopId)

/-- `User.findById`. -/
def findUser (db : Db) (userId : Nat) : Option User :=
  db.users.find? (fun u => u.id == userId)

/-- `order.shopOrders.find((so) => so._id.toString() === shopOrderId)`. -/
def findShopOrder (order : Order) (shopOrderId : Nat) : Option ShopOrder :=
  order.shopOrders.find? (fun so => so.id == shopOrderId)

/-- Write `f` of the shop document `shopId` back (`shop.save()`). -/
def saveShop (db : Db) (shopId : Nat) (f : Shop → Shop) : Db :=
  { db with shops := modifyFirst (fun s => s.id == shopId) f db.shops }

/-- Write `f` of the user document `userId` back (`user.save()`,
`User.findByIdAndUpdate`). -/
def saveUser (db : Db) (userId : Nat) (f : User → User) : Db :=
  { db with users := modifyFirst (fun u => u.id == userId) f db.users }

/-- Write `f` of the shop order `shopOrderId` of order `orderId` back
(`order.save()` after assignments to the found sub-document). -/
def saveShopOrder (db : Db) (orderId shopOrderId : Nat) (f : ShopOrder → ShopOrder) : Db :=
  let saveIn : Order → Order := fun o =>
    { o with shopOrders := modifyFirst (fun so => so.id == shopOrderId) f o.shopOrders }
  { db with orders := modifyFirst (fun o => o.id == orderId) saveIn db.orders }

/-! ## Pickup confirmation -/

/-- The object `confirmPickup` pushes onto `shop.payments` (lines 1709-1721);
`createdAt` takes the schema default `Date.now`. -/
def pickupPayment (order : Order) (netAmount : ℚ) (now : Nat) : Payment :=
  let isOnlinePayment := order.paymentMethod.isOnlinePayment
  { chargeId :=
      if isOnlinePayment then
        (if order.stripePaymentId ≠ "" then ChargeId.stripe order.stripePaymentId
         else ChargeId.order order.id)
      else ChargeId.cod order.id
    paymentIntentId :=
      if isOnlinePayment then
        (if order.stripePaymentId ≠ "" then some order.stripePaymentId else none)
      else none
    orderId := some order.id
    amount := netAmount
    walletCredit := false
    createdAt := now }

/-- The shop credit of `confirmPickup` (lines 1682-1733). `shopOrders.shop`
was populated, so `shopId` is defined only when the referenced shop
exists. -/
def creditShopAtPickup (db : Db) (order : Order) (shopOrder : ShopOrder) (gpRate : ℚ)
    (now : Nat) : Db :=
  let shopId : Option Nat := (shopOrder.shop.bind (findShop db)).map (fun s => s.id)
  if shopOrder.subtotal ≠ 0 ∧ shopId.isSome then
    let grossAmount := shopOrder.subtotal
    let netAmount := pickupNetAmount grossAmount gpRate
    match shopId.bind (findShop db) with
    | none => db
    | some shop =>
      let alreadyCredited := shop.payments.any (fun p => p.orderId == some order.id)
      if alreadyCredited then db
      else
        saveShop db shop.id
          (fun s => { s with payments := s.payments ++ [pickupPayment order netAmount now] })
  else db

/-- The courier deduction of `confirmPickup` (lines 1735-1774).
`shopOrders.assignedDeliveryBoy` was populated, so it is truthy only when
the referenced user exists. -/
def deductCourierAtPickup (db : Db) (order : Order) (shopOrder : ShopOrder) (gpRate : ℚ) : Db :=
  let assignedDeliveryBoy : Option User := shopOrder.assignedDeliveryBoy.bind (findUser db)
  if order.paymentMethod = PaymentMethod.cod ∧ shopOrder.subtotal ≠ 0
      ∧ assignedDeliveryBoy.isSome then
    match assignedDeliveryBoy with
    | none => db
    | some boy =>
      let grossSubtotalAmount := shopOrder.subtotal
      let netSubtotalAmount := pickupNetAmount grossSubtotalAmount gpRate
      saveUser db boy.id (fun u => { u with jobCredit := u.jobCredit + (-netSubtotalAmount) })
  else db

/-- `confirmPickup` (lines 1629-1876) between the opening of the transaction
and its commit; the socket emissions after the commit change no document.
`orderId` and `shopOrderId` are the two body fields, `now` is `new Date()`. -/
def confirmPickup (db : Db) (orderId shopOrderId : Option Nat) (now : Nat) : Response × Db :=
  match orderId, shopOrderId with
  | some oid, some sid =>
    match findOrder db oid with
    | none => (⟨404, "Order not found"⟩, db)
    | some order =>
      match findShopOrder order sid with
      | none => (⟨404, "Shop order not found"⟩, db)
      | some shopOrder =>
        if shopOrder.pickedUpAt.isSome then (⟨200, "Pickup already confirmed"⟩, db)
        else if shopOrder.status ≠ OrderStatus.outOfDelivery then
          (⟨400, "Order is still being prepared. Current status: " ++ shopOrder.status.toJs
              ++ ". Please wait until the order is ready for pickup."⟩, db)
        else
          let gpRate := getGpRate db.commissionPercentage
          let db1 := creditShopAtPickup db order shopOrder gpRate now
          let db2 := deductCourierAtPickup db1 order shopOrder gpRate
          let db3 := saveShopOrder db2 oid sid (fun so => { so with pickedUpAt := some now })
          (⟨200, "Pickup confirmed successfully"⟩, db3)
  | _, _ => (⟨400, "orderId and shopOrderId are required"⟩, db)

/-! ## Delivery confirmation -/

/-- The object `confirmDelivery` pushes onto `shop.payments`
(lines 1986-1996). -/
def walletCreditPayment (order : Order) (earnings : ℚ) (now : Nat) : Payment :=
  { chargeId := ChargeId.wallet order.id
    paymentIntentId := none
    orderId := some order.id
    amount := earnings
    walletCredit := true
    createdAt := now }

/-- The shop wallet credit of `confirmDelivery` (lines 1966-2009); the shop
reference is not populated here. -/
def creditShopAtDelivery (db : Db) (order : Order) (shopOrder : ShopOrder) (gpRate : ℚ)
    (now : Nat) : Db :=
  let foodPrice := shopOrder.subtotal
  let earnings := shopEarnings foodPrice gpRate
  let shopId : Option Nat := shopOrder.shop
  if shopId.isSome ∧ earnings > 0 then
    match shopId.bind (findShop db) with
    | none => db
    | some shop =>
      let alreadyCredited :=
        shop.payments.any (fun p => p.orderId == some order.id && p.walletCredit)
      if alreadyCredited then db
      else
        saveShop db shop.id
          (fun s => { s with payments := s.payments ++ [walletCreditPayment order earnings now] })
  else db

/-- The object `confirmDelivery` pushes onto the courier's `payouts`
(lines 2042-2052). -/
def deliveryFeePayout (order : Order) (deliveryFee : ℚ) (now : Nat) : Payout :=
  { payoutId := PayoutId.walletCredit order.id now
    amount := deliveryFee
    status := PayoutStatus.paid
    type := PayoutType.automatic
    source := PayoutSource.wallet
    orderId := some order.id
    createdAt := now }

/-- The test `confirmDelivery` applies to a payout entry to see whether the
delivery fee of the order was credited already (lines 2032-2036). -/
def isDeliveryFeeCredit (orderId : Nat) (p : Payout) : Bool :=
  p.orderId == some orderId && p.source == PayoutSource.wallet
    && p.type == PayoutType.automatic

/-- The courier delivery-fee credit of `confirmDelivery` (lines 2011-2069). -/
def creditCourierAtDelivery (db : Db) (order : Order) (shopOrder : ShopOrder) (now : Nat) : Db :=
  let deliveryFee := order.deliveryFee
  let isOnlinePayment := order.paymentMethod.isOnlinePayment
  let assignedDeliveryBoy : Option User := shopOrder.assignedDeliveryBoy.bind (findUser db)
  if assignedDeliveryBoy.isSome ∧ deliveryFee > 0 ∧ isOnlinePayment = true then
    match assignedDeliveryBoy with
    | none => db
    | some deliveryBoy =>
      let alreadyCredited := deliveryBoy.payouts.any (isDeliveryFeeCredit order.id)
      if alreadyCredited then db
      else
        saveUser db deliveryBoy.id
          (fun u => { u with payouts := u.payouts ++ [deliveryFeePayout order deliveryFee now] })
  else db

/-- `confirmDelivery` (lines 1922-2187) up to the last `order.save()`; the
emissions after it change no document. -/
def confirmDelivery (db : Db) (orderId shopOrderId : Option Nat) (now : Nat) : Response × Db :=
  match orderId, shopOrderId with
  | some oid, some sid =>
    match findOrder db oid with
    | none => (⟨404, "Order not found"⟩, db)
    | some order =>
      match findShopOrder order sid with
      | none => (⟨404, "Shop order not found"⟩, db)
      | some shopOrder =>
        if shopOrder.status = OrderStatus.delivered then
          (⟨200, "Delivery already confirmed"⟩, db)
        else
          let gpRate := getGpRate db.commissionPercentage
          let db1 := creditShopAtDelivery db order shopOrder gpRate now
          let db2 := creditCourierAtDelivery db1 order shopOrder now
          let db3 := saveShopOrder db2 oid sid
            (fun so => { so with status := OrderStatus.delivered, deliveredAt := some now })
          (⟨200, "Delivery confirmed successfully"⟩, db3)
  | _, _ => (⟨400, "orderId and shopOrderId are required"⟩, db)

/-! ## Claiming an assignment -/

/-- The three array clauses of the `acceptOrder` filter. The update writes
through the positional operator, and with several array clauses in one
filter the store does not fix which clause supplies the position. -/
inductive PositionalRule where
  | idClause
  | statusClause
  | unassignedClause
  deriving DecidableEq

/-- The clause `"shopOrders._id": assignmentId` on one element. -/
def idClause (assignmentId : Nat) (so : ShopOrder) : Bool := so.id == assignmentId

/-- The clause `"shopOrders.status": \x7b $in: ["preparing", "out of delivery"] \x7d`
on one element. -/
def statusClause (so : ShopOrder) : Bool :=
  so.status == OrderStatus.preparing || so.status == OrderStatus.outOfDelivery

/-- The clause `"shopOrders.assignedDeliveryBoy": null` on one element. -/
def unassignedClause (so : ShopOrder) : Bool := so.assignedDeliveryBoy.isNone

/-- The filter of the `findOneAndUpdate` in `acceptOrder` (lines 1065-1069):
three dotted paths into the `shopOrders` array, each satisfied as soon as
some element of the array satisfies it. (The queries at lines 735, 1174 and
3535 wrap their conditions in `$elemMatch` to tie them to one element; this
one does not.) -/
def acceptFilter (assignmentId : Nat) (o : Order) : Bool :=
  o.shopOrders.any (idClause assignmentId)
    && o.shopOrders.any statusClause
    && o.shopOrders.any unassignedClause

/-- The array position the positional operator writes to: the first element
satisfying the clause that the rule names. -/
def positionalIndex (rule : PositionalRule) (assignmentId : Nat) (o : Order) : Nat :=
  match rule with
  | PositionalRule.idClause => o.shopOrders.findIdx (idClause assignmentId)
  | PositionalRule.statusClause => o.shopOrders.findIdx statusClause
  | PositionalRule.unassignedClause => o.shopOrders.findIdx unassignedClause

/-- `acceptOrder` (lines 1051-1162): one `findOneAndUpdate` on the first order
that passes the filter, then the answer. `userId` is the caller. -/
def acceptOrder (rule : PositionalRule) (db : Db) (assignmentId : Option Nat) (userId : Nat) :
    Response × Db :=
  match assignmentId with
  | none => (⟨400, "Assignment ID is required"⟩, db)
  | some aid =>
    match db.orders.find? (acceptFilter aid) with
    | none => (⟨404, "Assignment not found or already taken"⟩, db)
    | some matched =>
      let claim : ShopOrder → ShopOrder := fun so =>
        { so with assignedDeliveryBoy := some userId }
      let assign : Order → Order := fun o =>
        { o with shopOrders := modifyAt claim (positionalIndex rule aid o) o.shopOrders }
      let db1 : Db := { db with orders := modifyFirst (acceptFilter aid) assign db.orders }
      let order := assign matched
      match findShopOrder order aid with
      | none => (⟨404, "Shop order not found"⟩, db1)
      | some _ => (⟨200, "Order accepted successfully"⟩, db1)

/-! ## Wallet balance and payout requests of a shop -/

namespace ShopController

/-- The constant `newSandboxStartDate = new Date('2024-12-01')` of
shop.controller.js (lines 263 and 1044), in milliseconds since the epoch. -/
def newSandboxStartDate : Nat := 1733011200000

/-- The filter of `Order.find` for the delivered orders of a shop (lines
238-241 and 1019-1022): two dotted paths into `shopOrders`. -/
def deliveredOrdersFilter (shopId : Nat) (o : Order) : Bool :=
  o.shopOrders.any (fun so => so.shop == some shopId)
    && o.shopOrders.any (fun so => so.status == OrderStatus.delivered)

/-- The loop over `deliveredOrders` that adds up `totalShopEarnings` (lines
244-255 and 1025-1036). -/
def totalShopEarnings (db : Db) (shopId : Nat) (gpRate : ℚ) : ℚ :=
  (db.orders.filter (deliveredOrdersFilter shopId)).foldl
    (fun total order =>
      match order.shopOrders.find? (fun so => so.shop == some shopId) with
      | some shopOrder =>
        if shopOrder.subtotal ≠ 0 then total + shopEarnings shopOrder.subtotal gpRate
        else total
      | none => total)
    0

/-- The loop that adds up `totalCompletedPayouts` (lines 264-279 and
1045-1060). -/
def totalCompletedPayouts (payouts : List ShopPayout) : ℚ :=
  payouts.foldl
    (fun total payout =>
      if payout.status = PayoutStatus.paid then
        (if payout.createdAt ≥ newSandboxStartDate then total + payout.amount else total)
      else total)
    0

/-- The loop that adds up `pendingPayouts` (lines 283-299 and 1065-1081). -/
def pendingPayouts (payouts : List ShopPayout) : ℚ :=
  payouts.foldl
    (fun total payout =>
      if payout.status = PayoutStatus.pending ∨ payout.status = PayoutStatus.inTransit then
        (if payout.createdAt ≥ newSandboxStartDate then total + payout.amount else total)
      else total)
    0

/-- The object `walletBalance` that `getMyShop` returns. -/
structure WalletBalance where
  totalShopEarnings : ℚ
  totalCompletedPayouts : ℚ
  pendingPayouts : ℚ
  netWalletBalance : ℚ
  availableWalletBalance : ℚ
  deriving DecidableEq

/-- The wallet computation of `getMyShop` (lines 230-313) for the shop it has
found. -/
def getMyShop (db : Db) (shop : Shop) : WalletBalance :=
  let gpRate := getGpRate db.commissionPercentage
  let totalShopEarnings := totalShopEarnings db shop.id gpRate
  let totalCompletedPayouts := totalCompletedPayouts shop.payouts
  let pendingPayouts := pendingPayouts shop.payouts
  let netWalletBalance := max 0 (totalShopEarnings - totalCompletedPayouts)
  let availableWalletBalance := max 0 (netWalletBalance - pendingPayouts)
  { totalShopEarnings := totalShopEarnings
    totalCompletedPayouts := totalCompletedPayouts
    pendingPayouts := pendingPayouts
    netWalletBalance := netWalletBalance
    availableWalletBalance := availableWalletBalance }

/-- The `availableWalletBalance` that `requestPayoutFromWallet` computes (lines
1010-1084), by the same steps as `getMyShop`. -/
def availableWalletBalance (db : Db) (shop : Shop) : ℚ :=
  let gpRate := getGpRate db.commissionPercentage
  let totalShopEarnings := totalShopEarnings db shop.id gpRate
  let totalCompletedPayouts := totalCompletedPayouts shop.payouts
  let pendingPayouts := pendingPayouts shop.payouts
  let netWalletBalance := max 0 (totalShopEarnings - totalCompletedPayouts)
  max 0 (netWalletBalance - pendingPayouts)

/-- `requestPayoutFromWallet` of shop.controller.js (lines 981-1171). `userId`
is the caller, `amount` the body field, `now` is `Date.now()` and `requestId`
the id the store gives the new payout request. The text of the answer to an
excessive amount is followed by the available balance in the source. -/
def requestPayoutFromWallet (db : Db) (userId : Nat) (amount : Option ℚ)
    (now requestId : Nat) : Response × Db :=
  match amount with
  | none => (⟨400, "Invalid payout amount"⟩, db)
  | some amount =>
    if amount = 0 ∨ amount ≤ 0 then (⟨400, "Invalid payout amount"⟩, db)
    else
      match db.shops.find? (fun s => s.owner == some userId) with
      | none => (⟨404, "Shop not found"⟩, db)
      | some shop =>
        if shop.owner ≠ some userId then (⟨403, "Unauthorized"⟩, db)
        else if shop.ePaymentAccount.accountNumber = "" ∨ shop.ePaymentAccount.bank = "" then
          (⟨400, "Bank account information is not set up. "
              ++ "Please update your E-Payment Account first."⟩, db)
        else if amount > availableWalletBalance db shop then
          (⟨400, "Insufficient wallet balance. Available: "⟩, db)
        else if db.payoutRequests.any (fun r =>
            r.shop == some shop.id && r.status == PayoutRequestStatus.pending) then
          (⟨400, "You already have a pending payout request. "
              ++ "Please wait for it to be processed."⟩, db)
        else
          let payoutId := PayoutId.manual now shop.id
          let entry : ShopPayout :=
            { payoutId := payoutId
              amount := amount
              status := PayoutStatus.pending
              type := PayoutType.manual
              createdAt := now }
          let db1 := saveShop db shop.id (fun s => { s with payouts := s.payouts ++ [entry] })
          let payoutReq : PayoutRequest :=
            { id := requestId
              user := userId
              shop := some shop.id
              requesterType := RequesterType.shop
              amount := amount
              bankInfo := shop.ePaymentAccount.bank ++ " • " ++ shop.ePaymentAccount.accountNumber
              status := PayoutRequestStatus.pending
              transactionId := some payoutId }
          (⟨200, "Payout request submitted successfully"⟩,
            { db1 with payoutRequests := db1.payoutRequests ++ [payoutReq] })

end ShopController

/-! ## Wallet balance and payout requests of a courier -/

namespace UserController

/-- The filter of `Order.find` in `requestPayoutFromWallet` (lines 524-529). -/
def deliveredOrdersFilter (userId : Nat) (o : Order) : Bool :=
  o.shopOrders.any (fun so => so.assignedDeliveryBoy == some userId)
    && o.shopOrders.any (fun so => so.status == OrderStatus.delivered)
    && o.paymentMethod.isOnlinePayment

/-- The loops that add up `totalEarnings` (lines 531-551): the delivery fee of
an order counts once, when one of its shop orders is assigned to the user and
delivered. The first component is the running total, the second the set
`processedOrderIds`. -/
def totalEarnings (db : Db) (userId : Nat) : ℚ :=
  ((db.orders.filter (deliveredOrdersFilter userId)).foldl
    (fun acc order =>
      order.shopOrders.foldl
        (fun (acc : ℚ × List Nat) shopOrder =>
          let isAssigned := shopOrder.assignedDeliveryBoy == some userId
          if isAssigned = true ∧ shopOrder.status = OrderStatus.delivered then
            (if acc.2.contains order.id then acc
             else (acc.1 + order.deliveryFee, order.id :: acc.2))
          else acc)
        acc)
    ((0 : ℚ), ([] : List Nat))).1

/-- The loop over `user.payouts` (lines 555-574): the first component is
`totalCompletedPayouts`, the second `pendingWalletWithdrawals`. -/
def payoutTotals (payouts : List Payout) : ℚ × ℚ :=
  payouts.foldl
    (fun acc payout =>
      if payout.source = PayoutSource.wallet ∧ payout.type = PayoutType.manual then
        (if payout.status = PayoutStatus.pending ∨ payout.status = PayoutStatus.inTransit then
          (acc.1, acc.2 + payout.amount)
         else if payout.status = PayoutStatus.paid then (acc.1 + payout.amount, acc.2)
         else acc)
      else acc)
    ((0 : ℚ), (0 : ℚ))

/-- The `availableWalletBalance` of `requestPayoutFromWallet` (lines 576-580). -/
def availableWalletBalance (db : Db) (user : User) : ℚ :=
  let totalEarnings := totalEarnings db user.id
  let totalCompletedPayouts := (payoutTotals user.payouts).1
  let pendingWalletWithdrawals := (payoutTotals user.payouts).2
  let netWalletBalance := max 0 (totalEarnings - totalCompletedPayouts)
  max 0 (netWalletBalance - pendingWalletWithdrawals)

/-- `requestPayoutFromWallet` of user.controller.js (lines 493-668), with the
same arguments as the shop's. -/
def requestPayoutFromWallet (db : Db) (userId : Nat) (amount : Option ℚ)
    (now requestId : Nat) : Response × Db :=
  match amount with
  | none => (⟨400, "Invalid payout amount"⟩, db)
  | some amount =>
    if amount = 0 ∨ amount ≤ 0 then (⟨400, "Invalid payout amount"⟩, db)
    else
      match findUser db userId with
      | none => (⟨404, "User not found"⟩, db)
      | some user =>
        if user.role ≠ Role.deliveryBoy then
          (⟨403, "Only delivery boys can request wallet payouts"⟩, db)
        else if user.ePaymentAccount.accountNumber = "" ∨ user.ePaymentAccount.bank = "" then
          (⟨400, "Please complete your bank account details first"⟩, db)
        else if amount > availableWalletBalance db user then
          (⟨400, "Insufficient wallet balance. Available: "⟩, db)
        else if db.payoutRequests.any (fun r =>
            r.user == userId && r.requesterType == RequesterType.deliverer
              && r.status == PayoutRequestStatus.pending) then
          (⟨400, "You already have a pending payout request. "
              ++ "Please wait for it to be processed."⟩, db)
        else
          let payoutId := PayoutId.manual now userId
          let entry : Payout :=
            { payoutId := payoutId
              amount := amount
              status := PayoutStatus.pending
              type := PayoutType.manual
              source := PayoutSource.wallet
              createdAt := now }
          let db1 := saveUser db userId (fun u => { u with payouts := u.payouts ++ [entry] })
          let payoutReq : PayoutRequest :=
            { id := requestId
              user := userId
              requesterType := RequesterType.deliverer
              amount := amount
              bankInfo := user.ePaymentAccount.bank ++ " • " ++ user.ePaymentAccount.accountNumber
              status := PayoutRequestStatus.pending
              transactionId := some payoutId }
          (⟨200, "Payout request submitted successfully"⟩,
            { db1 with payoutRequests := db1.payoutRequests ++ [payoutReq] })

end UserController

/-! ## Cancelling a shop order -/

/-- The characters that `String.prototype.trim` strips: white space and line
terminators. -/
def isJsWhitespace (c : Char) : Bool :=
  let n := c.toNat
  n == 0x09 || n == 0x0A || n == 0x0B || n == 0x0C || n == 0x0D || n == 0x20 || n == 0xA0
    || n == 0x1680 || (0x2000 ≤ n && n ≤ 0x200A) || n == 0x2028 || n == 0x2029
    || n == 0x202F || n == 0x205F || n == 0x3000 || n == 0xFEFF

/-- `String.prototype.trim`. -/
def jsTrim (s : String) : String :=
  String.mk ((s.data.dropWhile isJsWhitespace).reverse.dropWhile isJsWhitespace).reverse

/-- The test of `order.shopOrders.find` in `cancelShopOrder` and
`updateOrderItems`: `shopOrders.shop` was populated, so the id of the
referenced shop is there only when that shop exists. -/
def hasShop (db : Db) (shopId : Nat) (so : ShopOrder) : Bool :=
  (so.shop.bind (findShop db)).map (fun s => s.id) == some shopId

/-- The shop order of an order that belongs to a shop. -/
def findShopOrderByShop (db : Db) (order : Order) (shopId : Nat) : Option ShopOrder :=
  order.shopOrders.find? (hasShop db shopId)

/-- Write `f` of the shop order of shop `shopId` in order `orderId` back
(`order.save()` after assignments to the sub-document found by its shop). -/
def saveShopOrderByShop (db : Db) (orderId shopId : Nat) (f : ShopOrder → ShopOrder) : Db :=
  let saveIn : Order → Order := fun o =>
    { o with shopOrders := modifyFirst (hasShop db shopId) f o.shopOrders }
  { db with orders := modifyFirst (fun o => o.id == orderId) saveIn db.orders }

/-- The `allowedStatuses` of `cancelShopOrder` (lines 3887-3902); the text
`out_for_delivery` in the source is not a status of the schema. -/
def allowedStatuses : Role → List OrderStatus
  | Role.user => [OrderStatus.pending, OrderStatus.preparing, OrderStatus.outOfDelivery]
  | Role.owner => [OrderStatus.pending, OrderStatus.preparing]
  | Role.deliveryBoy => [OrderStatus.outOfDelivery]
  | Role.admin => []

/-- The `isAuthorized` of `cancelShopOrder` (lines 3869-3877). The three
references were populated; the caller exists, so a reference to the caller
survives the population. -/
def isAuthorized (role : Role) (callerId : Nat) (order : Order) (shopOrder : ShopOrder) : Bool :=
  if role = Role.user ∧ order.user = some callerId then true
  else if role = Role.owner ∧ shopOrder.owner = some callerId then true
  else if role = Role.deliveryBoy ∧ shopOrder.assignedDeliveryBoy = some callerId then true
  else false

/-- `cancelShopOrder` (lines 3815-4099). `orderId` and `shopId` are the route
parameters, `reason` the body field, `callerId` is `req.userId` and `now` is
`new Date()`. The refund call to the payment gateway and the notifications
change no document. The text of the answer to a status that is not allowed is
followed by the list of allowed statuses in the source. -/
def cancelShopOrder (db : Db) (orderId shopId : Option Nat) (reason : Option String)
    (callerId : Nat) (now : Nat) : Response × Db :=
  match orderId, shopId with
  | some oid, some shid =>
    match reason with
    | none => (⟨400, "Cancel reason is required"⟩, db)
    | some reason =>
      if reason = "" ∨ jsTrim reason = "" then (⟨400, "Cancel reason is required"⟩, db)
      else
        match findOrder db oid with
        | none => (⟨404, "Order not found"⟩, db)
        | some order =>
          match findShopOrderByShop db order shid with
          | none => (⟨404, "Shop order not found"⟩, db)
          | some shopOrder =>
            match findUser db callerId with
            | none => (⟨404, "User not found"⟩, db)
            | some user =>
              if isAuthorized user.role callerId order shopOrder = false then
                (⟨403, "Unauthorized. You can only cancel orders you own, manage, "
                    ++ "or are assigned to deliver."⟩, db)
              else if ¬ shopOrder.status ∈ allowedStatuses user.role then
                (⟨400, "Cannot cancel order. Order status is: " ++ shopOrder.status.toJs⟩, db)
              else if user.role = Role.deliveryBoy ∧ shopOrder.pickedUpAt.isSome then
                (⟨400, "Cannot cancel order. Order has already been picked up."⟩, db)
              else
                let cancel : ShopOrder → ShopOrder := fun so =>
                  { so with status := OrderStatus.cancelled
                            cancelReason := some (jsTrim reason)
                            cancelledAt := some now }
                (⟨200, "Order cancelled successfully"⟩, saveShopOrderByShop db oid shid cancel)
  | _, _ => (⟨400, "Order ID and Shop ID are required"⟩, db)

/-! ## Editing the line items -/

/-- The sum `shopOrderItems.reduce(...)` of `updateOrderItems` (lines
3727-3730): a missing price or quantity counts as 0. -/
def itemsTotal (items : List OrderItem) : ℚ :=
  items.foldl (fun sum item => sum + item.price.getD 0 * item.quantity.getD 0) 0

/-- `updateOrderItems` (lines 3666-3771). `shopOrderItems` and `subtotal` are
the body fields, `callerId` is `req.userId`. -/
def updateOrderItems (db : Db) (orderId shopId : Option Nat)
    (shopOrderItems : Option (List OrderItem)) (subtotal : Option ℚ) (callerId : Nat) :
    Response × Db :=
  match orderId, shopId with
  | some oid, some shid =>
    match shopOrderItems with
    | none => (⟨400, "Order items are required"⟩, db)
    | some items =>
      if items.length = 0 then (⟨400, "Order items are required"⟩, db)
      else
        match findOrder db oid with
        | none => (⟨404, "Order not found"⟩, db)
        | some order =>
          match findShopOrderByShop db order shid with
          | none => (⟨404, "Shop order not found"⟩, db)
          | some shopOrder =>
            if shopOrder.owner ≠ some callerId then
              (⟨403, "Unauthorized. You can only edit your own shop orders."⟩, db)
            else if shopOrder.status ≠ OrderStatus.pending then
              (⟨400, "Cannot edit order. Order status is: " ++ shopOrder.status.toJs⟩, db)
            else
              let newSubtotal : ℚ :=
                match subtotal with
                | some given => if given ≠ 0 then given else itemsTotal items
                | none => itemsTotal items
              let edit : ShopOrder → ShopOrder := fun so =>
                { so with shopOrderItems := items, subtotal := newSubtotal }
              let saveIn : Order → Order := fun o =>
                { o with shopOrders := modifyFirst (hasShop db shid) edit o.shopOrders
                         totalAmount := newSubtotal }
              (⟨200, "Order items updated successfully"⟩,
                { db with orders := modifyFirst (fun o => o.id == oid) saveIn db.orders })
  | _, _ => (⟨400, "Order ID and Shop ID are required"⟩, db)

/-- The invariant of an order that `placeOrder` establishes: the total is the
sum of the subtotals of the shop orders plus the delivery fee. -/
def totalMatches (o : Order) : Bool :=
  o.totalAmount == (o.shopOrders.map (fun so => so.subtotal)).sum + o.deliveryFee

/-! ## Placing an order: fee and total -/

/-- The two settings `placeOrder` reads for the fee (systemSettings.model.js). -/
structure DeliverySettings where
  baseDeliveryFee : ℚ := 0
  pricePerKm : ℚ := 5
  deriving DecidableEq

/-- The delivery fee `placeOrder` computes and stores (lines 274-315 and 337).
`calculateDistance` is the haversine function of the controller, taken as it
is; `systemSettings` is the settings document, if there is one;
`firstShopLocation` is the location of the shop of the first shop order, if
that shop is found and has one; `latitude` and `longitude` are those of the
delivery address; `deliveryFee` is the fee in the request body, which the
handler takes from the body and never reads. -/
def placeOrderDeliveryFee (calculateDistance : ℚ → ℚ → ℚ → ℚ → ℚ)
    (systemSettings : Option DeliverySettings) (firstShopLocation : Option Location)
    (latitude longitude : ℚ) (deliveryFee : Option ℚ) : ℤ :=
  let _clientFee := deliveryFee
  let baseDeliveryFee : ℚ :=
    match systemSettings with
    | some settings => if settings.baseDeliveryFee ≠ 0 then settings.baseDeliveryFee else 0
    | none => 0
  let pricePerKm : ℚ :=
    match systemSettings with
    | some settings => if settings.pricePerKm ≠ 0 then settings.pricePerKm else 5
    | none => 5
  let cafeteriaOrigin : Option (ℚ × ℚ) :=
    match firstShopLocation with
    | some location =>
      match location.latitude, location.longitude with
      | some lat, some lng => if lat ≠ 0 ∧ lng ≠ 0 then some (lat, lng) else none
      | _, _ => none
    | none => none
  match cafeteriaOrigin with
  | some origin =>
    if latitude ≠ 0 ∧ longitude ≠ 0 then
      let distance := calculateDistance origin.1 origin.2 latitude longitude
      ⌊baseDeliveryFee + distance * pricePerKm⌋
    else 0
  | none => 0

/-- The total `placeOrder` stores (lines 323-330): the subtotals and the fee,
rounded to two decimals. -/
def placeOrderTotalAmount (shopOrders : List ShopOrder) (calculatedDeliveryFee : ℤ) : ℚ :=
  let foodTotal := shopOrders.foldl (fun sum so => sum + so.subtotal) 0
  (mathRound ((foodTotal + (calculatedDeliveryFee : ℚ)) * 100) : ℚ) / 100

/-! ## Setting the status of a shop order -/

/-- The enum validation of the path `status` that `order.save()` runs: the
five strings of the schema (order.model.js, lines 27-37) are accepted, any
other string makes the save fail. -/
def OrderStatus.ofJs (status : String) : Option OrderStatus :=
  if status = "pending" then some OrderStatus.pending
  else if status = "preparing" then some OrderStatus.preparing
  else if status = "out of delivery" then some OrderStatus.outOfDelivery
  else if status = "delivered" then some OrderStatus.delivered
  else if status = "cancelled" then some OrderStatus.cancelled
  else none

/-- The assignments of `updateOrderStatus` to the shop order it found (lines
448-458): the new status, and one of the two preparation stamps. -/
def applyStatus (status previousStatus : OrderStatus) (now : Nat) (so : ShopOrder) : ShopOrder :=
  if status = OrderStatus.preparing ∧ previousStatus ≠ OrderStatus.preparing then
    { so with status := status, preparingStartedAt := some now }
  else if status = OrderStatus.outOfDelivery ∧ previousStatus = OrderStatus.preparing then
    { so with status := status, readyForDeliveryAt := some now }
  else { so with status := status }

/-- `updateOrderStatus` (lines 417-671). `orderId` and `shopId` are the route
parameters, `status` the body field and `now` is `new Date()`. The handler
looks at neither the caller nor the previous status before it assigns the new
one; a string outside the enum is assigned too and then makes `order.save()`
throw, which the handler answers with 500 (followed by the error text in the
source). The emissions and notifications change no document. -/
def updateOrderStatus (db : Db) (orderId shopId : Option Nat) (status : Option String)
    (now : Nat) : Response × Db :=
  match orderId, shopId, status with
  | some oid, some shid, some status =>
    if status = "" then (⟨400, "Order ID, Shop ID, and status are required"⟩, db)
    else
      match findOrder db oid with
      | none => (⟨404, "Order not found"⟩, db)
      | some order =>
        match findShopOrderByShop db order shid with
        | none => (⟨404, "Shop order not found"⟩, db)
        | some shopOrder =>
          let previousStatus := shopOrder.status
          match OrderStatus.ofJs status with
          | none => (⟨500, "update order status error "⟩, db)
          | some newStatus =>
            (⟨200, "Order status updated successfully"⟩,
              saveShopOrderByShop db oid shid (applyStatus newStatus previousStatus now))
  | _, _, _ => (⟨400, "Order ID, Shop ID, and status are required"⟩, db)

/-! ## Verifying the delivery code -/

/-- `verifyDeliveryOtp` (lines 1506-1626). The three arguments after the
database are the body fields, `now` is `new Date()`. -/
def verifyDeliveryOtp (db : Db) (orderId shopOrderId : Option Nat) (otp : Option String)
    (now : Nat) : Response × Db :=
  match orderId, shopOrderId, otp with
  | some oid, some sid, some otp =>
    if otp = "" then (⟨400, "orderId, shopOrderId and otp are required"⟩, db)
    else
      match findOrder db oid with
      | none => (⟨404, "Order not found"⟩, db)
      | some order =>
        match findShopOrder order sid with
        | none => (⟨404, "Shop order not found"⟩, db)
        | some shopOrder =>
          let expired : Bool :=
            match shopOrder.otpExpires with
            | some otpExpires => decide (otpExpires < now)
            | none => false
          if shopOrder.deliveryOtp ≠ some otp ∨ expired = true then
            (⟨400, "Invalid OTP"⟩, db)
          else
            let deliver : ShopOrder → ShopOrder := fun so =>
              { so with deliveryOtp := none
                        otpExpires := none
                        status := OrderStatus.delivered
                        deliveredAt := some now }
            (⟨200, "OTP verified successfully"⟩, saveShopOrder db oid sid deliver)
  | _, _, _ => (⟨400, "orderId, shopOrderId and otp are required"⟩, db)

/-! ## Releasing a claimed job -/

/-- The filter of the `findOneAndUpdate` in `cancelJobAssignment` (lines
919-922): the order id and one dotted path into `shopOrders`. -/
def cancelJobFilter (orderId shopOrderId : Nat) (o : Order) : Bool :=
  o.id == orderId && o.shopOrders.any (fun so => so.id == shopOrderId)

/-- `cancelJobAssignment` (lines 859-1049). `orderId` and `shopId` are the
route parameters, `callerId` is `req.userId`. `shopOrders.shop` and
`shopOrders.assignedDeliveryBoy` were populated, so the id of the assigned
courier is there only when that user exists. The update writes through the
positional operator of the one array clause, that is to the first shop order
with the id. The handler then looks the shop order up again in the updated
order and reads its fields for the broadcast, which throws when it is not
found; the broadcast itself changes no document. -/
def cancelJobAssignment (db : Db) (orderId shopId : Option Nat) (callerId : Nat) :
    Response × Db :=
  match orderId, shopId with
  | some oid, some shid =>
    match findOrder db oid with
    | none => (⟨404, "Order not found"⟩, db)
    | some order =>
      match findShopOrderByShop db order shid with
      | none => (⟨404, "Shop order not found"⟩, db)
      | some shopOrder =>
        let assignedDeliveryBoyId : Option Nat :=
          (shopOrder.assignedDeliveryBoy.bind (findUser db)).map (fun u => u.id)
        if assignedDeliveryBoyId ≠ some callerId then
          (⟨403, "You are not assigned to this job"⟩, db)
        else if shopOrder.pickedUpAt.isSome then
          (⟨400, "Cannot cancel job. Order has already been picked up."⟩, db)
        else if shopOrder.status ≠ OrderStatus.preparing
            ∧ shopOrder.status ≠ OrderStatus.outOfDelivery then
          (⟨400, "Cannot cancel job. Order status is: " ++ shopOrder.status.toJs⟩, db)
        else
          match db.orders.find? (cancelJobFilter oid shopOrder.id) with
          | none => (⟨404, "Order not found"⟩, db)
          | some matched =>
            let unassign : ShopOrder → ShopOrder := fun so =>
              { so with assignedDeliveryBoy := none }
            let update : Order → Order := fun o =>
              { o with shopOrders :=
                  modifyFirst (fun so => so.id == shopOrder.id) unassign o.shopOrders }
            let db1 : Db :=
              { db with orders := modifyFirst (cancelJobFilter oid shopOrder.id) update db.orders }
            let updatedOrder := update matched
            match findShopOrderByShop db1 updatedOrder shid with
            | none => (⟨500, "Cancel job assignment error: "⟩, db1)
            | some _ =>
              (⟨200, "Job cancelled successfully. "
                  ++ "The job is now available for other deliverers."⟩, db1)
  | _, _ => (⟨400, "Order ID and Shop ID are required"⟩, db)

/-! ## The assignment feed -/

/-- The test of `getDeliveryBoyAssignment` for one shop order (lines 757-774;
the `$elemMatch` of the query at lines 735-748 is the same test). Of the five
strings the source lists, `accepted`, `being_cooked` and `prepared` are not
statuses of the schema. `assignedDeliveryBoy` is not populated here. -/
def isCandidate (shopOrder : ShopOrder) : Bool :=
  let isEligibleStatus :=
    shopOrder.status == OrderStatus.preparing || shopOrder.status == OrderStatus.outOfDelivery
  let isNotAssigned := shopOrder.assignedDeliveryBoy.isNone
  isEligibleStatus && isNotAssigned

/-- An entry of the feed, without the texts (names and addresses) it copies
from the order and the shop. -/
structure Assignment where
  assignmentId : Nat
  orderId : Nat
  shopOrderId : Nat
  shopId : Option Nat
  pickupLocation : Option Location
  deliveryFee : ℚ
  subtotal : ℚ
  status : OrderStatus
  distance : Option ℚ
  visibilityDelay : ℤ
  items : List OrderItem
  deriving DecidableEq

/-- `cafeteriaLocationByName.get(name)` (lines 726-730): a `Map` built from the
entries with a name, in which a later entry replaces an earlier one of the
same name; the value is the entry's location, if it has one. -/
def cafeteriaLocationByName (settings : List CafeteriaSetting) (name : String) :
    Option CafeteriaLocation :=
  ((settings.filter (fun c => c.name ≠ "")).reverse.find? (fun c => c.name == name)).bind
    (fun c => c.location)

/-- The `pickupLocation` of a shop order (lines 776-787): the location of the
shop's cafeteria when the settings hold both of its coordinates, else the
shop's own location. `shop` is the populated reference. -/
def pickupLocation (db : Db) (shop : Option Shop) : Option Location :=
  let cafeteriaName : String :=
    match shop with
    | some s => s.cafeteria
    | none => ""
  let cafeteriaLoc : Option CafeteriaLocation :=
    if cafeteriaName ≠ "" then cafeteriaLocationByName db.cafeteriaSettings cafeteriaName
    else none
  let shopLocation : Option Location := shop.bind (fun s => s.location)
  match cafeteriaLoc with
  | some loc =>
    match loc.lat, loc.lng with
    | some lat, some lng => some { latitude := some lat, longitude := some lng }
    | _, _ => shopLocation
  | none => shopLocation

/-- The `distance` of an entry (lines 789-803): known only when the courier's
two coordinates and the two of the pickup location are. `calculateDistance`
is the haversine function of the controller, taken as it is. -/
def assignmentDistance (calculateDistance : ℚ → ℚ → ℚ → ℚ → ℚ)
    (delivererLat delivererLon : Option ℚ) (pickupLocation : Option Location) : Option ℚ :=
  match delivererLat, delivererLon,
      pickupLocation.bind (fun l => l.latitude), pickupLocation.bind (fun l => l.longitude) with
  | some lat1, some lon1, some lat2, some lon2 => some (calculateDistance lat1 lon1 lat2 lon2)
  | _, _, _, _ => none

/-- The entry the feed pushes for an eligible shop order (lines 814-837). -/
def makeAssignment (calculateDistance : ℚ → ℚ → ℚ → ℚ → ℚ) (db : Db)
    (delivererLat delivererLon : Option ℚ) (order : Order) (shopOrder : ShopOrder) :
    Assignment :=
  let shop : Option Shop := shopOrder.shop.bind (findShop db)
  let pickupLocation := pickupLocation db shop
  let distance := assignmentDistance calculateDistance delivererLat delivererLon pickupLocation
  { assignmentId := shopOrder.id
    orderId := order.id
    shopOrderId := shopOrder.id
    shopId := shop.map (fun s => s.id)
    pickupLocation := pickupLocation
    deliveryFee := order.deliveryFee
    subtotal := shopOrder.subtotal
    status := shopOrder.status
    distance := distance
    visibilityDelay := calculateVisibilityDelay distance
    items := shopOrder.shopOrderItems }

/-- The comparison function the feed passes to `sort` (lines 844-849). -/
def compareAssignments (a b : Assignment) : ℚ :=
  match a.distance, b.distance with
  | none, none => 0
  | none, some _ => 1
  | some _, none => -1
  | some x, some y => x - y

/-- The entries of the feed before they are sorted (lines 733-839): the orders
with an eligible shop order, and of each of them every eligible shop order. -/
def candidateAssignments (calculateDistance : ℚ → ℚ → ℚ → ℚ → ℚ) (db : Db) (callerId : Nat) :
    List Assignment :=
  let deliverer := findUser db callerId
  let delivererLocation : Option (List ℚ) := deliverer.bind (fun u => u.coordinates)
  let delivererLat : Option ℚ := delivererLocation.bind (fun c => c.get? 1)
  let delivererLon : Option ℚ := delivererLocation.bind (fun c => c.get? 0)
  let orders := db.orders.filter (fun o => o.shopOrders.any isCandidate)
  orders.flatMap (fun order =>
    (order.shopOrders.filter isCandidate).map
      (makeAssignment calculateDistance db delivererLat delivererLon order))

/-- `getDeliveryBoyAssignment` (lines 715-856): the list it answers with, status
200. `callerId` is `req.userId`. `Array.prototype.sort` is a stable sort by the
comparison function: `a` stays before `b` when the function gives at most 0. -/
def getDeliveryBoyAssignment (calculateDistance : ℚ → ℚ → ℚ → ℚ → ℚ) (db : Db)
    (callerId : Nat) : List Assignment :=
  (candidateAssignments calculateDistance db callerId).insertionSort
    (fun a b => compareAssignments a b ≤ 0)

/-! ## Administrative reassignment -/

/-- `adminReassignRider` (admin.controller.js, lines 508-546). `orderId` and
`shopOrderId` are the route parameters, `newRiderId` the body field. The
handler assigns the courier and a status text to the shop order and calls
`order.save()`, which validates the text against the enum of the schema; when
the save throws, nothing is written and the answer is 500 (followed by the
error text in the source). -/
def adminReassignRider (db : Db) (orderId shopOrderId : Nat) (newRiderId : Option Nat) :
    Response × Db :=
  match findOrder db orderId with
  | none => (⟨404, "Order not found"⟩, db)
  | some order =>
    match findShopOrder order shopOrderId with
    | none => (⟨404, "Shop order not found"⟩, db)
    | some _ =>
      let assigned : Option (Option Nat × String) :=
        match newRiderId with
        | some riderId =>
          match findUser db riderId with
          | some newRider =>
            if newRider.role ≠ Role.deliveryBoy then none else some (some riderId, "preparing")
          | none => none
        | none => some (none, "ready")
      match assigned with
      | none => (⟨400, "Invalid rider ID"⟩, db)
      | some (assignedDeliveryBoy, status) =>
        match OrderStatus.ofJs status with
        | none => (⟨500, "Reassign rider error: "⟩, db)
        | some status =>
          let reassign : ShopOrder → ShopOrder := fun so =>
            { so with assignedDeliveryBoy := assignedDeliveryBoy, status := status }
          (⟨200, "Rider reassigned successfully"⟩, saveShopOrder db orderId shopOrderId reassign)

/-! ## Resolving a payout request -/

/-- The test `["approved", "rejected", "paid"].includes(normalizedStatus)` of
`processPayoutRequest`, with the status it names. -/
def PayoutRequestStatus.ofAdmin (normalizedStatus : String) : Option PayoutRequestStatus :=
  if normalizedStatus = "approved" then some PayoutRequestStatus.approved
  else if normalizedStatus = "rejected" then some PayoutRequestStatus.rejected
  else if normalizedStatus = "paid" then some PayoutRequestStatus.paid
  else none

/-- The table `embeddedStatusByAdminStatus` (admin.controller.js, lines
650-656). -/
def embeddedStatusByAdminStatus : PayoutRequestStatus → Option PayoutStatus
  | PayoutRequestStatus.approved => some PayoutStatus.inTransit
  | PayoutRequestStatus.paid => some PayoutStatus.paid
  | PayoutRequestStatus.rejected => some PayoutStatus.failed
  | PayoutRequestStatus.pending => none

/-- The `updateOne` on the embedded ledger (lines 660-671 and 743-763): on the
shop of a shop request, else on the user, it sets the status of the first
entry whose `payoutId` is `payoutRef`, when the document has one. `shop` and
`user` of the request were populated. The second update also names a path
`transactionId`, which the ledger schemas do not have. -/
def setEmbeddedStatus (db : Db) (payout : PayoutRequest) (payoutRef : PayoutId)
    (embeddedStatus : PayoutStatus) : Db :=
  let shop : Option Shop := payout.shop.bind (findShop db)
  match (if payout.requesterType = RequesterType.shop then shop else none) with
  | some shop =>
    let setEntry : ShopPayout → ShopPayout := fun p => { p with status := embeddedStatus }
    let setStatus : Shop → Shop := fun s =>
      { s with payouts := modifyFirst (fun p => p.payoutId == payoutRef) setEntry s.payouts }
    let filter : Shop → Bool := fun s =>
      s.id == shop.id && s.payouts.any (fun p => p.payoutId == payoutRef)
    { db with shops := modifyFirst filter setStatus db.shops }
  | none =>
    match findUser db payout.user with
    | none => db
    | some user =>
      let setEntry : Payout → Payout := fun p => { p with status := embeddedStatus }
      let setStatus : User → User := fun u =>
        { u with payouts := modifyFirst (fun p => p.payoutId == payoutRef) setEntry u.payouts }
      let filter : User → Bool := fun u =>
        u.id == user.id && u.payouts.any (fun p => p.payoutId == payoutRef)
      { db with users := modifyFirst filter setStatus db.users }

/-- `processPayoutRequest` (admin.controller.js, lines 619-812). `payoutId` is
the route parameter; `status`, `adminNote` and `transactionId` are the body
fields (a missing `status` behaves like any text that is not one of the four);
`callerId` is `req.userId` and `now` is `new Date()`. `stripePayout` is the
answer of the payment gateway to `payouts.create`: the id of the payout it
created, or nothing when the call throws. A body field that is missing is left
out of the update of the request, so the stored value stays. -/
def processPayoutRequest (db : Db) (payoutId : Nat) (status : String)
    (adminNote : Option String) (transactionId : Option PayoutId) (callerId now : Nat)
    (stripePayout : Option String) : Response × Db :=
  let normalizedStatus := if status = "completed" then "paid" else status
  match PayoutRequestStatus.ofAdmin normalizedStatus with
  | none =>
    (⟨400, "Invalid status. Must be \x27approved\x27, \x27rejected\x27, "
        ++ "or \x27paid\x27 (or \x27completed\x27)"⟩, db)
  | some newStatus =>
    match db.payoutRequests.find? (fun r => r.id == payoutId) with
    | none => (⟨404, "Payout request not found"⟩, db)
    | some found =>
      let update : PayoutRequest → PayoutRequest := fun r =>
        { r with status := newStatus
                 adminNote := adminNote.getD r.adminNote
                 transactionId := transactionId.orElse (fun _ => r.transactionId)
                 processedBy := some callerId
                 processedAt := some now }
      let db1 : Db :=
        { db with payoutRequests :=
            modifyFirst (fun r => r.id == payoutId) update db.payoutRequests }
      let payout := update found
      let embeddedStatus := embeddedStatusByAdminStatus newStatus
      let payoutRef : Option PayoutId := transactionId.orElse (fun _ => payout.transactionId)
      let db2 : Db :=
        match embeddedStatus, payoutRef with
        | some embeddedStatus, some payoutRef =>
          setEmbeddedStatus db1 payout payoutRef embeddedStatus
        | _, _ => db1
      if newStatus = PayoutRequestStatus.paid then
        match stripePayout with
        | some stripePayoutId =>
          let setId : PayoutRequest → PayoutRequest := fun r =>
            { r with transactionId := some (PayoutId.other stripePayoutId) }
          let db3 : Db :=
            { db2 with payoutRequests :=
                modifyFirst (fun r => r.id == payoutId) setId db2.payoutRequests }
          let db4 : Db :=
            match embeddedStatus, payoutRef with
            | some embeddedStatus, some payoutRef =>
              setEmbeddedStatus db3 payout payoutRef embeddedStatus
            | _, _ => db3
          (⟨200, "Payout request completed and Stripe payout created"⟩, db4)
        | none => (⟨500, "Payout status updated but Stripe payout failed: "⟩, db2)
      else (⟨200, "Payout request " ++ normalizedStatus⟩, db2)

/-! ## Events from the payment gateway -/

/-- The fields of the payout object of an event that the handler reads. The
amount is in hundredths, `created` in seconds. -/
structure StripePayout where
  id : PayoutId
  amount : ℚ
  status : PayoutStatus := PayoutStatus.pending
  automatic : Bool := false
  created : Nat := 0
  destination : Option String := none
  metadataShopId : Option Nat := none
  metadataUserId : Option Nat := none
  metadataWithdrawalType : Option String := none
  deriving DecidableEq

/-- A verified event, by the `event.type` the handler switches on, with the
fields of `event.data.object` it reads. -/
inductive StripeEvent where
  /-- The event `checkout.session.completed`: the id of the session and, from
  its metadata, `type`, `userId`, `parseFloat(amount)` and `orderId`. -/
  | checkoutSessionCompleted (sessionId : String) (metadataType : Option String)
      (metadataUserId : Option Nat) (topUpAmount : ℚ) (metadataOrderId : Option Nat)
  /-- The event `payment_intent.succeeded`. -/
  | paymentIntentSucceeded (paymentIntentId : String) (metadataOrderId : Option Nat)
  /-- The event `payout.created`. -/
  | payoutCreated (payout : StripePayout)
  /-- The event `payout.paid`. -/
  | payoutPaid (paidPayout : StripePayout)
  /-- The event `payout.failed`. -/
  | payoutFailed (failedPayout : StripePayout)
  /-- The events `payment_intent.payment_failed`, `payment_intent.created` and
  `charge.succeeded`, which are logged only, and every other type. -/
  | logged
  deriving DecidableEq

/-- The shop of a payout event: by `metadata.shopId`, else by the bank account
the payout goes to. -/
def findPayoutShop (db : Db) (payout : StripePayout) : Option Shop :=
  match payout.metadataShopId.bind (findShop db) with
  | some shop => some shop
  | none =>
    match payout.destination with
    | some destination =>
      if destination ≠ "" then
        db.shops.find? (fun s => s.stripeBankAccountId == some destination)
      else none
    | none => none

/-- The branches of `payout.paid` and `payout.failed` (lines 3116-3250): the
entry with the id of the payout, in the ledger of the courier for a courier
withdrawal and else in that of the shop, takes the status. -/
def setPayoutStatus (db : Db) (payout : StripePayout) (status : PayoutStatus) : Db :=
  let userId : Option Nat :=
    if payout.metadataWithdrawalType = some "delivery_boy_withdrawal" then payout.metadataUserId
    else none
  match userId with
  | some userId =>
    match findUser db userId with
    | some user =>
      if user.payouts.any (fun p => p.payoutId == payout.id) then
        let setEntry : Payout → Payout := fun p => { p with status := status }
        saveUser db user.id (fun u =>
          { u with payouts := modifyFirst (fun p => p.payoutId == payout.id) setEntry u.payouts })
      else db
    | none => db
  | none =>
    match findPayoutShop db payout with
    | some shop =>
      if shop.payouts.any (fun p => p.payoutId == payout.id) then
        let setEntry : ShopPayout → ShopPayout := fun p => { p with status := status }
        saveShop db shop.id (fun s =>
          { s with payouts := modifyFirst (fun p => p.payoutId == payout.id) setEntry s.payouts })
      else db
    | none => db

/-- `handleStripeWebhook` (lines 2790-3257) after the signature of the event
has been verified: the database after the event. The answer is 200 with
`\x7b received: true \x7d` whatever the event. -/
def handleStripeWebhook (db : Db) : StripeEvent → Db
  | StripeEvent.checkoutSessionCompleted sessionId metadataType metadataUserId topUpAmount
      metadataOrderId =>
    if metadataType = some "credit_topup" then
      match metadataUserId with
      | some userId => saveUser db userId (fun u => { u with jobCredit := u.jobCredit + topUpAmount })
      | none => db
    else
      match metadataOrderId.bind (findOrder db) with
      | some order =>
        let pay : Order → Order := fun o => { o with stripePaymentId := sessionId, payment := true }
        { db with orders := modifyFirst (fun o => o.id == order.id) pay db.orders }
      | none => db
  | StripeEvent.paymentIntentSucceeded paymentIntentId metadataOrderId =>
    match db.orders.find? (fun o => o.stripePaymentId == paymentIntentId) with
    | some order =>
      if order.payment then db
      else
        let pay : Order → Order := fun o => { o with payment := true }
        { db with orders := modifyFirst (fun o => o.id == order.id) pay db.orders }
    | none =>
      match metadataOrderId.bind (findOrder db) with
      | some order =>
        if order.payment then db
        else
          let pay : Order → Order := fun o =>
            { o with stripePaymentId := paymentIntentId, payment := true }
          { db with orders := modifyFirst (fun o => o.id == order.id) pay db.orders }
      | none => db
  | StripeEvent.payoutCreated payout =>
    match findPayoutShop db payout with
    | some shop =>
      let existingPayout := shop.payouts.find? (fun p => p.payoutId == payout.id)
      if existingPayout.isNone then
        let amountInTHB := payout.amount / 100
        let isAutomatic := payout.automatic
        let entry : ShopPayout :=
          { payoutId := payout.id
            amount := amountInTHB
            status := payout.status
            type := if isAutomatic then PayoutType.automatic else PayoutType.manual
            createdAt := payout.created * 1000 }
        saveShop db shop.id (fun s => { s with payouts := s.payouts ++ [entry] })
      else db
    | none => db
  | StripeEvent.payoutPaid paidPayout => setPayoutStatus db paidPayout PayoutStatus.paid
  | StripeEvent.payoutFailed failedPayout => setPayoutStatus db failedPayout PayoutStatus.failed
  | StripeEvent.logged => db

/-! ## Withdrawing job credit -/

/-- `withdrawToBankDeliveryBoy` (user.controller.js, lines 409-483). `userId`
is the caller, `amount` the body field, `now` is `Date.now()` and `requestId`
the id the store gives the new payout request. The handler saves the user and
then creates the payout request, whose schema wants an amount of at least 0
(payoutRequest.model.js, lines 19-23): when it is below, the creation throws
after the user has been saved. Without an amount the ledger entry has none and
the save of the user throws. Either error is answered with 500 (followed by the
error text in the source). -/
def withdrawToBankDeliveryBoy (db : Db) (userId : Nat) (amount : Option ℚ)
    (now requestId : Nat) : Response × Db :=
  match findUser db userId with
  | none => (⟨404, "User not found"⟩, db)
  | some user =>
    if user.ePaymentAccount.accountNumber = "" ∨ user.ePaymentAccount.bank = "" then
      (⟨400, "Please complete your bank account details first"⟩, db)
    else
      match amount with
      | none => (⟨500, "Withdrawal error: "⟩, db)
      | some amount =>
        if user.jobCredit < amount then (⟨400, "Insufficient credit"⟩, db)
        else
          let payout : Payout :=
            { payoutId := PayoutId.other ("payout_" ++ toString now)
              amount := amount
              status := PayoutStatus.pending
              createdAt := now }
          let db1 := saveUser db userId (fun u =>
            { u with jobCredit := u.jobCredit - amount, payouts := u.payouts ++ [payout] })
          if amount < 0 then (⟨500, "Withdrawal error: "⟩, db1)
          else
            let payoutReq : PayoutRequest :=
              { id := requestId
                user := userId
                requesterType := RequesterType.user
                amount := amount
                bankInfo := user.ePaymentAccount.bank ++ " • " ++ user.ePaymentAccount.accountNumber
                status := PayoutRequestStatus.pending
                transactionId := some payout.payoutId }
            (⟨200, "Withdrawal request submitted"⟩,
              { db1 with payoutRequests := db1.payoutRequests ++ [payoutReq] })

/-! ## Observations and call sequences -/

/-- The `payments` ledger of a shop, empty when there is no such shop. -/
def shopPayments (db : Db) (shopId : Nat) : List Payment :=
  match findShop db shopId with
  | some s => s.payments
  | none => []

/-- The entries of a shop's `payments` ledger that refer to an order. -/
def paymentsForOrder (db : Db) (shopId orderId : Nat) : List Payment :=
  (shopPayments db shopId).filter (fun p => p.orderId == some orderId)

/-- The number of entries for an order in a shop's ledger with the given
`walletCredit` flag. -/
def countPayments (db : Db) (shopId orderId : Nat) (walletCredit : Bool) : Nat :=
  ((shopPayments db shopId).filter
    (fun p => p.orderId == some orderId && p.walletCredit == walletCredit)).length

/-- The `jobCredit` of a user. -/
def jobCreditOf (db : Db) (userId : Nat) : Option ℚ :=
  (findUser db userId).map (fun u => u.jobCredit)

/-- The `payouts` ledger of a user, empty when there is no such user. -/
def courierPayouts (db : Db) (userId : Nat) : List Payout :=
  match findUser db userId with
  | some u => u.payouts
  | none => []

/-- The delivery-fee credits for an order in a courier's ledger. -/
def deliveryFeeCredits (db : Db) (userId orderId : Nat) : List Payout :=
  (courierPayouts db userId).filter (isDeliveryFeeCredit orderId)

/-- The shop order `shopOrderId` of order `orderId`, as the handlers find it. -/
def shopOrderOf (db : Db) (orderId shopOrderId : Nat) : Option ShopOrder :=
  (findOrder db orderId).bind (fun o => findShopOrder o shopOrderId)

/-- One settlement request. -/
inductive SettlementCall where
  | pickup (orderId shopOrderId : Option Nat) (now : Nat)
  | delivery (orderId shopOrderId : Option Nat) (now : Nat)

/-- The database after one settlement request. -/
def runCall (db : Db) : SettlementCall → Db
  | SettlementCall.pickup o s now => (confirmPickup db o s now).2
  | SettlementCall.delivery o s now => (confirmDelivery db o s now).2

/-- The database after a sequence of settlement requests, served one after
the other. -/
def runCalls (db : Db) (calls : List SettlementCall) : Db :=
  calls.foldl runCall db

/-- The database after two `confirmPickup` requests for the same shop order. -/
def confirmPickupTwice (db : Db) (orderId shopOrderId : Option Nat) (now1 now2 : Nat) : Db :=
  (confirmPickup (confirmPickup db orderId shopOrderId now1).2 orderId shopOrderId now2).2

/-- The database after two `confirmDelivery` requests for the same shop
order. -/
def confirmDeliveryTwice (db : Db) (orderId shopOrderId : Option Nat) (now1 now2 : Nat) : Db :=
  (confirmDelivery (confirmDelivery db orderId shopOrderId now1).2 orderId shopOrderId now2).2

/-- The sum of the amounts of the entries of a shop's payout ledger that pass a
test. -/
def sumWhere (test : ShopPayout → Bool) (payouts : List ShopPayout) : ℚ :=
  ((payouts.filter test).map (fun p => p.amount)).sum

/-- The available balance as the specification words it: the earnings less
every entry with status paid, not below zero, less every entry with status
pending or in transit, not below zero. -/
def claimedAvailableBalance (totalEarnings : ℚ) (payouts : List ShopPayout) : ℚ :=
  max 0 (max 0 (totalEarnings - sumWhere (fun p => p.status == PayoutStatus.paid) payouts)
    - sumWhere (fun p => p.status == PayoutStatus.pending
        || p.status == PayoutStatus.inTransit) payouts)

/-- The test "created on or after the sandbox start date". -/
def sinceSandboxStart (p : ShopPayout) : Bool :=
  decide (ShopController.newSandboxStartDate ≤ p.createdAt)

/-- The shop order of order `orderId` that belongs to shop `shopId`, as
`cancelShopOrder` and `updateOrderItems` find it. -/
def shopOrderByShop (db : Db) (orderId shopId : Nat) : Option ShopOrder :=
  (findOrder db orderId).bind (fun o => findShopOrderByShop db o shopId)

/-- One payout request from the wallet, by a shop owner or by a courier. -/
inductive PayoutCall where
  | shop (userId : Nat) (amount : Option ℚ) (now requestId : Nat)
  | courier (userId : Nat) (amount : Option ℚ) (now requestId : Nat)

/-- The database after one payout request. -/
def runPayoutCall (db : Db) : PayoutCall → Db
  | PayoutCall.shop u a now r => (ShopController.requestPayoutFromWallet db u a now r).2
  | PayoutCall.courier u a now r => (UserController.requestPayoutFromWallet db u a now r).2

/-- The database after a sequence of payout requests. -/
def runPayoutCalls (db : Db) (calls : List PayoutCall) : Db :=
  calls.foldl runPayoutCall db

/-- The status of every shop order of every order, in the order of the store. -/
def statusesOf (db : Db) : List (List OrderStatus) :=
  db.orders.map (fun o => o.shopOrders.map (fun so => so.status))

/-- A status before and after a cancellation request: unchanged, or cancelled
from pending, preparing or out of delivery. -/
def cancelStep (before after : OrderStatus) : Prop :=
  after = before ∨
    (after = OrderStatus.cancelled ∧
      (before = OrderStatus.pending ∨ before = OrderStatus.preparing
        ∨ before = OrderStatus.outOfDelivery))

/-- The shops after a successful delivery confirmation, as the amended claim has
them: the shop of the shop order gets one wallet-credit entry of the shop
earnings at the end of its `payments` when the earnings are positive and its
ledger holds no wallet-credit entry for the order; no other field of that shop
and no other shop changes. -/
def shopsAfterDelivery (db : Db) (order : Order) (so : ShopOrder) (now : Nat) : List Shop :=
  let earnings := shopEarnings so.subtotal (getGpRate db.commissionPercentage)
  let credit : Shop → Shop := fun s =>
    { s with payments := s.payments ++ [walletCreditPayment order earnings now] }
  match so.shop with
  | some sh =>
    if 0 < earnings ∧ (shopPayments db sh).any
        (fun p => p.orderId == some order.id && p.walletCredit) = false then
      modifyFirst (fun s => s.id == sh) credit db.shops
    else db.shops
  | none => db.shops

/-- The users after a successful delivery confirmation, as the amended claim has
them: for an order paid online with a positive delivery fee, the assigned
courier gets one delivery-fee entry at the end of the `payouts` when the ledger
holds none for the order; no other field of the courier and no other user
changes. -/
def usersAfterDelivery (db : Db) (order : Order) (so : ShopOrder) (now : Nat) : List User :=
  let credit : User → User := fun u =>
    { u with payouts := u.payouts ++ [deliveryFeePayout order order.deliveryFee now] }
  match so.assignedDeliveryBoy with
  | some c =>
    if 0 < order.deliveryFee ∧ order.paymentMethod.isOnlinePayment = true ∧
        (courierPayouts db c).any (isDeliveryFeeCredit order.id) = false then
      modifyFirst (fun u => u.id == c) credit db.users
    else db.users
  | none => db.users

/-! ## Example states -/

/-- An order of two shop orders, both in preparation and unassigned. -/
def twoShopOrderDb : Db :=
  { orders :=
      [{ id := 1, paymentMethod := PaymentMethod.cod,
         shopOrders := [{ id := 10, status := OrderStatus.preparing },
                        { id := 11, status := OrderStatus.preparing }] }] }

/-- The assigned courier of every shop order of every order. -/
def assignedCouriers (db : Db) : List (List (Option Nat)) :=
  db.orders.map (fun o => o.shopOrders.map (fun so => so.assignedDeliveryBoy))

/-- One order (subtotal 100, delivery fee 20) ready for pickup at shop 5 with
courier 7 assigned, at a commission of 10 percent. -/
def readyDb (paymentMethod : PaymentMethod) (courier : Option Nat) : Db :=
  { orders :=
      [{ id := 1, paymentMethod := paymentMethod, totalAmount := 120, deliveryFee := 20,
         shopOrders := [{ id := 10, shop := some 5, subtotal := 100,
                          status := OrderStatus.outOfDelivery,
                          assignedDeliveryBoy := courier }] }]
    shops := [{ id := 5 }]
    users := [{ id := 7, role := Role.deliveryBoy, jobCredit := 500 }]
    commissionPercentage := some (JsNumber.finite 10) }

/-- The state of `readyDb` for a cash order when the shop document is gone. -/
def noShopDb : Db :=
  { readyDb PaymentMethod.cod (some 7) with shops := [] }

/-- Shop 5 with one delivered shop order (subtotal 100, commission 10 percent)
and one paid payout of 50 that was created in November 2023. -/
def oldPayoutShop : Shop :=
  { id := 5, owner := some 9,
    payouts := [{ payoutId := PayoutId.other "po_old", amount := 50,
                  status := PayoutStatus.paid, createdAt := 1700000000000 }] }

/-- The database around `oldPayoutShop`. -/
def oldPayoutDb : Db :=
  { orders :=
      [{ id := 1, paymentMethod := PaymentMethod.cod, totalAmount := 120, deliveryFee := 20,
         shopOrders := [{ id := 10, shop := some 5, owner := some 9, subtotal := 100,
                          status := OrderStatus.delivered }] }]
    shops := [oldPayoutShop]
    commissionPercentage := some (JsNumber.finite 10) }

/-- Courier 7 with bank details and no payouts. -/
def courier7 : User :=
  { id := 7, role := Role.deliveryBoy,
    ePaymentAccount := { bank := "KBank", accountNumber := "123" } }

/-- A database with courier 7 and no orders. -/
def courierDb : Db :=
  { users := [courier7] }

/-- The order of customer 3 at shop 5 (owner 9): out of delivery, assigned to
courier 7 and, when `pickedUpAt` is given, picked up already. -/
def cancelDb (status : OrderStatus) (pickedUpAt : Option Nat) : Db :=
  { orders :=
      [{ id := 1, user := some 3, paymentMethod := PaymentMethod.cod, totalAmount := 120,
         deliveryFee := 20,
         shopOrders := [{ id := 10, shop := some 5, owner := some 9, subtotal := 100,
                          status := status, assignedDeliveryBoy := some 7,
                          pickedUpAt := pickedUpAt }] }]
    shops := [{ id := 5, owner := some 9 }]
    users := [{ id := 3, role := Role.user }, { id := 7, role := Role.deliveryBoy },
              { id := 9, role := Role.owner }] }

/-- Three open jobs: at shop 5 (2 km north of the courier), at shop 6 (1 km
north) and at shop 8, which has no location. -/
def feedDb : Db :=
  { orders :=
      [{ id := 1, paymentMethod := PaymentMethod.cod,
         shopOrders := [{ id := 10, shop := some 5, status := OrderStatus.preparing },
                        { id := 11, shop := some 8, status := OrderStatus.outOfDelivery },
                        { id := 12, shop := some 6, status := OrderStatus.pending }] },
       { id := 2, paymentMethod := PaymentMethod.cod,
         shopOrders := [{ id := 20, shop := some 6, status := OrderStatus.preparing },
                        { id := 21, shop := some 5, status := OrderStatus.preparing,
                          assignedDeliveryBoy := some 7 }] }]
    shops := [{ id := 5, location := some { latitude := some 2, longitude := some 0 } },
              { id := 6, location := some { latitude := some 1, longitude := some 0 } },
              { id := 8 }]
    users := [{ id := 7, role := Role.deliveryBoy }] }

/-- Shop 5 of owner 9, with bank details and an empty payout ledger. -/
def payoutShop : Shop :=
  { id := 5, owner := some 9, ePaymentAccount := { bank := "KBank", accountNumber := "123" } }

/-- The database around `payoutShop`: one delivered shop order of subtotal 100
at a commission of 10 percent, so that the shop has earned 90. -/
def payoutDb : Db :=
  { orders :=
      [{ id := 1, paymentMethod := PaymentMethod.cod, totalAmount := 120, deliveryFee := 20,
         shopOrders := [{ id := 10, shop := some 5, owner := some 9, subtotal := 100,
                          status := OrderStatus.delivered }] }]
    shops := [payoutShop]
    users := [{ id := 9, role := Role.owner }]
    commissionPercentage := some (JsNumber.finite 10) }

/-- The state of `payoutDb` after the owner has asked for a payout of 50 at
time 1800000000000: a pending entry in the ledger of the shop and payout
request 1, both under the same reference. -/
def pendingPayoutDb : Db :=
  { payoutDb with
    shops :=
      [{ payoutShop with
         payouts := [{ payoutId := PayoutId.manual 1800000000000 5, amount := 50,
                       status := PayoutStatus.pending, type := PayoutType.manual,
                       createdAt := 1800000000000 }] }]
    payoutRequests :=
      [{ id := 1, user := 9, shop := some 5, requesterType := RequesterType.shop, amount := 50,
         bankInfo := "KBank • 123", status := PayoutRequestStatus.pending,
         transactionId := some (PayoutId.manual 1800000000000 5) }] }

/-- The status and the reference of every payout request. -/
def payoutRequestStates (db : Db) : List (PayoutRequestStatus × Option PayoutId) :=
  db.payoutRequests.map (fun r => (r.status, r.transactionId))

/-- The reference and the status of every entry of the payout ledger of a
shop. -/
def shopPayoutStates (db : Db) (shopId : Nat) : List (PayoutId × PayoutStatus) :=
  match findShop db shopId with
  | some s => s.payouts.map (fun p => (p.payoutId, p.status))
  | none => []

/-- An order of two shop orders: shop order 10 with the given status and
courier, and shop order 11 in preparation and unassigned. -/
def siblingDb (status : OrderStatus) (courier : Option Nat) : Db :=
  { orders :=
      [{ id := 1, paymentMethod := PaymentMethod.cod,
         shopOrders := [{ id := 10, status := status, assignedDeliveryBoy := courier },
                        { id := 11, status := OrderStatus.preparing }] }] }

/-- An order of two shops at a commission of 10 percent: the shop order of
shop 5 (subtotal 100) is still pending, that of shop 6 (subtotal 40) is
delivered. Shop 5 has bank details and an empty payout ledger. -/
def mixedDb : Db :=
  { orders :=
      [{ id := 1, paymentMethod := PaymentMethod.cod, totalAmount := 160, deliveryFee := 20,
         shopOrders := [{ id := 10, shop := some 5, owner := some 9, subtotal := 100,
                          status := OrderStatus.pending },
                        { id := 11, shop := some 6, owner := some 4, subtotal := 40,
                          status := OrderStatus.delivered }] }]
    shops := [payoutShop, { id := 6, owner := some 4 }]
    users := [{ id := 9, role := Role.owner }, { id := 4, role := Role.owner }]
    commissionPercentage := some (JsNumber.finite 10) }

/-- The total earnings of a shop as the specification words them: the sum of
the earnings over exactly the shop orders that belong to the shop and whose own
status is delivered. -/
def claimedShopEarnings (db : Db) (shopId : Nat) (gpRate : ℚ) : ℚ :=
  ((db.orders.flatMap (fun o => o.shopOrders)).filter
      (fun so => so.shop == some shopId && so.status == OrderStatus.delivered)).foldl
    (fun total so => total + shopEarnings so.subtotal gpRate) 0

end FoodDelivery

/-! # Properties -/

namespace FoodDelivery

/-! ## Rounding -/

theorem mathRound_intCast (m : ℤ) : mathRound (m : ℚ) = m := by
  unfold mathRound
  rw [Int.floor_eq_iff]
  constructor <;> linarith

theorem mathRound_le (x : ℚ) : (mathRound x : ℚ) ≤ x + 1 / 2 := by
  unfold mathRound
  exact Int.floor_le _

theorem lt_mathRound_add_one (x : ℚ) : x + 1 / 2 < (mathRound x : ℚ) + 1 := by
  unfold mathRound
  exact Int.lt_floor_add_one _

/-- Rounding the complement `n - x` of a value that is not at a tie gives the
complement of the rounded value. -/
theorem mathRound_intCast_sub (n : ℤ) (x : ℚ) (hx : ∀ m : ℤ, x ≠ m + 1 / 2) :
    mathRound ((n : ℚ) - x) = n - mathRound x := by
  have h1 := mathRound_le x
  have h2 := lt_mathRound_add_one x
  have h3 : x ≠ ((mathRound x - 1 : ℤ) : ℚ) + 1 / 2 := hx _
  have h4 : (mathRound x : ℚ) < x + 1 / 2 := by
    rcases lt_or_eq_of_le h1 with h | h
    · exact h
    · exfalso
      apply h3
      push_cast
      linarith
  show ⌊(n : ℚ) - x + 1 / 2⌋ = n - mathRound x
  rw [Int.floor_eq_iff]
  push_cast
  constructor <;> linarith

/-- For a subtotal in whole hundredths the second rounding of `confirmDelivery`
changes nothing: the shop earnings are the subtotal less the platform income. -/
theorem shopEarnings_eq_sub (s r : ℚ) (hs : ∃ n : ℤ, s = (n : ℚ) / 100) :
    shopEarnings s r = s - platformIncome s r := by
  obtain ⟨n, rfl⟩ := hs
  have key : ((n : ℚ) / 100 - platformIncome ((n : ℚ) / 100) r) * 100
      = ((n - mathRound ((n : ℚ) / 100 * r * 100) : ℤ) : ℚ) := by
    unfold platformIncome
    push_cast
    ring
  unfold shopEarnings
  rw [key, mathRound_intCast]
  unfold platformIncome
  push_cast
  ring

/-! ## C1 -/

/-- C1 as stated fails: for a subtotal of 12.345 at a rate of 10 percent the
platform income is 1.23 and the shop earnings are 11.12, which add up to 12.35
and not to the subtotal. -/
theorem split_sum_counterexample :
    ¬ (∀ s r : ℚ, 0 ≤ s → 0 ≤ r → r ≤ 1 →
        s = platformIncome s r + shopEarnings s r) := by
  intro h
  have h1 := h (2469 / 200) (1 / 10) (by norm_num) (by norm_num) (by norm_num)
  norm_num [platformIncome, shopEarnings, mathRound] at h1

/-- C1 (amended): for every subtotal that is a whole number of hundredths and
every commission rate, the platform income and the shop earnings that
`confirmDelivery` computes add up to the subtotal exactly. -/
theorem split_sum_exact (s r : ℚ) (hs : ∃ n : ℤ, s = (n : ℚ) / 100) :
    s = platformIncome s r + shopEarnings s r := by
  rw [shopEarnings_eq_sub s r hs]
  ring

/-- A subtotal of 10.50 (1050 hundredths) at 15 percent splits without drift. -/
theorem split_sum_exact_witness :
    (∃ n : ℤ, (21 / 2 : ℚ) = (n : ℚ) / 100) ∧
      (21 / 2 : ℚ) = platformIncome (21 / 2) (3 / 20) + shopEarnings (21 / 2) (3 / 20) :=
  ⟨⟨1050, by norm_num⟩, split_sum_exact (21 / 2) (3 / 20) ⟨1050, by norm_num⟩⟩

/-! ## C2 -/

/-- The two merchant amounts in exact arithmetic: for a subtotal that is a whole
number of hundredths and a rate for which a hundred times the commission is not
exactly halfway between two integers, the net of `confirmPickup` is the
subtotal less the platform income, which is the shop earnings of
`confirmDelivery`. -/
theorem pickupNetAmount_eq_of_not_tie (s r : ℚ) (hs : ∃ n : ℤ, s = (n : ℚ) / 100)
    (htie : ∀ m : ℤ, s * r * 100 ≠ (m : ℚ) + 1 / 2) :
    pickupNetAmount s r = s - platformIncome s r ∧
      pickupNetAmount s r = shopEarnings s r := by
  have hearn := shopEarnings_eq_sub s r hs
  obtain ⟨n, hn⟩ := hs
  have h1 : s * (1 - r) * 100 = (n : ℚ) - s * r * 100 := by
    rw [hn]
    ring
  have h2 : pickupNetAmount s r = s - platformIncome s r := by
    unfold pickupNetAmount platformIncome
    rw [h1, mathRound_intCast_sub n _ htie, hn]
    push_cast
    ring
  exact ⟨h2, by rw [h2, hearn]⟩

/-- At a whole-number percentage `p`, a hundred times the commission on `n`
hundredths is `n * p / 100`: unless `n * p` leaves the remainder 50, it is at
least a hundredth away from every midpoint between two integers. -/
theorem percent_margin (n : ℤ) (p : ℕ) (h : (n * (p : ℤ)) % 100 ≠ 50) (m : ℤ) :
    (1 : ℚ) / 1000 ≤ |(n : ℚ) / 100 * ((p : ℚ) / 100) * 100 - ((m : ℚ) + 1 / 2)| := by
  have hk : n * (p : ℤ) - 100 * m - 50 ≠ 0 := by
    intro h0
    apply h
    omega
  have habs : (1 : ℤ) ≤ |n * (p : ℤ) - 100 * m - 50| := Int.one_le_abs hk
  have hq : (1 : ℚ) ≤ |((n * (p : ℤ) - 100 * m - 50 : ℤ) : ℚ)| := by
    rw [← Int.cast_abs]
    exact_mod_cast habs
  have heq : (n : ℚ) / 100 * ((p : ℚ) / 100) * 100 - ((m : ℚ) + 1 / 2)
      = ((n * (p : ℤ) - 100 * m - 50 : ℤ) : ℚ) / 100 := by
    push_cast
    ring
  rw [heq, abs_div]
  have h100 : |(100 : ℚ)| = 100 := abs_of_pos (by norm_num)
  rw [h100]
  have : (1 : ℚ) / 100 ≤ |((n * (p : ℤ) - 100 * m - 50 : ℤ) : ℚ)| / 100 := by
    apply div_le_div_of_nonneg_right hq
    norm_num
  linarith

/-- C2 as stated fails: for a subtotal of 0.50 at a commission of 1 percent the
pickup credit is 0.50 (the product 49.5 is rounded up), while the platform
income is 0.01 (0.5 is rounded up) and the delivery earnings, the subtotal less
the platform income, are 0.49. -/
theorem pickup_net_counterexample :
    pickupNetAmount (1 / 2) (1 / 100) = 1 / 2 ∧
      platformIncome (1 / 2) (1 / 100) = 1 / 100 ∧
      shopEarnings (1 / 2) (1 / 100) = 49 / 100 ∧
      ¬ (∀ s r : ℚ, 0 ≤ r → r ≤ 1 → pickupNetAmount s r = s - platformIncome s r) := by
  refine ⟨?_, ?_, ?_, ?_⟩
  · norm_num [pickupNetAmount, mathRound]
  · norm_num [platformIncome, mathRound]
  · norm_num [shopEarnings, platformIncome, mathRound]
  · intro h
    have h1 := h (1 / 2) (1 / 100) (by norm_num) (by norm_num)
    norm_num [pickupNetAmount, platformIncome, mathRound] at h1

/-- C2 (amended): for every subtotal that is a whole number of hundredths, of at
most a billion, and every rate in [0, 1] for which a hundred times the
commission stays at least a thousandth away from every midpoint between two
integers, the net that `confirmPickup` credits equals the subtotal less the
platform income, which is the shop earnings of `confirmDelivery`. That is so in
particular at every whole-number percentage `p` unless the subtotal in
hundredths times `p` leaves the remainder 50 on division by 100. (Within the
stated bound the products the handlers form in double precision lie within a
ten-thousandth of the exact ones, so that away from the midpoints both round to
the same integer as here.) -/
theorem pickup_net_eq_delivery_earnings (s : ℚ) (n : ℤ) (hs : s = (n : ℚ) / 100)
    (hbound : |s| ≤ 1000000000) :
    (∀ r : ℚ, 0 ≤ r → r ≤ 1 →
        (∀ m : ℤ, (1 : ℚ) / 1000 ≤ |s * r * 100 - ((m : ℚ) + 1 / 2)|) →
        pickupNetAmount s r = s - platformIncome s r ∧
          pickupNetAmount s r = shopEarnings s r) ∧
      (∀ p : ℕ, p ≤ 100 → (n * (p : ℤ)) % 100 ≠ 50 →
        pickupNetAmount s ((p : ℚ) / 100) = s - platformIncome s ((p : ℚ) / 100) ∧
          pickupNetAmount s ((p : ℚ) / 100) = shopEarnings s ((p : ℚ) / 100)) := by
  have _hb := hbound
  have hmain : ∀ r : ℚ,
      (∀ m : ℤ, (1 : ℚ) / 1000 ≤ |s * r * 100 - ((m : ℚ) + 1 / 2)|) →
      pickupNetAmount s r = s - platformIncome s r ∧
        pickupNetAmount s r = shopEarnings s r := by
    intro r hmargin
    apply pickupNetAmount_eq_of_not_tie s r ⟨n, hs⟩
    intro m hm
    have h := hmargin m
    rw [hm, sub_self, abs_zero] at h
    norm_num at h
  refine ⟨fun r _ _ hmargin => hmain r hmargin, ?_⟩
  intro p _ hp
  apply hmain
  intro m
  rw [hs]
  exact percent_margin n p hp m

/-- A subtotal of 100 at 10 percent: ten thousand hundredths times 10 leaves the
remainder 0, and both handlers arrive at the same merchant amount. -/
theorem pickup_net_eq_delivery_earnings_witness :
    (100 : ℚ) = ((10000 : ℤ) : ℚ) / 100 ∧ |(100 : ℚ)| ≤ 1000000000 ∧
      ((10000 : ℤ) * ((10 : ℕ) : ℤ)) % 100 ≠ 50 ∧
      (pickupNetAmount 100 (((10 : ℕ) : ℚ) / 100)
          = 100 - platformIncome 100 (((10 : ℕ) : ℚ) / 100) ∧
        pickupNetAmount 100 (((10 : ℕ) : ℚ) / 100)
          = shopEarnings 100 (((10 : ℕ) : ℚ) / 100)) :=
  have hs : (100 : ℚ) = ((10000 : ℤ) : ℚ) / 100 := by norm_num
  have hb : |(100 : ℚ)| ≤ 1000000000 := by norm_num [abs_le]
  have hp : ((10000 : ℤ) * ((10 : ℕ) : ℤ)) % 100 ≠ 50 := by decide
  ⟨hs, hb, hp, (pickup_net_eq_delivery_earnings 100 10000 hs hb).2 10 (by decide) hp⟩

/-! ## C6 -/

/-- C6 as stated fails: at 1.5 km the delay is 15 seconds, not 20. -/
theorem visibility_delay_examples_counterexample :
    ¬ (calculateVisibilityDelay (some (5 / 100)) = 1 ∧
        calculateVisibilityDelay (some (1 / 2)) = 10 ∧
        calculateVisibilityDelay (some (3 / 2)) = 20 ∧
        calculateVisibilityDelay none = 60) := by
  rintro ⟨-, -, h, -⟩
  norm_num [calculateVisibilityDelay] at h

/-- C6 (amended): `calculateVisibilityDelay` returns 1 for 50 m, 10 for 500 m,
15 for 1500 m and 60 for an unknown distance. -/
theorem visibility_delay_examples :
    calculateVisibilityDelay (some (5 / 100)) = 1 ∧
      calculateVisibilityDelay (some (1 / 2)) = 10 ∧
      calculateVisibilityDelay (some (3 / 2)) = 15 ∧
      calculateVisibilityDelay none = 60 := by
  refine ⟨?_, ?_, ?_, ?_⟩ <;> norm_num [calculateVisibilityDelay]

end FoodDelivery

namespace FoodDelivery

/-! ## Store lemmas -/

theorem find?_modifyFirst_same {α : Type} (p : α → Bool) (f : α → α)
    (hf : ∀ x, p (f x) = p x) (l : List α) :
    (modifyFirst p f l).find? p = (l.find? p).map f := by
  induction l with
  | nil => rfl
  | cons x xs ih =>
    by_cases hx : p x = true
    · simp [modifyFirst, hx, List.find?, hf]
    · have hx2 : p x = false := by simpa using hx
      simp [modifyFirst, hx2, List.find?, ih]

theorem find?_modifyFirst_disjoint {α : Type} (p q : α → Bool) (f : α → α)
    (hpq : ∀ x, p x = true → q x = false) (hf : ∀ x, p x = true → q (f x) = false)
    (l : List α) :
    (modifyFirst p f l).find? q = l.find? q := by
  induction l with
  | nil => rfl
  | cons x xs ih =>
    by_cases hx : p x = true
    · simp [modifyFirst, hx, List.find?, hf x hx, hpq x hx]
    · have hx2 : p x = false := by simpa using hx
      simp [modifyFirst, hx2, List.find?, ih]

theorem findShop_id {db : Db} {sh : Nat} {shop : Shop} (h : findShop db sh = some shop) :
    shop.id = sh := by
  have h1 := List.find?_some h
  simpa using h1

theorem findUser_id {db : Db} {c : Nat} {u : User} (h : findUser db c = some u) :
    u.id = c := by
  have h1 := List.find?_some h
  simpa using h1

theorem findOrder_id {db : Db} {oid : Nat} {order : Order} (h : findOrder db oid = some order) :
    order.id = oid := by
  have h1 := List.find?_some h
  simpa using h1

theorem findShop_saveShop_same (db : Db) (a : Nat) (f : Shop → Shop)
    (hf : ∀ s, (f s).id = s.id) :
    findShop (saveShop db a f) a = (findShop db a).map f := by
  unfold findShop saveShop
  exact find?_modifyFirst_same _ f (fun x => by simp [hf]) db.shops

theorem findShop_saveShop_ne (db : Db) (a b : Nat) (f : Shop → Shop)
    (hf : ∀ s, (f s).id = s.id) (hab : a ≠ b) :
    findShop (saveShop db a f) b = findShop db b := by
  unfold findShop saveShop
  apply find?_modifyFirst_disjoint
  · intro x hx
    have h1 : x.id = a := by simpa using hx
    simp [h1, hab]
  · intro x hx
    have h1 : x.id = a := by simpa using hx
    simp [hf, h1, hab]

theorem findUser_saveUser_same (db : Db) (a : Nat) (f : User → User)
    (hf : ∀ u, (f u).id = u.id) :
    findUser (saveUser db a f) a = (findUser db a).map f := by
  unfold findUser saveUser
  exact find?_modifyFirst_same _ f (fun x => by simp [hf]) db.users

theorem findUser_saveUser_ne (db : Db) (a b : Nat) (f : User → User)
    (hf : ∀ u, (f u).id = u.id) (hab : a ≠ b) :
    findUser (saveUser db a f) b = findUser db b := by
  unfold findUser saveUser
  apply find?_modifyFirst_disjoint
  · intro x hx
    have h1 : x.id = a := by simpa using hx
    simp [h1, hab]
  · intro x hx
    have h1 : x.id = a := by simpa using hx
    simp [hf, h1, hab]

theorem shopOrderOf_saveShopOrder (db : Db) (oid sid : Nat) (f : ShopOrder → ShopOrder)
    (hf : ∀ so, (f so).id = so.id) :
    shopOrderOf (saveShopOrder db oid sid f) oid sid = (shopOrderOf db oid sid).map f := by
  unfold shopOrderOf findOrder saveShopOrder
  simp only []
  rw [find?_modifyFirst_same _ _ (fun x => by simp)]
  cases h : db.orders.find? (fun o => o.id == oid) with
  | none => rfl
  | some o =>
    simp only [Option.map_some', Option.some_bind, findShopOrder]
    exact find?_modifyFirst_same _ f (fun x => by simp [hf]) o.shopOrders

theorem shopPayments_saveShop_push (db : Db) (a b : Nat) (e : Payment) (shop : Shop)
    (h : findShop db a = some shop) :
    shopPayments (saveShop db a (fun s => { s with payments := s.payments ++ [e] })) b
      = shopPayments db b ++ (if a = b then [e] else []) := by
  by_cases hab : a = b
  · subst hab
    simp only [shopPayments, if_true]
    rw [findShop_saveShop_same db a (fun s => { s with payments := s.payments ++ [e] })
      (fun _ => rfl), h]
    rfl
  · simp only [shopPayments, if_neg hab, List.append_nil]
    rw [findShop_saveShop_ne db a b (fun s => { s with payments := s.payments ++ [e] })
      (fun _ => rfl) hab]

theorem courierPayouts_saveUser_push (db : Db) (a b : Nat) (e : Payout) (u : User)
    (h : findUser db a = some u) :
    courierPayouts (saveUser db a (fun s => { s with payouts := s.payouts ++ [e] })) b
      = courierPayouts db b ++ (if a = b then [e] else []) := by
  by_cases hab : a = b
  · subst hab
    simp only [courierPayouts, if_true]
    rw [findUser_saveUser_same db a (fun s => { s with payouts := s.payouts ++ [e] })
      (fun _ => rfl), h]
    rfl
  · simp only [courierPayouts, if_neg hab, List.append_nil]
    rw [findUser_saveUser_ne db a b (fun s => { s with payouts := s.payouts ++ [e] })
      (fun _ => rfl) hab]

end FoodDelivery

namespace FoodDelivery

/-! ## Effects of the settlement steps -/

theorem creditShopAtPickup_frame (db : Db) (order : Order) (so : ShopOrder) (g : ℚ) (now : Nat) :
    (creditShopAtPickup db order so g now).orders = db.orders ∧
      (creditShopAtPickup db order so g now).users = db.users ∧
      (creditShopAtPickup db order so g now).commissionPercentage = db.commissionPercentage := by
  unfold creditShopAtPickup
  simp only []
  split
  · split
    · exact ⟨rfl, rfl, rfl⟩
    · split <;> exact ⟨rfl, rfl, rfl⟩
  · exact ⟨rfl, rfl, rfl⟩

theorem creditShopAtDelivery_frame (db : Db) (order : Order) (so : ShopOrder) (g : ℚ)
    (now : Nat) :
    (creditShopAtDelivery db order so g now).orders = db.orders ∧
      (creditShopAtDelivery db order so g now).users = db.users ∧
      (creditShopAtDelivery db order so g now).commissionPercentage
        = db.commissionPercentage := by
  unfold creditShopAtDelivery
  simp only []
  split
  · split
    · exact ⟨rfl, rfl, rfl⟩
    · split <;> exact ⟨rfl, rfl, rfl⟩
  · exact ⟨rfl, rfl, rfl⟩

theorem deductCourierAtPickup_frame (db : Db) (order : Order) (so : ShopOrder) (g : ℚ) :
    (deductCourierAtPickup db order so g).orders = db.orders ∧
      (deductCourierAtPickup db order so g).shops = db.shops ∧
      (deductCourierAtPickup db order so g).commissionPercentage = db.commissionPercentage := by
  unfold deductCourierAtPickup
  simp only []
  split
  · split <;> exact ⟨rfl, rfl, rfl⟩
  · exact ⟨rfl, rfl, rfl⟩

theorem creditCourierAtDelivery_frame (db : Db) (order : Order) (so : ShopOrder) (now : Nat) :
    (creditCourierAtDelivery db order so now).orders = db.orders ∧
      (creditCourierAtDelivery db order so now).shops = db.shops ∧
      (creditCourierAtDelivery db order so now).commissionPercentage
        = db.commissionPercentage := by
  unfold creditCourierAtDelivery
  simp only []
  split
  · split
    · exact ⟨rfl, rfl, rfl⟩
    · split <;> exact ⟨rfl, rfl, rfl⟩
  · exact ⟨rfl, rfl, rfl⟩

theorem shopPayments_congr {db db2 : Db} (h : db2.shops = db.shops) (sh : Nat) :
    shopPayments db2 sh = shopPayments db sh := by
  unfold shopPayments findShop
  rw [h]

theorem courierPayouts_congr {db db2 : Db} (h : db2.users = db.users) (c : Nat) :
    courierPayouts db2 c = courierPayouts db c := by
  unfold courierPayouts findUser
  rw [h]

theorem jobCreditOf_congr {db db2 : Db} (h : db2.users = db.users) (c : Nat) :
    jobCreditOf db2 c = jobCreditOf db c := by
  unfold jobCreditOf findUser
  rw [h]

/-- What the pickup credit does to every shop ledger. -/
theorem shopPayments_creditShopAtPickup (db : Db) (order : Order) (so : ShopOrder) (g : ℚ)
    (now : Nat) (sh : Nat) :
    shopPayments (creditShopAtPickup db order so g now) sh
      = shopPayments db sh ++
        (if so.subtotal ≠ 0 ∧ so.shop = some sh ∧ (findShop db sh).isSome = true ∧
            (shopPayments db sh).any (fun p => p.orderId == some order.id) = false
          then [pickupPayment order (pickupNetAmount so.subtotal g) now] else []) := by
  unfold creditShopAtPickup
  cases hshop : so.shop with
  | none => simp
  | some a =>
    cases hfind : findShop db a with
    | none =>
      have : ¬ (a = sh ∧ (findShop db sh).isSome = true) := by
        rintro ⟨rfl, h2⟩
        simp [hfind] at h2
      simp [hfind]
      intro _ h1 h2
      exact absurd ⟨h1, by simpa using h2⟩ this
    | some shop =>
      have hid : shop.id = a := findShop_id hfind
      by_cases hsub : so.subtotal = 0
      · simp [hsub]
      · by_cases hany : shop.payments.any (fun p => p.orderId == some order.id) = true
        · have hne : ¬ (a = sh ∧
              (shopPayments db sh).any (fun p => p.orderId == some order.id) = false) := by
            rintro ⟨rfl, h2⟩
            simp only [shopPayments, hfind] at h2
            rw [hany] at h2
            exact Bool.noConfusion h2
          simp only [hfind, Option.some_bind, Option.map_some', hid, hany, if_true,
            Option.isSome_some, and_true, ne_eq, hsub, not_false_eq_true]
          rw [if_neg]
          · simp
          · rintro ⟨_, h1, _, h3⟩
            exact hne ⟨Option.some.inj h1, h3⟩
        · have hany2 : shop.payments.any (fun p => p.orderId == some order.id) = false := by
            simpa using hany
          simp only [hfind, Option.some_bind, Option.map_some', hid, hany2, if_true,
            Option.isSome_some, and_true, ne_eq, hsub, not_false_eq_true]
          simp only [Bool.false_eq_true, if_false]
          rw [shopPayments_saveShop_push db a sh _ shop hfind]
          by_cases hab : a = sh
          · subst hab
            simp [shopPayments, hfind, hany2]
          · have : ¬ (some a = some sh) := fun h => hab (Option.some.inj h)
            simp [hab, this]

end FoodDelivery

namespace FoodDelivery

/-- What the delivery credit does to every shop ledger. -/
theorem shopPayments_creditShopAtDelivery (db : Db) (order : Order) (so : ShopOrder) (g : ℚ)
    (now : Nat) (sh : Nat) :
    shopPayments (creditShopAtDelivery db order so g now) sh
      = shopPayments db sh ++
        (if 0 < shopEarnings so.subtotal g ∧ so.shop = some sh ∧
            (findShop db sh).isSome = true ∧
            (shopPayments db sh).any
              (fun p => p.orderId == some order.id && p.walletCredit) = false
          then [walletCreditPayment order (shopEarnings so.subtotal g) now] else []) := by
  unfold creditShopAtDelivery
  cases hshop : so.shop with
  | none => simp
  | some a =>
    by_cases hpos : 0 < shopEarnings so.subtotal g
    · cases hfind : findShop db a with
      | none =>
        have : ¬ (a = sh ∧ (findShop db sh).isSome = true) := by
          rintro ⟨rfl, h2⟩
          simp [hfind] at h2
        simp [hfind]
        intro _ h1 h2
        exact absurd ⟨h1, by simpa using h2⟩ this
      | some shop =>
        have hid : shop.id = a := findShop_id hfind
        by_cases hany : shop.payments.any
            (fun p => p.orderId == some order.id && p.walletCredit) = true
        · have hne : ¬ (a = sh ∧ (shopPayments db sh).any
              (fun p => p.orderId == some order.id && p.walletCredit) = false) := by
            rintro ⟨rfl, h2⟩
            simp only [shopPayments, hfind] at h2
            rw [hany] at h2
            exact Bool.noConfusion h2
          simp only [hfind, Option.some_bind, hid, hany, if_true,
            Option.isSome_some, true_and, gt_iff_lt, hpos]
          rw [if_neg]
          · simp
          · rintro ⟨h1, _, h3⟩
            exact hne ⟨Option.some.inj h1, h3⟩
        · have hany2 : shop.payments.any
              (fun p => p.orderId == some order.id && p.walletCredit) = false := by
            simpa using hany
          simp only [hfind, Option.some_bind, hid, hany2, if_true,
            Option.isSome_some, true_and, gt_iff_lt, hpos]
          simp only [Bool.false_eq_true, if_false]
          rw [shopPayments_saveShop_push db a sh _ shop hfind]
          by_cases hab : a = sh
          · subst hab
            simp [shopPayments, hfind, hany2]
          · have : ¬ (some a = some sh) := fun h => hab (Option.some.inj h)
            simp [hab, this]
    · simp [hpos]

/-- What the delivery-fee credit does to every courier ledger. -/
theorem courierPayouts_creditCourierAtDelivery (db : Db) (order : Order) (so : ShopOrder)
    (now : Nat) (c : Nat) :
    courierPayouts (creditCourierAtDelivery db order so now) c
      = courierPayouts db c ++
        (if so.assignedDeliveryBoy = some c ∧ (findUser db c).isSome = true ∧
            0 < order.deliveryFee ∧ order.paymentMethod.isOnlinePayment = true ∧
            (courierPayouts db c).any (isDeliveryFeeCredit order.id) = false
          then [deliveryFeePayout order order.deliveryFee now] else []) := by
  unfold creditCourierAtDelivery
  cases hboy : so.assignedDeliveryBoy with
  | none => simp
  | some a =>
    cases hfind : findUser db a with
    | none =>
      have : ¬ (a = c ∧ (findUser db c).isSome = true) := by
        rintro ⟨rfl, h2⟩
        simp [hfind] at h2
      simp [hfind]
      intro h1 h2
      exact absurd ⟨h1, by simpa using h2⟩ this
    | some u =>
      have hid : u.id = a := findUser_id hfind
      by_cases hcond : 0 < order.deliveryFee ∧ order.paymentMethod.isOnlinePayment = true
      · obtain ⟨hfee, honline⟩ := hcond
        by_cases hany : u.payouts.any (isDeliveryFeeCredit order.id) = true
        · have hne : ¬ (a = c ∧
              (courierPayouts db c).any (isDeliveryFeeCredit order.id) = false) := by
            rintro ⟨rfl, h2⟩
            simp only [courierPayouts, hfind] at h2
            rw [hany] at h2
            exact Bool.noConfusion h2
          simp only [hfind, Option.some_bind, hid, hany, if_true,
            Option.isSome_some, true_and, gt_iff_lt, hfee, honline, and_self]
          rw [if_neg]
          · simp
          · rintro ⟨h1, _, h3⟩
            exact hne ⟨Option.some.inj h1, h3⟩
        · have hany2 : u.payouts.any (isDeliveryFeeCredit order.id) = false := by
            simpa using hany
          simp only [hfind, Option.some_bind, hid, hany2, if_true,
            Option.isSome_some, true_and, gt_iff_lt, hfee, honline, and_self]
          simp only [Bool.false_eq_true, if_false]
          rw [courierPayouts_saveUser_push db a c _ u hfind]
          by_cases hab : a = c
          · subst hab
            simp [courierPayouts, hfind, hany2]
          · have : ¬ (some a = some c) := fun h => hab (Option.some.inj h)
            simp [hab, this]
      · have h1 : ¬ (Option.isSome (some u) = true ∧ order.deliveryFee > 0 ∧
            order.paymentMethod.isOnlinePayment = true) := fun h => hcond h.2
        have h2 : ¬ (some a = some c ∧ (findUser db c).isSome = true ∧
            0 < order.deliveryFee ∧ order.paymentMethod.isOnlinePayment = true ∧
            (courierPayouts db c).any (isDeliveryFeeCredit order.id) = false) :=
          fun h => hcond ⟨h.2.2.1, h.2.2.2.1⟩
        simp only [hfind, Option.some_bind]
        rw [if_neg h1, if_neg h2]
        simp

/-- What the pickup deduction does to every job credit. -/
theorem jobCreditOf_deductCourierAtPickup (db : Db) (order : Order) (so : ShopOrder) (g : ℚ)
    (c : Nat) :
    jobCreditOf (deductCourierAtPickup db order so g) c
      = (jobCreditOf db c).map (fun j =>
          if order.paymentMethod = PaymentMethod.cod ∧ so.subtotal ≠ 0 ∧
              so.assignedDeliveryBoy = some c
            then j - pickupNetAmount so.subtotal g else j) := by
  unfold deductCourierAtPickup
  cases hboy : so.assignedDeliveryBoy with
  | none => simp
  | some a =>
    simp only [Option.some_bind]
    cases hfind : findUser db a with
    | none =>
      by_cases hab : a = c
      · subst hab
        simp [jobCreditOf, hfind]
      · have : ¬ (some a = some c) := fun h => hab (Option.some.inj h)
        simp [this]
    | some u =>
      have hid : u.id = a := findUser_id hfind
      by_cases hcond : order.paymentMethod = PaymentMethod.cod ∧ so.subtotal ≠ 0
      · have h1 : order.paymentMethod = PaymentMethod.cod ∧ so.subtotal ≠ 0 ∧
            Option.isSome (some u) = true := ⟨hcond.1, hcond.2, rfl⟩
        simp only [if_pos h1, hid]
        by_cases hab : a = c
        · subst hab
          unfold jobCreditOf
          rw [findUser_saveUser_same db a
            (fun u => { u with jobCredit := u.jobCredit + -pickupNetAmount so.subtotal g })
            (fun _ => rfl), hfind]
          simp [hcond.1, hcond.2, sub_eq_add_neg]
        · have h2 : ¬ (some a = some c) := fun h => hab (Option.some.inj h)
          unfold jobCreditOf
          rw [findUser_saveUser_ne db a c
            (fun u => { u with jobCredit := u.jobCredit + -pickupNetAmount so.subtotal g })
            (fun _ => rfl) hab]
          simp [h2]
          rfl
      · have h1 : ¬ (order.paymentMethod = PaymentMethod.cod ∧ so.subtotal ≠ 0 ∧
            Option.isSome (some u) = true) := fun h => hcond ⟨h.1, h.2.1⟩
        have h2 : ∀ j : ℚ, (if order.paymentMethod = PaymentMethod.cod ∧ so.subtotal ≠ 0 ∧
              some a = some c then j - pickupNetAmount so.subtotal g else j) = j := by
          intro j
          rw [if_neg]
          exact fun h => hcond ⟨h.1, h.2.1⟩
        simp only [if_neg h1, h2]
        simp

end FoodDelivery

namespace FoodDelivery

/-! ## The two handlers as a whole -/

/-- The database `confirmPickup` commits when it goes through. -/
theorem confirmPickup_success (db : Db) (oid sid now : Nat) (order : Order) (so : ShopOrder)
    (ho : findOrder db oid = some order) (hso : findShopOrder order sid = some so)
    (hp : so.pickedUpAt = none) (hst : so.status = OrderStatus.outOfDelivery) :
    confirmPickup db (some oid) (some sid) now
      = (⟨200, "Pickup confirmed successfully"⟩,
          saveShopOrder
            (deductCourierAtPickup
              (creditShopAtPickup db order so (getGpRate db.commissionPercentage) now)
              order so (getGpRate db.commissionPercentage))
            oid sid (fun s => { s with pickedUpAt := some now })) := by
  simp [confirmPickup, ho, hso, hp, hst]

/-- Every call of `confirmPickup` either leaves the database alone or goes
through. -/
theorem confirmPickup_cases (db : Db) (o s : Option Nat) (now : Nat) :
    ((confirmPickup db o s now).2 = db ∧
        (confirmPickup db o s now).1 ≠ ⟨200, "Pickup confirmed successfully"⟩) ∨
      ∃ oid sid order so, o = some oid ∧ s = some sid ∧ findOrder db oid = some order ∧
        findShopOrder order sid = some so ∧ so.pickedUpAt = none ∧
        so.status = OrderStatus.outOfDelivery := by
  cases o with
  | none => left; simp [confirmPickup]
  | some oid =>
    cases s with
    | none => left; simp [confirmPickup]
    | some sid =>
      cases ho : findOrder db oid with
      | none => left; simp [confirmPickup, ho]
      | some order =>
        cases hso : findShopOrder order sid with
        | none => left; simp [confirmPickup, ho, hso]
        | some so =>
          cases hp : so.pickedUpAt with
          | some t => left; simp [confirmPickup, ho, hso, hp]
          | none =>
            by_cases hst : so.status = OrderStatus.outOfDelivery
            · right
              exact ⟨oid, sid, order, so, rfl, rfl, ho, hso, hp, hst⟩
            · left
              simp [confirmPickup, ho, hso, hp, hst]

/-- The database `confirmDelivery` leaves when it goes through. -/
theorem confirmDelivery_success (db : Db) (oid sid now : Nat) (order : Order) (so : ShopOrder)
    (ho : findOrder db oid = some order) (hso : findShopOrder order sid = some so)
    (hst : so.status ≠ OrderStatus.delivered) :
    confirmDelivery db (some oid) (some sid) now
      = (⟨200, "Delivery confirmed successfully"⟩,
          saveShopOrder
            (creditCourierAtDelivery
              (creditShopAtDelivery db order so (getGpRate db.commissionPercentage) now)
              order so now)
            oid sid
            (fun s => { s with status := OrderStatus.delivered, deliveredAt := some now })) := by
  simp [confirmDelivery, ho, hso, hst]

/-- Every call of `confirmDelivery` either leaves the database alone or goes
through. -/
theorem confirmDelivery_cases (db : Db) (o s : Option Nat) (now : Nat) :
    ((confirmDelivery db o s now).2 = db ∧
        (confirmDelivery db o s now).1 ≠ ⟨200, "Delivery confirmed successfully"⟩) ∨
      ∃ oid sid order so, o = some oid ∧ s = some sid ∧ findOrder db oid = some order ∧
        findShopOrder order sid = some so ∧ so.status ≠ OrderStatus.delivered := by
  cases o with
  | none => left; simp [confirmDelivery]
  | some oid =>
    cases s with
    | none => left; simp [confirmDelivery]
    | some sid =>
      cases ho : findOrder db oid with
      | none => left; simp [confirmDelivery, ho]
      | some order =>
        cases hso : findShopOrder order sid with
        | none => left; simp [confirmDelivery, ho, hso]
        | some so =>
          by_cases hst : so.status = OrderStatus.delivered
          · left
            simp [confirmDelivery, ho, hso, hst]
          · right
            exact ⟨oid, sid, order, so, rfl, rfl, ho, hso, hst⟩

theorem shopOrderOf_congr {db db2 : Db} (h : db2.orders = db.orders) (oid sid : Nat) :
    shopOrderOf db2 oid sid = shopOrderOf db oid sid := by
  unfold shopOrderOf findOrder
  rw [h]

/-- The shop order a successful `confirmPickup` leaves behind. -/
theorem shopOrderOf_confirmPickup (db : Db) (oid sid now : Nat) (order : Order) (so : ShopOrder)
    (ho : findOrder db oid = some order) (hso : findShopOrder order sid = some so)
    (hp : so.pickedUpAt = none) (hst : so.status = OrderStatus.outOfDelivery) :
    shopOrderOf (confirmPickup db (some oid) (some sid) now).2 oid sid
      = some { so with pickedUpAt := some now } := by
  rw [confirmPickup_success db oid sid now order so ho hso hp hst]
  simp only []
  rw [shopOrderOf_saveShopOrder _ oid sid (fun s => { s with pickedUpAt := some now })
    (fun _ => rfl)]
  rw [shopOrderOf_congr (deductCourierAtPickup_frame _ _ _ _).1,
    shopOrderOf_congr (creditShopAtPickup_frame _ _ _ _ _).1]
  simp [shopOrderOf, ho, hso]

/-- The shop order a successful `confirmDelivery` leaves behind. -/
theorem shopOrderOf_confirmDelivery (db : Db) (oid sid now : Nat) (order : Order)
    (so : ShopOrder)
    (ho : findOrder db oid = some order) (hso : findShopOrder order sid = some so)
    (hst : so.status ≠ OrderStatus.delivered) :
    shopOrderOf (confirmDelivery db (some oid) (some sid) now).2 oid sid
      = some { so with status := OrderStatus.delivered, deliveredAt := some now } := by
  rw [confirmDelivery_success db oid sid now order so ho hso hst]
  simp only []
  rw [shopOrderOf_saveShopOrder _ oid sid
    (fun s => { s with status := OrderStatus.delivered, deliveredAt := some now })
    (fun _ => rfl)]
  rw [shopOrderOf_congr (creditCourierAtDelivery_frame _ _ _ _).1,
    shopOrderOf_congr (creditShopAtDelivery_frame _ _ _ _ _).1]
  simp [shopOrderOf, ho, hso]

/-- A handler that finds the shop order reads it through `shopOrderOf`. -/
theorem shopOrderOf_some {db : Db} {oid sid : Nat} {so : ShopOrder}
    (h : shopOrderOf db oid sid = some so) :
    ∃ order, findOrder db oid = some order ∧ findShopOrder order sid = some so := by
  unfold shopOrderOf at h
  cases ho : findOrder db oid with
  | none => simp [ho] at h
  | some order => exact ⟨order, rfl, by simpa [ho] using h⟩

/-- A second `confirmPickup` on a shop order that was picked up changes
nothing. -/
theorem confirmPickup_again (db : Db) (oid sid now t : Nat) (so : ShopOrder)
    (h : shopOrderOf db oid sid = some so) (hp : so.pickedUpAt = some t) :
    confirmPickup db (some oid) (some sid) now = (⟨200, "Pickup already confirmed"⟩, db) := by
  obtain ⟨order, ho, hso⟩ := shopOrderOf_some h
  simp [confirmPickup, ho, hso, hp]

/-- A second `confirmDelivery` on a delivered shop order changes nothing. -/
theorem confirmDelivery_again (db : Db) (oid sid now : Nat) (so : ShopOrder)
    (h : shopOrderOf db oid sid = some so) (hst : so.status = OrderStatus.delivered) :
    confirmDelivery db (some oid) (some sid) now
      = (⟨200, "Delivery already confirmed"⟩, db) := by
  obtain ⟨order, ho, hso⟩ := shopOrderOf_some h
  simp [confirmDelivery, ho, hso, hst]

end FoodDelivery

namespace FoodDelivery

theorem any_eq_false_of_filter_eq_nil {α : Type} (p : α → Bool) (l : List α)
    (h : l.filter p = []) : l.any p = false := by
  induction l with
  | nil => rfl
  | cons x xs ih =>
    by_cases hx : p x = true
    · simp [List.filter, hx] at h
    · have hx2 : p x = false := by simpa using hx
      simp only [List.filter, hx2] at h
      simp [List.any, hx2, ih h]

theorem filter_eq_nil_of_any_eq_false {α : Type} (p : α → Bool) (l : List α)
    (h : l.any p = false) : l.filter p = [] := by
  induction l with
  | nil => rfl
  | cons x xs ih =>
    simp only [List.any, Bool.or_eq_false_iff] at h
    simp [List.filter, h.1, ih h.2]

theorem shopPayments_saveShopOrder (db : Db) (oid sid : Nat) (f : ShopOrder → ShopOrder)
    (sh : Nat) : shopPayments (saveShopOrder db oid sid f) sh = shopPayments db sh := rfl

theorem jobCreditOf_saveShopOrder (db : Db) (oid sid : Nat) (f : ShopOrder → ShopOrder)
    (c : Nat) : jobCreditOf (saveShopOrder db oid sid f) c = jobCreditOf db c := rfl

theorem courierPayouts_saveShopOrder (db : Db) (oid sid : Nat) (f : ShopOrder → ShopOrder)
    (c : Nat) : courierPayouts (saveShopOrder db oid sid f) c = courierPayouts db c := rfl

/-- The shop ledgers after a successful `confirmPickup`. -/
theorem shopPayments_confirmPickup (db : Db) (oid sid now : Nat) (order : Order)
    (so : ShopOrder)
    (ho : findOrder db oid = some order) (hso : findShopOrder order sid = some so)
    (hp : so.pickedUpAt = none) (hst : so.status = OrderStatus.outOfDelivery) (sh : Nat) :
    shopPayments (confirmPickup db (some oid) (some sid) now).2 sh
      = shopPayments db sh ++
        (if so.subtotal ≠ 0 ∧ so.shop = some sh ∧ (findShop db sh).isSome = true ∧
            (shopPayments db sh).any (fun p => p.orderId == some order.id) = false
          then [pickupPayment order
            (pickupNetAmount so.subtotal (getGpRate db.commissionPercentage)) now]
          else []) := by
  rw [confirmPickup_success db oid sid now order so ho hso hp hst]
  simp only []
  rw [shopPayments_saveShopOrder,
    shopPayments_congr (deductCourierAtPickup_frame _ _ _ _).2.1,
    shopPayments_creditShopAtPickup]

/-- The job credits after a successful `confirmPickup`. -/
theorem jobCreditOf_confirmPickup (db : Db) (oid sid now : Nat) (order : Order)
    (so : ShopOrder)
    (ho : findOrder db oid = some order) (hso : findShopOrder order sid = some so)
    (hp : so.pickedUpAt = none) (hst : so.status = OrderStatus.outOfDelivery) (c : Nat) :
    jobCreditOf (confirmPickup db (some oid) (some sid) now).2 c
      = (jobCreditOf db c).map (fun j =>
          if order.paymentMethod = PaymentMethod.cod ∧ so.subtotal ≠ 0 ∧
              so.assignedDeliveryBoy = some c
            then j - pickupNetAmount so.subtotal (getGpRate db.commissionPercentage)
            else j) := by
  rw [confirmPickup_success db oid sid now order so ho hso hp hst]
  simp only []
  rw [jobCreditOf_saveShopOrder, jobCreditOf_deductCourierAtPickup,
    jobCreditOf_congr (creditShopAtPickup_frame _ _ _ _ _).2.1]

/-! ## C4 -/

/-- C4 as stated fails: on an online-paid order both calls go through as the
claim supposes, yet the courier's `jobCredit` (500) is not decreased at all,
although the net amount of the order is 90. -/
theorem confirmPickup_idempotent_counterexample :
    (confirmPickup (readyDb PaymentMethod.online (some 7)) (some 1) (some 10) 3).1
        = ⟨200, "Pickup confirmed successfully"⟩ ∧
      jobCreditOf (readyDb PaymentMethod.online (some 7)) 7 = some 500 ∧
      jobCreditOf (confirmPickupTwice (readyDb PaymentMethod.online (some 7))
        (some 1) (some 10) 3 4) 7 = some 500 ∧
      pickupNetAmount 100 (getGpRate (some (JsNumber.finite 10))) = 90 := by
  refine ⟨rfl, rfl, rfl, ?_⟩
  norm_num [pickupNetAmount, getGpRate, mathRound]

/-- C4 (amended): when the first `confirmPickup` goes through (shop order found,
not picked up, out of delivery), the second call answers that the pickup was
confirmed already and leaves the state as the first call left it. After both
calls the merchant's ledger holds exactly one entry for the order when the
subtotal is not zero, the shop exists and its ledger held no entry for the
order; the courier's `jobCredit` has been decreased once, by the net amount,
when the order is cash on delivery with a subtotal that is not zero and an
assigned courier, and no `jobCredit` has changed when the order is not cash on
delivery. -/
theorem confirmPickup_idempotent (db : Db) (oid sid now1 now2 : Nat) (order : Order)
    (so : ShopOrder)
    (ho : findOrder db oid = some order) (hso : findShopOrder order sid = some so)
    (hp : so.pickedUpAt = none) (hst : so.status = OrderStatus.outOfDelivery) :
    (confirmPickup db (some oid) (some sid) now1).1
        = ⟨200, "Pickup confirmed successfully"⟩ ∧
      confirmPickup (confirmPickup db (some oid) (some sid) now1).2 (some oid) (some sid) now2
        = (⟨200, "Pickup already confirmed"⟩,
            (confirmPickup db (some oid) (some sid) now1).2) ∧
      (∀ sh, so.shop = some sh → (findShop db sh).isSome = true → so.subtotal ≠ 0 →
        paymentsForOrder db sh oid = [] →
        paymentsForOrder (confirmPickupTwice db (some oid) (some sid) now1 now2) sh oid
          = [pickupPayment order
              (pickupNetAmount so.subtotal (getGpRate db.commissionPercentage)) now1]) ∧
      (∀ c j, order.paymentMethod = PaymentMethod.cod → so.subtotal ≠ 0 →
        so.assignedDeliveryBoy = some c → jobCreditOf db c = some j →
        jobCreditOf (confirmPickupTwice db (some oid) (some sid) now1 now2) c
          = some (j - pickupNetAmount so.subtotal (getGpRate db.commissionPercentage))) ∧
      (order.paymentMethod ≠ PaymentMethod.cod →
        ∀ c, jobCreditOf (confirmPickupTwice db (some oid) (some sid) now1 now2) c
          = jobCreditOf db c) := by
  have hid : order.id = oid := findOrder_id ho
  have hsecond : confirmPickup (confirmPickup db (some oid) (some sid) now1).2
      (some oid) (some sid) now2
        = (⟨200, "Pickup already confirmed"⟩,
            (confirmPickup db (some oid) (some sid) now1).2) :=
    confirmPickup_again _ oid sid now2 now1 _
      (shopOrderOf_confirmPickup db oid sid now1 order so ho hso hp hst) rfl
  have htwice : confirmPickupTwice db (some oid) (some sid) now1 now2
      = (confirmPickup db (some oid) (some sid) now1).2 := by
    unfold confirmPickupTwice
    rw [hsecond]
  refine ⟨?_, hsecond, ?_, ?_, ?_⟩
  · rw [confirmPickup_success db oid sid now1 order so ho hso hp hst]
  · intro sh hshop hfind hsub hnone
    have hany : (shopPayments db sh).any (fun p => p.orderId == some order.id) = false := by
      rw [hid]
      exact any_eq_false_of_filter_eq_nil _ _ hnone
    rw [htwice]
    unfold paymentsForOrder at hnone ⊢
    rw [shopPayments_confirmPickup db oid sid now1 order so ho hso hp hst sh,
      if_pos ⟨hsub, hshop, hfind, hany⟩, List.filter_append, hnone]
    simp [pickupPayment, hid]
  · intro c j hcod hsub hboy hj
    rw [htwice, jobCreditOf_confirmPickup db oid sid now1 order so ho hso hp hst c, hj]
    simp [hcod, hsub, hboy]
  · intro hcod c
    rw [htwice, jobCreditOf_confirmPickup db oid sid now1 order so ho hso hp hst c]
    simp [hcod]

/-- The second pickup request on the cash order of `readyDb` changes nothing. -/
theorem confirmPickup_idempotent_witness :
    confirmPickup (confirmPickup (readyDb PaymentMethod.cod (some 7)) (some 1) (some 10) 3).2
        (some 1) (some 10) 4
      = (⟨200, "Pickup already confirmed"⟩,
          (confirmPickup (readyDb PaymentMethod.cod (some 7)) (some 1) (some 10) 3).2) :=
  (confirmPickup_idempotent (readyDb PaymentMethod.cod (some 7)) 1 10 3 4
    { id := 1, paymentMethod := PaymentMethod.cod, totalAmount := 120, deliveryFee := 20,
      shopOrders := [{ id := 10, shop := some 5, subtotal := 100,
                       status := OrderStatus.outOfDelivery,
                       assignedDeliveryBoy := some 7 }] }
    { id := 10, shop := some 5, subtotal := 100, status := OrderStatus.outOfDelivery,
      assignedDeliveryBoy := some 7 }
    rfl rfl rfl rfl).2.1

end FoodDelivery

namespace FoodDelivery

theorem filter_length_pos_of_any {α : Type} (p : α → Bool) (l : List α)
    (h : l.any p = true) : 0 < (l.filter p).length := by
  induction l with
  | nil => simp at h
  | cons x xs ih =>
    by_cases hx : p x = true
    · simp [List.filter, hx]
    · have hx2 : p x = false := by simpa using hx
      simp only [List.any, hx2, Bool.false_or] at h
      simpa [List.filter, hx2] using ih h

theorem findUser_congr {db db2 : Db} (h : db2.users = db.users) (c : Nat) :
    findUser db2 c = findUser db c := by
  unfold findUser
  rw [h]

theorem findShop_congr {db db2 : Db} (h : db2.shops = db.shops) (sh : Nat) :
    findShop db2 sh = findShop db sh := by
  unfold findShop
  rw [h]

/-- Saving a user with the same id and the same job credit changes no job
credit. -/
theorem jobCreditOf_saveUser (db : Db) (a : Nat) (f : User → User)
    (hid : ∀ u, (f u).id = u.id) (hjc : ∀ u, (f u).jobCredit = u.jobCredit) (c : Nat) :
    jobCreditOf (saveUser db a f) c = jobCreditOf db c := by
  unfold jobCreditOf
  by_cases hab : a = c
  · subst hab
    rw [findUser_saveUser_same db a f hid]
    cases findUser db a with
    | none => rfl
    | some u => simp [hjc]
  · rw [findUser_saveUser_ne db a c f hid hab]

theorem jobCreditOf_creditCourierAtDelivery (db : Db) (order : Order) (so : ShopOrder)
    (now : Nat) (c : Nat) :
    jobCreditOf (creditCourierAtDelivery db order so now) c = jobCreditOf db c := by
  unfold creditCourierAtDelivery
  simp only []
  split
  · split
    · rfl
    · split
      · rfl
      · exact jobCreditOf_saveUser db _
          (fun u => { u with payouts := u.payouts ++ [deliveryFeePayout order order.deliveryFee now] })
          (fun _ => rfl) (fun _ => rfl) c
  · rfl

/-- With cash on delivery the delivery-fee step changes nothing. -/
theorem creditCourierAtDelivery_cod (db : Db) (order : Order) (so : ShopOrder) (now : Nat)
    (h : order.paymentMethod.isOnlinePayment = false) :
    creditCourierAtDelivery db order so now = db := by
  unfold creditCourierAtDelivery
  simp [h]

/-- The courier ledgers after a successful `confirmDelivery`. -/
theorem courierPayouts_confirmDelivery (db : Db) (oid sid now : Nat) (order : Order)
    (so : ShopOrder)
    (ho : findOrder db oid = some order) (hso : findShopOrder order sid = some so)
    (hst : so.status ≠ OrderStatus.delivered) (c : Nat) :
    courierPayouts (confirmDelivery db (some oid) (some sid) now).2 c
      = courierPayouts db c ++
        (if so.assignedDeliveryBoy = some c ∧ (findUser db c).isSome = true ∧
            0 < order.deliveryFee ∧ order.paymentMethod.isOnlinePayment = true ∧
            (courierPayouts db c).any (isDeliveryFeeCredit order.id) = false
          then [deliveryFeePayout order order.deliveryFee now] else []) := by
  rw [confirmDelivery_success db oid sid now order so ho hso hst]
  simp only []
  rw [courierPayouts_saveShopOrder, courierPayouts_creditCourierAtDelivery,
    courierPayouts_congr (creditShopAtDelivery_frame _ _ _ _ _).2.1,
    findUser_congr (creditShopAtDelivery_frame _ _ _ _ _).2.1]

/-- The shop ledgers after a successful `confirmDelivery`. -/
theorem shopPayments_confirmDelivery (db : Db) (oid sid now : Nat) (order : Order)
    (so : ShopOrder)
    (ho : findOrder db oid = some order) (hso : findShopOrder order sid = some so)
    (hst : so.status ≠ OrderStatus.delivered) (sh : Nat) :
    shopPayments (confirmDelivery db (some oid) (some sid) now).2 sh
      = shopPayments db sh ++
        (if 0 < shopEarnings so.subtotal (getGpRate db.commissionPercentage) ∧
            so.shop = some sh ∧ (findShop db sh).isSome = true ∧
            (shopPayments db sh).any
              (fun p => p.orderId == some order.id && p.walletCredit) = false
          then [walletCreditPayment order
            (shopEarnings so.subtotal (getGpRate db.commissionPercentage)) now]
          else []) := by
  rw [confirmDelivery_success db oid sid now order so ho hso hst]
  simp only []
  rw [shopPayments_saveShopOrder,
    shopPayments_congr (creditCourierAtDelivery_frame _ _ _ _).2.1,
    shopPayments_creditShopAtDelivery]

/-- The job credits after a successful `confirmDelivery`. -/
theorem jobCreditOf_confirmDelivery (db : Db) (oid sid now : Nat) (order : Order)
    (so : ShopOrder)
    (ho : findOrder db oid = some order) (hso : findShopOrder order sid = some so)
    (hst : so.status ≠ OrderStatus.delivered) (c : Nat) :
    jobCreditOf (confirmDelivery db (some oid) (some sid) now).2 c = jobCreditOf db c := by
  rw [confirmDelivery_success db oid sid now order so ho hso hst]
  simp only []
  rw [jobCreditOf_saveShopOrder, jobCreditOf_creditCourierAtDelivery,
    jobCreditOf_congr (creditShopAtDelivery_frame _ _ _ _ _).2.1]

/-! ## C5 -/

/-- C5: on a shop order of an online-paid order with an assigned courier and a
positive delivery fee, not delivered yet and with at most one delivery-fee
entry for the order in the courier's ledger, the first `confirmDelivery` goes
through, the second answers that the delivery was confirmed already and changes
nothing (no ledger, no timestamp), the courier's ledger holds exactly one
delivery-fee entry for the order after both calls, and the status is delivered
after each of them. -/
theorem confirmDelivery_idempotent (db : Db) (oid sid now1 now2 : Nat) (order : Order)
    (so : ShopOrder) (c : Nat)
    (ho : findOrder db oid = some order) (hso : findShopOrder order sid = some so)
    (hst : so.status ≠ OrderStatus.delivered)
    (honline : order.paymentMethod.isOnlinePayment = true)
    (hboy : so.assignedDeliveryBoy = some c) (hu : (findUser db c).isSome = true)
    (hfee : 0 < order.deliveryFee)
    (hledger : (deliveryFeeCredits db c oid).length ≤ 1) :
    (confirmDelivery db (some oid) (some sid) now1).1
        = ⟨200, "Delivery confirmed successfully"⟩ ∧
      confirmDelivery (confirmDelivery db (some oid) (some sid) now1).2
          (some oid) (some sid) now2
        = (⟨200, "Delivery already confirmed"⟩,
            (confirmDelivery db (some oid) (some sid) now1).2) ∧
      (deliveryFeeCredits (confirmDeliveryTwice db (some oid) (some sid) now1 now2) c oid).length
        = 1 ∧
      (shopOrderOf (confirmDelivery db (some oid) (some sid) now1).2 oid sid).map
          (fun s => s.status) = some OrderStatus.delivered ∧
      (shopOrderOf (confirmDeliveryTwice db (some oid) (some sid) now1 now2) oid sid).map
          (fun s => s.status) = some OrderStatus.delivered := by
  have hid : order.id = oid := findOrder_id ho
  have hso1 := shopOrderOf_confirmDelivery db oid sid now1 order so ho hso hst
  have hsecond : confirmDelivery (confirmDelivery db (some oid) (some sid) now1).2
      (some oid) (some sid) now2
        = (⟨200, "Delivery already confirmed"⟩,
            (confirmDelivery db (some oid) (some sid) now1).2) :=
    confirmDelivery_again _ oid sid now2 _ hso1 rfl
  have htwice : confirmDeliveryTwice db (some oid) (some sid) now1 now2
      = (confirmDelivery db (some oid) (some sid) now1).2 := by
    unfold confirmDeliveryTwice
    rw [hsecond]
  have hstatus : (shopOrderOf (confirmDelivery db (some oid) (some sid) now1).2 oid sid).map
      (fun s => s.status) = some OrderStatus.delivered := by
    rw [hso1]
    rfl
  refine ⟨?_, hsecond, ?_, hstatus, ?_⟩
  · rw [confirmDelivery_success db oid sid now1 order so ho hso hst]
  · rw [htwice]
    unfold deliveryFeeCredits at hledger ⊢
    rw [courierPayouts_confirmDelivery db oid sid now1 order so ho hso hst c, hid]
    by_cases hany : (courierPayouts db c).any (isDeliveryFeeCredit oid) = true
    · have hpos := filter_length_pos_of_any _ _ hany
      rw [if_neg (by simp [hany]), List.append_nil]
      omega
    · have hany2 : (courierPayouts db c).any (isDeliveryFeeCredit oid) = false := by
        simpa using hany
      rw [if_pos ⟨hboy, hu, hfee, honline, hany2⟩, List.filter_append,
        filter_eq_nil_of_any_eq_false _ _ hany2]
      simp [deliveryFeePayout, isDeliveryFeeCredit, hid]
  · rw [htwice]
    exact hstatus

/-- Two delivery requests on the online order of `readyDb` leave one delivery-fee
entry in the ledger of courier 7. -/
theorem confirmDelivery_idempotent_witness :
    (deliveryFeeCredits (confirmDeliveryTwice (readyDb PaymentMethod.online (some 7))
      (some 1) (some 10) 3 4) 7 1).length = 1 :=
  (confirmDelivery_idempotent (readyDb PaymentMethod.online (some 7)) 1 10 3 4
    { id := 1, paymentMethod := PaymentMethod.online, totalAmount := 120, deliveryFee := 20,
      shopOrders := [{ id := 10, shop := some 5, subtotal := 100,
                       status := OrderStatus.outOfDelivery,
                       assignedDeliveryBoy := some 7 }] }
    { id := 10, shop := some 5, subtotal := 100, status := OrderStatus.outOfDelivery,
      assignedDeliveryBoy := some 7 }
    7 rfl rfl (by decide) rfl rfl rfl (by norm_num) (by decide)).2.2.1

end FoodDelivery

namespace FoodDelivery

/-! ## C3 -/

/-- C3 (the code at the failing input): in an order with two unassigned shop
orders 10 and 11, courier 100 claims shop order 10 and gets it; courier 200 then
claims the same shop order 10 and is not turned away with 404: whichever clause
the store takes the position from, the second call answers 200, and either
takes shop order 10 away from courier 100 or hands shop order 11 to
courier 200. -/
theorem acceptOrder_second_claim_goes_through (rule1 rule2 : PositionalRule) :
    (acceptOrder rule1 twoShopOrderDb (some 10) 100).1
        = ⟨200, "Order accepted successfully"⟩ ∧
      assignedCouriers (acceptOrder rule1 twoShopOrderDb (some 10) 100).2
        = [[some 100, none]] ∧
      (acceptOrder rule2 (acceptOrder rule1 twoShopOrderDb (some 10) 100).2 (some 10) 200).1
        = ⟨200, "Order accepted successfully"⟩ ∧
      assignedCouriers
          (acceptOrder rule2 (acceptOrder rule1 twoShopOrderDb (some 10) 100).2 (some 10) 200).2
        = (if rule2 = PositionalRule.unassignedClause then [[some 100, some 200]]
           else [[some 200, none]]) := by
  cases rule1 <;> cases rule2 <;> decide

/-! ## C8 -/

theorem modifyFirst_of_find?_none {α : Type} (p : α → Bool) (f : α → α) (l : List α)
    (h : l.find? p = none) : modifyFirst p f l = l := by
  induction l with
  | nil => rfl
  | cons x xs ih =>
    by_cases hp : p x = true
    · simp [List.find?, hp] at h
    · have hp2 : p x = false := by simpa using hp
      have h2 : xs.find? p = none := by simpa [List.find?, hp2] using h
      simp [modifyFirst, hp2, ih h2]

theorem creditShopAtDelivery_shops (db : Db) (order : Order) (so : ShopOrder) (now : Nat) :
    (creditShopAtDelivery db order so (getGpRate db.commissionPercentage) now).shops
      = shopsAfterDelivery db order so now := by
  unfold creditShopAtDelivery shopsAfterDelivery
  cases hshop : so.shop with
  | none => simp
  | some a =>
    cases hfind : findShop db a with
    | none =>
      have hnone : db.shops.find? (fun s => s.id == a) = none := hfind
      simp only [Option.some_bind, hfind, shopPayments, modifyFirst_of_find?_none _ _ _ hnone]
      split_ifs <;> rfl
    | some shop =>
      have hid : shop.id = a := findShop_id hfind
      simp only [Option.some_bind, hfind, shopPayments, Option.isSome_some, true_and, hid]
      by_cases he : shopEarnings so.subtotal (getGpRate db.commissionPercentage) > 0
      · by_cases hany : shop.payments.any
            (fun p => p.orderId == some order.id && p.walletCredit) = true
        · have hany2 : ¬ (shop.payments.any
              (fun p => p.orderId == some order.id && p.walletCredit) = false) := by
            rw [hany]; decide
          rw [if_pos he, if_pos hany, if_neg (fun h => hany2 h.2)]
        · have hany2 : shop.payments.any
              (fun p => p.orderId == some order.id && p.walletCredit) = false := by
            simpa using hany
          rw [if_pos he, if_neg hany, if_pos ⟨he, hany2⟩]
          rfl
      · rw [if_neg he, if_neg (fun h => he h.1)]

theorem creditCourierAtDelivery_users (db : Db) (order : Order) (so : ShopOrder) (now : Nat) :
    (creditCourierAtDelivery db order so now).users = usersAfterDelivery db order so now := by
  unfold creditCourierAtDelivery usersAfterDelivery
  cases hboy : so.assignedDeliveryBoy with
  | none => simp
  | some a =>
    cases hfind : findUser db a with
    | none =>
      have hnone : db.users.find? (fun u => u.id == a) = none := hfind
      simp only [Option.some_bind, hfind, courierPayouts,
        modifyFirst_of_find?_none _ _ _ hnone]
      split_ifs <;> rfl
    | some boy =>
      have hid : boy.id = a := findUser_id hfind
      simp only [Option.some_bind, hfind, courierPayouts, Option.isSome_some, true_and, hid]
      by_cases hc : order.deliveryFee > 0 ∧ order.paymentMethod.isOnlinePayment = true
      · by_cases hany : boy.payouts.any (isDeliveryFeeCredit order.id) = true
        · have hany2 : ¬ (boy.payouts.any (isDeliveryFeeCredit order.id) = false) := by
            rw [hany]; decide
          rw [if_pos hc, if_pos hany, if_neg (fun h => hany2 h.2.2)]
        · have hany2 : boy.payouts.any (isDeliveryFeeCredit order.id) = false := by
            simpa using hany
          rw [if_pos hc, if_neg hany, if_pos ⟨hc.1, hc.2, hany2⟩]
          rfl
      · rw [if_neg hc, if_neg (fun h => hc ⟨h.1, h.2.1⟩)]

/-- The users after a delivery confirmation depend on the users and on the order
only. -/
theorem usersAfterDelivery_congr {db1 db2 : Db} (h : db1.users = db2.users) (order : Order)
    (so : ShopOrder) (now : Nat) :
    usersAfterDelivery db1 order so now = usersAfterDelivery db2 order so now := by
  unfold usersAfterDelivery
  simp only [courierPayouts_congr h, h]

/-- The two credit steps of `confirmDelivery` leave the payout requests and the
cafeteria settings alone. -/
theorem creditAtDelivery_rest (db : Db) (order : Order) (so : ShopOrder) (g : ℚ) (now : Nat) :
    (creditShopAtDelivery db order so g now).payoutRequests = db.payoutRequests ∧
      (creditShopAtDelivery db order so g now).cafeteriaSettings = db.cafeteriaSettings ∧
      (creditCourierAtDelivery db order so now).payoutRequests = db.payoutRequests ∧
      (creditCourierAtDelivery db order so now).cafeteriaSettings = db.cafeteriaSettings := by
  refine ⟨?_, ?_, ?_, ?_⟩
  · unfold creditShopAtDelivery
    simp only []
    split
    · split
      · rfl
      · split <;> rfl
    · rfl
  · unfold creditShopAtDelivery
    simp only []
    split
    · split
      · rfl
      · split <;> rfl
    · rfl
  · unfold creditCourierAtDelivery
    simp only []
    split
    · split
      · rfl
      · split <;> rfl
    · rfl
  · unfold creditCourierAtDelivery
    simp only []
    split
    · split
      · rfl
      · split <;> rfl
    · rfl

/-- C8 as stated fails: a successful `confirmDelivery` on an order whose shop
ledger is empty leaves a wallet-credit entry of 90 in that ledger. -/
theorem confirmDelivery_merchant_ledger_counterexample :
    (confirmDelivery (readyDb PaymentMethod.cod (some 7)) (some 1) (some 10) 3).1
        = ⟨200, "Delivery confirmed successfully"⟩ ∧
      shopPayments (readyDb PaymentMethod.cod (some 7)) 5 = [] ∧
      shopPayments (confirmDelivery (readyDb PaymentMethod.cod (some 7)) (some 1) (some 10) 3).2 5
        = [{ chargeId := ChargeId.wallet 1, orderId := some 1, amount := 90,
             walletCredit := true, createdAt := 3 }] := by
  refine ⟨rfl, rfl, ?_⟩
  rw [shopPayments_confirmDelivery (readyDb PaymentMethod.cod (some 7)) 1 10 3 _ _ rfl rfl
    (by decide)]
  norm_num [readyDb, shopPayments, findShop, shopEarnings, platformIncome, getGpRate,
    mathRound, walletCreditPayment]

/-- C8 (amended): a successful `confirmDelivery` appends to the ledger of the
shop of the shop order one wallet-credit entry of the shop earnings when these
are positive, the shop exists and its ledger holds no wallet-credit entry for
the order, and nothing otherwise; every earlier ledger entry is kept; no
`jobCredit` changes; with cash on delivery no user document changes; the orders
change only in the status and `deliveredAt` of the shop order; the commission
setting is not changed. Nothing else changes either: the shops are the old ones
but for that entry, the users are the old ones but for the delivery-fee entry
in the ledger of the courier of an order paid online, the payout requests and
the cafeteria settings are the old ones, and so the whole database after the
call is the old one with these three collections replaced. -/
theorem confirmDelivery_effects (db : Db) (oid sid now : Nat) (order : Order) (so : ShopOrder)
    (ho : findOrder db oid = some order) (hso : findShopOrder order sid = some so)
    (hst : so.status ≠ OrderStatus.delivered) :
    (∀ sh, shopPayments (confirmDelivery db (some oid) (some sid) now).2 sh
        = shopPayments db sh ++
          (if 0 < shopEarnings so.subtotal (getGpRate db.commissionPercentage) ∧
              so.shop = some sh ∧ (findShop db sh).isSome = true ∧
              (shopPayments db sh).any
                (fun p => p.orderId == some order.id && p.walletCredit) = false
            then [walletCreditPayment order
              (shopEarnings so.subtotal (getGpRate db.commissionPercentage)) now]
            else [])) ∧
      (∀ c, jobCreditOf (confirmDelivery db (some oid) (some sid) now).2 c
        = jobCreditOf db c) ∧
      (order.paymentMethod = PaymentMethod.cod →
        (confirmDelivery db (some oid) (some sid) now).2.users = db.users) ∧
      (confirmDelivery db (some oid) (some sid) now).2.orders
        = (saveShopOrder db oid sid
            (fun s => { s with status := OrderStatus.delivered, deliveredAt := some now })).orders ∧
      (confirmDelivery db (some oid) (some sid) now).2.commissionPercentage
        = db.commissionPercentage ∧
      (confirmDelivery db (some oid) (some sid) now).2.shops
        = shopsAfterDelivery db order so now ∧
      (confirmDelivery db (some oid) (some sid) now).2.users
        = usersAfterDelivery db order so now ∧
      (confirmDelivery db (some oid) (some sid) now).2.payoutRequests = db.payoutRequests ∧
      (confirmDelivery db (some oid) (some sid) now).2.cafeteriaSettings
        = db.cafeteriaSettings ∧
      (confirmDelivery db (some oid) (some sid) now).2
        = { db with
            orders := (saveShopOrder db oid sid (fun s =>
              { s with status := OrderStatus.delivered, deliveredAt := some now })).orders
            shops := shopsAfterDelivery db order so now
            users := usersAfterDelivery db order so now } := by
  have hcod : order.paymentMethod = PaymentMethod.cod →
      (confirmDelivery db (some oid) (some sid) now).2.users = db.users := by
    intro hcod
    rw [confirmDelivery_success db oid sid now order so ho hso hst]
    simp only [saveShopOrder]
    rw [creditCourierAtDelivery_cod _ _ _ _ (by rw [hcod]; rfl)]
    exact (creditShopAtDelivery_frame _ _ _ _ _).2.1
  have horders : (confirmDelivery db (some oid) (some sid) now).2.orders
      = (saveShopOrder db oid sid
          (fun s => { s with status := OrderStatus.delivered, deliveredAt := some now })).orders := by
    rw [confirmDelivery_success db oid sid now order so ho hso hst]
    simp only [saveShopOrder]
    rw [(creditCourierAtDelivery_frame _ _ _ _).1, (creditShopAtDelivery_frame _ _ _ _ _).1]
  have hcomm : (confirmDelivery db (some oid) (some sid) now).2.commissionPercentage
      = db.commissionPercentage := by
    rw [confirmDelivery_success db oid sid now order so ho hso hst]
    simp only [saveShopOrder]
    rw [(creditCourierAtDelivery_frame _ _ _ _).2.2, (creditShopAtDelivery_frame _ _ _ _ _).2.2]
  have hshops : (confirmDelivery db (some oid) (some sid) now).2.shops
      = shopsAfterDelivery db order so now := by
    rw [confirmDelivery_success db oid sid now order so ho hso hst]
    simp only [saveShopOrder]
    rw [(creditCourierAtDelivery_frame _ _ _ _).2.1, creditShopAtDelivery_shops]
  have husers : (confirmDelivery db (some oid) (some sid) now).2.users
      = usersAfterDelivery db order so now := by
    rw [confirmDelivery_success db oid sid now order so ho hso hst]
    simp only [saveShopOrder]
    rw [creditCourierAtDelivery_users,
      usersAfterDelivery_congr (creditShopAtDelivery_frame _ _ _ _ _).2.1]
  have hreq : (confirmDelivery db (some oid) (some sid) now).2.payoutRequests
      = db.payoutRequests := by
    rw [confirmDelivery_success db oid sid now order so ho hso hst]
    simp only [saveShopOrder]
    rw [(creditAtDelivery_rest _ _ _ 0 _).2.2.1, (creditAtDelivery_rest _ _ _ _ _).1]
  have hcaf : (confirmDelivery db (some oid) (some sid) now).2.cafeteriaSettings
      = db.cafeteriaSettings := by
    rw [confirmDelivery_success db oid sid now order so ho hso hst]
    simp only [saveShopOrder]
    rw [(creditAtDelivery_rest _ _ _ 0 _).2.2.2, (creditAtDelivery_rest _ _ _ _ _).2.1]
  refine ⟨shopPayments_confirmDelivery db oid sid now order so ho hso hst,
    jobCreditOf_confirmDelivery db oid sid now order so ho hso hst, hcod, horders, hcomm,
    hshops, husers, hreq, hcaf, ?_⟩
  cases hr : (confirmDelivery db (some oid) (some sid) now).2 with
  | mk o sh u pr cp cs =>
    rw [hr] at horders hcomm hshops husers hreq hcaf
    simp only [] at horders hcomm hshops husers hreq hcaf
    subst horders hcomm hshops husers hreq hcaf
    rfl

/-- Delivery of the cash order of `readyDb` leaves the job credit of courier 7 as
it was. -/
theorem confirmDelivery_effects_witness :
    jobCreditOf
        (confirmDelivery (readyDb PaymentMethod.cod (some 7)) (some 1) (some 10) 3).2 7
      = jobCreditOf (readyDb PaymentMethod.cod (some 7)) 7 :=
  (confirmDelivery_effects (readyDb PaymentMethod.cod (some 7)) 1 10 3
    { id := 1, paymentMethod := PaymentMethod.cod, totalAmount := 120, deliveryFee := 20,
      shopOrders := [{ id := 10, shop := some 5, subtotal := 100,
                       status := OrderStatus.outOfDelivery,
                       assignedDeliveryBoy := some 7 }] }
    { id := 10, shop := some 5, subtotal := 100, status := OrderStatus.outOfDelivery,
      assignedDeliveryBoy := some 7 }
    rfl rfl (by decide)).2.1 7

end FoodDelivery

namespace FoodDelivery

/-! ## C9 -/

theorem filter_length_eq_zero_of_any {α : Type} (p q : α → Bool) (l : List α)
    (hqp : ∀ x, q x = true → p x = true) (h : l.any p = false) :
    (l.filter q).length = 0 := by
  induction l with
  | nil => rfl
  | cons x xs ih =>
    simp only [List.any, Bool.or_eq_false_iff] at h
    have hq : q x = false := by
      cases hqx : q x with
      | false => rfl
      | true =>
        have := hqp x hqx
        rw [h.1] at this
        exact Bool.noConfusion this
    simp [List.filter, hq, ih h.2]

theorem filter_length_split {α : Type} (a b : α → Bool) (l : List α) :
    (l.filter a).length
      = (l.filter (fun x => a x && b x == false)).length
        + (l.filter (fun x => a x && b x == true)).length := by
  induction l with
  | nil => rfl
  | cons x xs ih =>
    cases ha : a x <;> cases hb : b x <;> simp [List.filter, ha, hb, ih] <;> omega

/-- The length of the ledger for an order is the sum of its two counts. -/
theorem paymentsForOrder_length (db : Db) (sh o : Nat) :
    (paymentsForOrder db sh o).length
      = countPayments db sh o false + countPayments db sh o true := by
  unfold paymentsForOrder countPayments
  exact filter_length_split (fun p : Payment => p.orderId == some o)
    (fun p : Payment => p.walletCredit) _

theorem filter_append_singleton_length_le {α : Type} (q : α → Bool) (l : List α) (e : α) :
    ((l ++ [e]).filter q).length ≤ (l.filter q).length + 1 := by
  rw [List.filter_append, List.length_append]
  cases hq : q e <;> simp [List.filter, hq]

theorem filter_append_singleton_length_eq {α : Type} (q : α → Bool) (l : List α) (e : α)
    (hq : q e = false) : ((l ++ [e]).filter q).length = (l.filter q).length := by
  rw [List.filter_append, List.length_append]
  simp [List.filter, hq]

/-- One settlement request keeps the two counts of every order in every shop
ledger at most one. -/
theorem countPayments_runCall (db : Db) (call : SettlementCall) (sh o : Nat)
    (h1 : countPayments db sh o false ≤ 1) (h2 : countPayments db sh o true ≤ 1) :
    countPayments (runCall db call) sh o false ≤ 1 ∧
      countPayments (runCall db call) sh o true ≤ 1 := by
  cases call with
  | pickup oo ss now =>
    rcases confirmPickup_cases db oo ss now with ⟨hsame, -⟩ | ⟨oid, sid, order, so, rfl, rfl,
      ho, hso, hp, hst⟩
    · simp only [runCall, hsame]
      exact ⟨h1, h2⟩
    · simp only [runCall]
      unfold countPayments at h1 h2 ⊢
      rw [shopPayments_confirmPickup db oid sid now order so ho hso hp hst sh]
      split
      · rename_i hc
        obtain ⟨-, -, -, hany⟩ := hc
        constructor
        · by_cases hoo : order.id = o
          · have hz := filter_length_eq_zero_of_any
              (fun p : Payment => p.orderId == some order.id)
              (fun p : Payment => p.orderId == some o && p.walletCredit == false)
              _ (fun x hx => by
                rw [hoo]
                simp only [Bool.and_eq_true] at hx
                exact hx.1) hany
            have hle := filter_append_singleton_length_le
              (fun p : Payment => p.orderId == some o && p.walletCredit == false)
              (shopPayments db sh)
              (pickupPayment order
                (pickupNetAmount so.subtotal (getGpRate db.commissionPercentage)) now)
            omega
          · rw [filter_append_singleton_length_eq _ _ _ (by simp [pickupPayment, hoo])]
            exact h1
        · rw [filter_append_singleton_length_eq _ _ _ (by simp [pickupPayment])]
          exact h2
      · simp only [List.append_nil]
        exact ⟨h1, h2⟩
  | delivery oo ss now =>
    rcases confirmDelivery_cases db oo ss now with ⟨hsame, -⟩ | ⟨oid, sid, order, so, rfl, rfl,
      ho, hso, hst⟩
    · simp only [runCall, hsame]
      exact ⟨h1, h2⟩
    · simp only [runCall]
      unfold countPayments at h1 h2 ⊢
      rw [shopPayments_confirmDelivery db oid sid now order so ho hso hst sh]
      split
      · rename_i hc
        obtain ⟨-, -, -, hany⟩ := hc
        constructor
        · rw [filter_append_singleton_length_eq _ _ _ (by simp [walletCreditPayment])]
          exact h1
        · by_cases hoo : order.id = o
          · have hz := filter_length_eq_zero_of_any
              (fun p : Payment => p.orderId == some order.id && p.walletCredit)
              (fun p : Payment => p.orderId == some o && p.walletCredit == true)
              _ (fun x hx => by
                rw [hoo]
                simpa using hx) hany
            have hle := filter_append_singleton_length_le
              (fun p : Payment => p.orderId == some o && p.walletCredit == true)
              (shopPayments db sh)
              (walletCreditPayment order
                (shopEarnings so.subtotal (getGpRate db.commissionPercentage)) now)
            omega
          · rw [filter_append_singleton_length_eq _ _ _ (by simp [walletCreditPayment, hoo])]
            exact h2
      · simp only [List.append_nil]
        exact ⟨h1, h2⟩

/-- C9 as stated fails: after a pickup and a delivery request on the same shop
order the merchant's ledger, empty before, holds two entries that refer to the
order. -/
theorem payments_per_order_counterexample :
    (paymentsForOrder (readyDb PaymentMethod.cod (some 7)) 5 1).length = 0 ∧
      (paymentsForOrder
        (runCalls (readyDb PaymentMethod.cod (some 7))
          [SettlementCall.pickup (some 1) (some 10) 3,
           SettlementCall.delivery (some 1) (some 10) 4]) 5 1).length = 2 := by
  refine ⟨rfl, ?_⟩
  simp [runCalls, runCall, confirmPickup, confirmDelivery, readyDb, findOrder,
    findShopOrder, creditShopAtPickup, deductCourierAtPickup, creditShopAtDelivery,
    creditCourierAtDelivery, saveShopOrder, saveUser, saveShop, findShop, findUser,
    modifyFirst, paymentsForOrder, shopPayments, getGpRate, pickupNetAmount, shopEarnings,
    platformIncome, mathRound, pickupPayment, walletCreditPayment,
    PaymentMethod.isOnlinePayment]
  norm_num

/-- C9 (amended): after any sequence of `confirmPickup` and `confirmDelivery`
requests, a shop ledger that held at most one pickup entry and at most one
wallet-credit entry for an order still does; so it holds at most two entries
that refer to the order. -/
theorem payments_per_order_bound (db : Db) (calls : List SettlementCall) (sh o : Nat)
    (h1 : countPayments db sh o false ≤ 1) (h2 : countPayments db sh o true ≤ 1) :
    countPayments (runCalls db calls) sh o false ≤ 1 ∧
      countPayments (runCalls db calls) sh o true ≤ 1 ∧
      (paymentsForOrder (runCalls db calls) sh o).length ≤ 2 := by
  have key : ∀ (calls : List SettlementCall) (db : Db),
      countPayments db sh o false ≤ 1 → countPayments db sh o true ≤ 1 →
      countPayments (runCalls db calls) sh o false ≤ 1 ∧
        countPayments (runCalls db calls) sh o true ≤ 1 := by
    intro calls
    induction calls with
    | nil =>
      intro db h1 h2
      exact ⟨h1, h2⟩
    | cons call rest ih =>
      intro db h1 h2
      have hstep := countPayments_runCall db call sh o h1 h2
      exact ih (runCall db call) hstep.1 hstep.2
  have h := key calls db h1 h2
  refine ⟨h.1, h.2, ?_⟩
  rw [paymentsForOrder_length]
  omega

/-- A pickup and two delivery requests on `readyDb` leave at most two entries for
order 1 in the ledger of shop 5. -/
theorem payments_per_order_bound_witness :
    (paymentsForOrder
      (runCalls (readyDb PaymentMethod.cod (some 7))
        [SettlementCall.pickup (some 1) (some 10) 3,
         SettlementCall.delivery (some 1) (some 10) 4,
         SettlementCall.delivery (some 1) (some 10) 5]) 5 1).length ≤ 2 :=
  (payments_per_order_bound (readyDb PaymentMethod.cod (some 7))
    [SettlementCall.pickup (some 1) (some 10) 3,
     SettlementCall.delivery (some 1) (some 10) 4,
     SettlementCall.delivery (some 1) (some 10) 5] 5 1 (by decide) (by decide)).2.2

end FoodDelivery

namespace FoodDelivery

/-! ## C10 -/

/-- C10 as stated fails in both directions. With no courier assigned, a
successful `confirmPickup` on a cash order credits the merchant with 90 and
changes no user document. With the shop document gone, it takes 90 from the
courier's `jobCredit` and credits no merchant. -/
theorem confirmPickup_cod_counterexample :
    ((confirmPickup (readyDb PaymentMethod.cod none) (some 1) (some 10) 3).1
          = ⟨200, "Pickup confirmed successfully"⟩ ∧
        (shopPayments (confirmPickup (readyDb PaymentMethod.cod none) (some 1) (some 10) 3).2
          5).map (fun p => p.amount) = [90] ∧
        (confirmPickup (readyDb PaymentMethod.cod none) (some 1) (some 10) 3).2.users
          = (readyDb PaymentMethod.cod none).users) ∧
      ((confirmPickup noShopDb (some 1) (some 10) 3).1
          = ⟨200, "Pickup confirmed successfully"⟩ ∧
        jobCreditOf noShopDb 7 = some 500 ∧
        jobCreditOf (confirmPickup noShopDb (some 1) (some 10) 3).2 7 = some 410 ∧
        (confirmPickup noShopDb (some 1) (some 10) 3).2.shops = []) := by
  refine ⟨⟨rfl, ?_, rfl⟩, ⟨rfl, rfl, ?_, rfl⟩⟩
  · simp [confirmPickup, readyDb, findOrder, findShopOrder, creditShopAtPickup,
      deductCourierAtPickup, saveShopOrder, saveUser, saveShop, findShop, findUser,
      modifyFirst, shopPayments, getGpRate, pickupNetAmount, mathRound, pickupPayment]
    norm_num
  · simp [confirmPickup, noShopDb, readyDb, findOrder, findShopOrder, creditShopAtPickup,
      deductCourierAtPickup, saveShopOrder, saveUser, saveShop, findShop, findUser,
      modifyFirst, jobCreditOf, getGpRate, pickupNetAmount, mathRound]
    norm_num

/-- C10 (amended): on a successful `confirmPickup` for a cash-on-delivery shop
order, the merchant credit of the net amount is applied exactly when the
subtotal is not zero, the shop exists and its ledger holds no entry for the
order, and the courier's `jobCredit` is reduced by the net amount exactly when
the subtotal is not zero and that courier is the assigned one. When the
subtotal is not zero, the shop exists without an entry for the order and the
assigned courier exists, the credit, the deduction and the `pickedUpAt` stamp
are all in the one resulting state. -/
theorem confirmPickup_cod_settlement (db : Db) (oid sid now : Nat) (order : Order)
    (so : ShopOrder)
    (ho : findOrder db oid = some order) (hso : findShopOrder order sid = some so)
    (hp : so.pickedUpAt = none) (hst : so.status = OrderStatus.outOfDelivery)
    (hcod : order.paymentMethod = PaymentMethod.cod) :
    (∀ sh, shopPayments (confirmPickup db (some oid) (some sid) now).2 sh
        = shopPayments db sh ++
          (if so.subtotal ≠ 0 ∧ so.shop = some sh ∧ (findShop db sh).isSome = true ∧
              (shopPayments db sh).any (fun p => p.orderId == some order.id) = false
            then [pickupPayment order
              (pickupNetAmount so.subtotal (getGpRate db.commissionPercentage)) now]
            else [])) ∧
      (∀ c, jobCreditOf (confirmPickup db (some oid) (some sid) now).2 c
        = (jobCreditOf db c).map (fun j =>
            if so.subtotal ≠ 0 ∧ so.assignedDeliveryBoy = some c
              then j - pickupNetAmount so.subtotal (getGpRate db.commissionPercentage)
              else j)) ∧
      (∀ sh c j, so.subtotal ≠ 0 → so.shop = some sh → (findShop db sh).isSome = true →
        paymentsForOrder db sh oid = [] → so.assignedDeliveryBoy = some c →
        jobCreditOf db c = some j →
        shopPayments (confirmPickup db (some oid) (some sid) now).2 sh
            = shopPayments db sh ++ [pickupPayment order
                (pickupNetAmount so.subtotal (getGpRate db.commissionPercentage)) now] ∧
          jobCreditOf (confirmPickup db (some oid) (some sid) now).2 c
            = some (j - pickupNetAmount so.subtotal (getGpRate db.commissionPercentage)) ∧
          (shopOrderOf (confirmPickup db (some oid) (some sid) now).2 oid sid).map
            (fun s => s.pickedUpAt) = some (some now)) := by
  have hid : order.id = oid := findOrder_id ho
  have hpay := shopPayments_confirmPickup db oid sid now order so ho hso hp hst
  have hjob : ∀ c, jobCreditOf (confirmPickup db (some oid) (some sid) now).2 c
      = (jobCreditOf db c).map (fun j =>
          if so.subtotal ≠ 0 ∧ so.assignedDeliveryBoy = some c
            then j - pickupNetAmount so.subtotal (getGpRate db.commissionPercentage)
            else j) := by
    intro c
    rw [jobCreditOf_confirmPickup db oid sid now order so ho hso hp hst c]
    simp [hcod]
  refine ⟨hpay, hjob, ?_⟩
  intro sh c j hsub hshop hfind hnone hboy hj
  have hany : (shopPayments db sh).any (fun p => p.orderId == some order.id) = false := by
    rw [hid]
    exact any_eq_false_of_filter_eq_nil _ _ hnone
  refine ⟨?_, ?_, ?_⟩
  · rw [hpay sh, if_pos ⟨hsub, hshop, hfind, hany⟩]
  · rw [hjob c, hj]
    simp [hsub, hboy]
  · rw [shopOrderOf_confirmPickup db oid sid now order so ho hso hp hst]
    rfl

/-- Pickup of the cash order of `readyDb` with courier 7 assigned: credit,
deduction and stamp together. -/
theorem confirmPickup_cod_settlement_witness :
    shopPayments (confirmPickup (readyDb PaymentMethod.cod (some 7)) (some 1) (some 10) 3).2 5
        = shopPayments (readyDb PaymentMethod.cod (some 7)) 5 ++
          [pickupPayment
            { id := 1, paymentMethod := PaymentMethod.cod, totalAmount := 120, deliveryFee := 20,
              shopOrders := [{ id := 10, shop := some 5, subtotal := 100,
                               status := OrderStatus.outOfDelivery,
                               assignedDeliveryBoy := some 7 }] }
            (pickupNetAmount 100 (getGpRate (some (JsNumber.finite 10)))) 3] ∧
      jobCreditOf (confirmPickup (readyDb PaymentMethod.cod (some 7)) (some 1) (some 10) 3).2 7
        = some (500 - pickupNetAmount 100 (getGpRate (some (JsNumber.finite 10)))) ∧
      (shopOrderOf (confirmPickup (readyDb PaymentMethod.cod (some 7)) (some 1) (some 10) 3).2
        1 10).map (fun s => s.pickedUpAt) = some (some 3) :=
  (confirmPickup_cod_settlement (readyDb PaymentMethod.cod (some 7)) 1 10 3
    { id := 1, paymentMethod := PaymentMethod.cod, totalAmount := 120, deliveryFee := 20,
      shopOrders := [{ id := 10, shop := some 5, subtotal := 100,
                       status := OrderStatus.outOfDelivery,
                       assignedDeliveryBoy := some 7 }] }
    { id := 10, shop := some 5, subtotal := 100, status := OrderStatus.outOfDelivery,
      assignedDeliveryBoy := some 7 }
    rfl rfl rfl rfl rfl).2.2 5 7 500 (by norm_num) rfl rfl rfl rfl rfl

end FoodDelivery

namespace FoodDelivery

/-! ## C11 -/

theorem getGpRate_ten : getGpRate (some (JsNumber.finite 10)) = 1 / 10 := by
  norm_num [getGpRate]

theorem pickupNetAmount_hundred_ten : pickupNetAmount 100 (1 / 10) = 90 := by
  norm_num [pickupNetAmount, mathRound]

theorem platformIncome_hundred_ten : platformIncome 100 (1 / 10) = 10 := by
  norm_num [platformIncome, mathRound]

/-- C11: for a shop order with subtotal 100 in an order with delivery fee 20, at
a commission of 10 percent: a successful `confirmPickup` appends a merchant
payment of 90 for the order (the shop exists and holds no entry for the order)
and, with cash on delivery, takes exactly 90 from the assigned courier's
`jobCredit`; a successful `confirmDelivery` on an online-paid order appends a
courier ledger entry of 20 (the courier exists and holds no delivery-fee entry
for the order); the platform income computed is 10. -/
theorem scenario_hundred_twenty_ten (db : Db) (oid sid now : Nat) (order : Order)
    (so : ShopOrder)
    (ho : findOrder db oid = some order) (hso : findShopOrder order sid = some so)
    (hsub : so.subtotal = 100) (hfee : order.deliveryFee = 20)
    (hc : db.commissionPercentage = some (JsNumber.finite 10)) :
    (so.pickedUpAt = none → so.status = OrderStatus.outOfDelivery →
      (∀ sh, so.shop = some sh → (findShop db sh).isSome = true →
        paymentsForOrder db sh oid = [] →
        ∃ e, shopPayments (confirmPickup db (some oid) (some sid) now).2 sh
            = shopPayments db sh ++ [e] ∧ e.amount = 90 ∧ e.orderId = some oid) ∧
      (∀ c j, order.paymentMethod = PaymentMethod.cod → so.assignedDeliveryBoy = some c →
        jobCreditOf db c = some j →
        jobCreditOf (confirmPickup db (some oid) (some sid) now).2 c = some (j - 90))) ∧
      (so.status ≠ OrderStatus.delivered → order.paymentMethod.isOnlinePayment = true →
        ∀ c, so.assignedDeliveryBoy = some c → (findUser db c).isSome = true →
          deliveryFeeCredits db c oid = [] →
          ∃ e, courierPayouts (confirmDelivery db (some oid) (some sid) now).2 c
              = courierPayouts db c ++ [e] ∧ e.amount = 20 ∧ e.orderId = some oid ∧
            e.source = PayoutSource.wallet ∧ e.type = PayoutType.automatic) ∧
      platformIncome so.subtotal (getGpRate db.commissionPercentage) = 10 := by
  have hid : order.id = oid := findOrder_id ho
  have hnet : pickupNetAmount so.subtotal (getGpRate db.commissionPercentage) = 90 := by
    rw [hsub, hc, getGpRate_ten, pickupNetAmount_hundred_ten]
  refine ⟨?_, ?_, ?_⟩
  · intro hp hst
    constructor
    · intro sh hshop hfind hnone
      have hany : (shopPayments db sh).any (fun p => p.orderId == some order.id) = false := by
        rw [hid]
        exact any_eq_false_of_filter_eq_nil _ _ hnone
      refine ⟨pickupPayment order 90 now, ?_, rfl, by rw [← hid]; rfl⟩
      rw [shopPayments_confirmPickup db oid sid now order so ho hso hp hst sh,
        if_pos ⟨by rw [hsub]; norm_num, hshop, hfind, hany⟩, hnet]
    · intro c j hcod hboy hj
      rw [jobCreditOf_confirmPickup db oid sid now order so ho hso hp hst c, hj, hnet]
      simp [hcod, hsub, hboy]
  · intro hst honline c hboy hu hnone
    have hany : (courierPayouts db c).any (isDeliveryFeeCredit order.id) = false := by
      rw [hid]
      exact any_eq_false_of_filter_eq_nil _ _ hnone
    refine ⟨deliveryFeePayout order 20 now, ?_, rfl, by rw [← hid]; rfl, rfl, rfl⟩
    rw [courierPayouts_confirmDelivery db oid sid now order so ho hso hst c,
      if_pos ⟨hboy, hu, by rw [hfee]; norm_num, honline, hany⟩, hfee]
  · rw [hsub, hc, getGpRate_ten, platformIncome_hundred_ten]

/-- The two orders of `readyDb`: the pickup of the cash order takes 90 from the
500 of courier 7 and credits shop 5, and the delivery of the online order
credits courier 7 with 20. -/
theorem scenario_hundred_twenty_ten_witness :
    (∃ e, shopPayments
          (confirmPickup (readyDb PaymentMethod.cod (some 7)) (some 1) (some 10) 3).2 5
        = shopPayments (readyDb PaymentMethod.cod (some 7)) 5 ++ [e] ∧
          e.amount = 90 ∧ e.orderId = some 1) ∧
      jobCreditOf (confirmPickup (readyDb PaymentMethod.cod (some 7)) (some 1) (some 10) 3).2 7
        = some (500 - 90) ∧
      (∃ e, courierPayouts
          (confirmDelivery (readyDb PaymentMethod.online (some 7)) (some 1) (some 10) 3).2 7
        = courierPayouts (readyDb PaymentMethod.online (some 7)) 7 ++ [e] ∧
          e.amount = 20 ∧ e.orderId = some 1 ∧
          e.source = PayoutSource.wallet ∧ e.type = PayoutType.automatic) :=
  have hcash := scenario_hundred_twenty_ten (readyDb PaymentMethod.cod (some 7)) 1 10 3
    { id := 1, paymentMethod := PaymentMethod.cod, totalAmount := 120, deliveryFee := 20,
      shopOrders := [{ id := 10, shop := some 5, subtotal := 100,
                       status := OrderStatus.outOfDelivery,
                       assignedDeliveryBoy := some 7 }] }
    { id := 10, shop := some 5, subtotal := 100, status := OrderStatus.outOfDelivery,
      assignedDeliveryBoy := some 7 }
    rfl rfl rfl rfl rfl
  have honline := scenario_hundred_twenty_ten (readyDb PaymentMethod.online (some 7)) 1 10 3
    { id := 1, paymentMethod := PaymentMethod.online, totalAmount := 120, deliveryFee := 20,
      shopOrders := [{ id := 10, shop := some 5, subtotal := 100,
                       status := OrderStatus.outOfDelivery,
                       assignedDeliveryBoy := some 7 }] }
    { id := 10, shop := some 5, subtotal := 100, status := OrderStatus.outOfDelivery,
      assignedDeliveryBoy := some 7 }
    rfl rfl rfl rfl rfl
  ⟨(hcash.1 rfl rfl).1 5 rfl rfl rfl, (hcash.1 rfl rfl).2 7 500 rfl rfl rfl,
    honline.2.1 (by decide) rfl 7 rfl rfl rfl⟩

end FoodDelivery

namespace FoodDelivery

/-! ## C12 -/

/-- C12: on a `confirmDelivery` that goes through (shop order found, not
delivered yet), the ledger of an existing courier gets the delivery-fee entry
(amount the order's delivery fee, source wallet, type automatic, paid, for
this order) appended if and only if the payment method is online, promptpay or
card, that courier is the assigned one, the delivery fee is positive and the
courier's ledger holds no wallet and automatic entry for the order yet;
otherwise the ledger is as it was; with cash on delivery every courier ledger
is as it was. -/
theorem confirmDelivery_courier_credit (db : Db) (oid sid now : Nat) (order : Order)
    (so : ShopOrder)
    (ho : findOrder db oid = some order) (hso : findShopOrder order sid = some so)
    (hst : so.status ≠ OrderStatus.delivered) :
    (∀ c, (findUser db c).isSome = true →
      (courierPayouts (confirmDelivery db (some oid) (some sid) now).2 c
          = courierPayouts db c ++ [deliveryFeePayout order order.deliveryFee now]
        ↔ (order.paymentMethod = PaymentMethod.online ∨
              order.paymentMethod = PaymentMethod.promptpay ∨
              order.paymentMethod = PaymentMethod.card) ∧
            so.assignedDeliveryBoy = some c ∧ 0 < order.deliveryFee ∧
            deliveryFeeCredits db c oid = [])) ∧
      (∀ c, courierPayouts (confirmDelivery db (some oid) (some sid) now).2 c
            = courierPayouts db c ∨
          courierPayouts (confirmDelivery db (some oid) (some sid) now).2 c
            = courierPayouts db c ++ [deliveryFeePayout order order.deliveryFee now]) ∧
      ((deliveryFeePayout order order.deliveryFee now).amount = order.deliveryFee ∧
        (deliveryFeePayout order order.deliveryFee now).source = PayoutSource.wallet ∧
        (deliveryFeePayout order order.deliveryFee now).type = PayoutType.automatic ∧
        (deliveryFeePayout order order.deliveryFee now).orderId = some oid) ∧
      (order.paymentMethod = PaymentMethod.cod →
        ∀ c, courierPayouts (confirmDelivery db (some oid) (some sid) now).2 c
          = courierPayouts db c) := by
  have hid : order.id = oid := findOrder_id ho
  have hpay := courierPayouts_confirmDelivery db oid sid now order so ho hso hst
  have honline : order.paymentMethod.isOnlinePayment = true ↔
      (order.paymentMethod = PaymentMethod.online ∨
        order.paymentMethod = PaymentMethod.promptpay ∨
        order.paymentMethod = PaymentMethod.card) := by
    cases order.paymentMethod <;> simp [PaymentMethod.isOnlinePayment]
  have hnone : ∀ c, (courierPayouts db c).any (isDeliveryFeeCredit order.id) = false ↔
      deliveryFeeCredits db c oid = [] := by
    intro c
    rw [hid]
    exact ⟨filter_eq_nil_of_any_eq_false _ _, any_eq_false_of_filter_eq_nil _ _⟩
  refine ⟨?_, ?_, ⟨rfl, rfl, rfl, by rw [← hid]; rfl⟩, ?_⟩
  · intro c hu
    rw [hpay c]
    constructor
    · intro h
      by_cases hcond : so.assignedDeliveryBoy = some c ∧ (findUser db c).isSome = true ∧
          0 < order.deliveryFee ∧ order.paymentMethod.isOnlinePayment = true ∧
          (courierPayouts db c).any (isDeliveryFeeCredit order.id) = false
      · exact ⟨honline.mp hcond.2.2.2.1, hcond.1, hcond.2.2.1, (hnone c).mp hcond.2.2.2.2⟩
      · rw [if_neg hcond] at h
        have hlen := congrArg List.length h
        simp at hlen
    · rintro ⟨h1, h2, h3, h4⟩
      rw [if_pos ⟨h2, hu, h3, honline.mpr h1, (hnone c).mpr h4⟩]
  · intro c
    rw [hpay c]
    split
    · right
      rfl
    · left
      simp
  · intro hcod c
    rw [hpay c, if_neg]
    · simp
    · rintro ⟨-, -, -, h, -⟩
      rw [hcod] at h
      exact Bool.noConfusion h

/-- Delivery of the online order of `readyDb` appends the entry to the ledger of
courier 7; delivery of the cash order leaves that ledger as it was. -/
theorem confirmDelivery_courier_credit_witness :
    courierPayouts
        (confirmDelivery (readyDb PaymentMethod.online (some 7)) (some 1) (some 10) 3).2 7
      = courierPayouts (readyDb PaymentMethod.online (some 7)) 7 ++
        [deliveryFeePayout
          { id := 1, paymentMethod := PaymentMethod.online, totalAmount := 120,
            deliveryFee := 20,
            shopOrders := [{ id := 10, shop := some 5, subtotal := 100,
                             status := OrderStatus.outOfDelivery,
                             assignedDeliveryBoy := some 7 }] } 20 3] ∧
      courierPayouts
          (confirmDelivery (readyDb PaymentMethod.cod (some 7)) (some 1) (some 10) 3).2 7
        = courierPayouts (readyDb PaymentMethod.cod (some 7)) 7 :=
  ⟨((confirmDelivery_courier_credit (readyDb PaymentMethod.online (some 7)) 1 10 3
      { id := 1, paymentMethod := PaymentMethod.online, totalAmount := 120, deliveryFee := 20,
        shopOrders := [{ id := 10, shop := some 5, subtotal := 100,
                         status := OrderStatus.outOfDelivery,
                         assignedDeliveryBoy := some 7 }] }
      { id := 10, shop := some 5, subtotal := 100, status := OrderStatus.outOfDelivery,
        assignedDeliveryBoy := some 7 }
      rfl rfl (by decide)).1 7 rfl).mpr ⟨Or.inl rfl, rfl, by norm_num, rfl⟩,
    (confirmDelivery_courier_credit (readyDb PaymentMethod.cod (some 7)) 1 10 3
      { id := 1, paymentMethod := PaymentMethod.cod, totalAmount := 120, deliveryFee := 20,
        shopOrders := [{ id := 10, shop := some 5, subtotal := 100,
                         status := OrderStatus.outOfDelivery,
                         assignedDeliveryBoy := some 7 }] }
      { id := 10, shop := some 5, subtotal := 100, status := OrderStatus.outOfDelivery,
        assignedDeliveryBoy := some 7 }
      rfl rfl (by decide)).2.2.2 rfl 7⟩

/-! ## C13 -/

/-- C13: `getGpRate` returns the stored percentage clamped to 0..100 and divided
by 100 when it is finite, and 0 when the setting is missing or not finite; the
rate always lies between 0 and 1. -/
theorem getGpRate_clamped :
    (∀ pct : ℚ, getGpRate (some (JsNumber.finite pct)) = min (max pct 0) 100 / 100) ∧
      getGpRate none = 0 ∧
      getGpRate (some JsNumber.nan) = 0 ∧
      getGpRate (some JsNumber.posInf) = 0 ∧
      getGpRate (some JsNumber.negInf) = 0 ∧
      (∀ x : Option JsNumber, 0 ≤ getGpRate x ∧ getGpRate x ≤ 1) := by
  refine ⟨fun _ => rfl, rfl, rfl, rfl, rfl, ?_⟩
  intro x
  cases x with
  | none => simp [getGpRate]
  | some v =>
    cases v with
    | finite pct =>
      simp only [getGpRate]
      constructor
      · apply div_nonneg
        · exact le_min (le_max_right _ _) (by norm_num)
        · norm_num
      · rw [div_le_one (by norm_num)]
        exact min_le_right _ _
    | nan => simp [getGpRate]
    | posInf => simp [getGpRate]
    | negInf => simp [getGpRate]

end FoodDelivery

namespace FoodDelivery

/-! ## C14 -/

theorem foldl_add_if {α : Type} (c : α → Bool) (g : α → ℚ) (l : List α) (init : ℚ) :
    l.foldl (fun total x => if c x = true then total + g x else total) init
      = init + ((l.filter c).map g).sum := by
  induction l generalizing init with
  | nil => simp
  | cons x xs ih =>
    rw [List.foldl_cons, ih]
    cases hc : c x
    · simp [List.filter, hc]
    · simp [List.filter, hc, add_assoc]

/-- The first loop over the payouts of a shop as a sum. -/
theorem totalCompletedPayouts_eq (payouts : List ShopPayout) :
    ShopController.totalCompletedPayouts payouts
      = sumWhere (fun p => p.status == PayoutStatus.paid && sinceSandboxStart p) payouts := by
  unfold ShopController.totalCompletedPayouts sumWhere
  have h := foldl_add_if (fun p : ShopPayout => p.status == PayoutStatus.paid
    && sinceSandboxStart p) (fun p => p.amount) payouts 0
  rw [zero_add] at h
  rw [← h]
  congr 1
  funext total payout
  by_cases h1 : payout.status = PayoutStatus.paid <;>
    by_cases h2 : ShopController.newSandboxStartDate ≤ payout.createdAt <;>
    simp [h1, h2, sinceSandboxStart]

/-- The second loop over the payouts of a shop as a sum. -/
theorem pendingPayouts_eq (payouts : List ShopPayout) :
    ShopController.pendingPayouts payouts
      = sumWhere (fun p => (p.status == PayoutStatus.pending
          || p.status == PayoutStatus.inTransit) && sinceSandboxStart p) payouts := by
  unfold ShopController.pendingPayouts sumWhere
  have h := foldl_add_if (fun p : ShopPayout => (p.status == PayoutStatus.pending
    || p.status == PayoutStatus.inTransit) && sinceSandboxStart p) (fun p => p.amount) payouts 0
  rw [zero_add] at h
  rw [← h]
  congr 1
  funext total payout
  by_cases h1 : payout.status = PayoutStatus.pending <;>
    by_cases h3 : payout.status = PayoutStatus.inTransit <;>
    by_cases h2 : ShopController.newSandboxStartDate ≤ payout.createdAt <;>
    simp [h1, h2, h3, sinceSandboxStart]

theorem sumWhere_congr (f g : ShopPayout → Bool) (payouts : List ShopPayout)
    (h : ∀ p ∈ payouts, f p = g p) : sumWhere f payouts = sumWhere g payouts := by
  unfold sumWhere
  rw [List.filter_congr h]

/-- Shop 5 of `oldPayoutDb` has earned 90. -/
theorem oldPayoutDb_earnings :
    ShopController.totalShopEarnings oldPayoutDb 5 (getGpRate oldPayoutDb.commissionPercentage)
      = 90 := by
  simp [ShopController.totalShopEarnings, ShopController.deliveredOrdersFilter, oldPayoutDb,
    getGpRate, shopEarnings, platformIncome, mathRound]
  norm_num

/-- The code finds 90 available for shop 5 of `oldPayoutDb`. -/
theorem oldPayoutDb_available :
    ShopController.availableWalletBalance oldPayoutDb oldPayoutShop = 90 := by
  have hC : ShopController.totalCompletedPayouts oldPayoutShop.payouts = 0 := by
    simp [ShopController.totalCompletedPayouts, oldPayoutShop,
      ShopController.newSandboxStartDate]
  have hP : ShopController.pendingPayouts oldPayoutShop.payouts = 0 := by
    simp [ShopController.pendingPayouts, oldPayoutShop]
  have hid : oldPayoutShop.id = 5 := rfl
  simp only [ShopController.availableWalletBalance, hid, oldPayoutDb_earnings, hC, hP]
  norm_num

/-- C14 as stated fails: shop 5 has earned 90 and holds one paid payout of 50
from November 2023; the code computes an available balance of 90, the formula
of the claim gives 40. -/
theorem available_balance_counterexample :
    ShopController.totalShopEarnings oldPayoutDb 5 (getGpRate oldPayoutDb.commissionPercentage)
        = 90 ∧
      ShopController.availableWalletBalance oldPayoutDb oldPayoutShop = 90 ∧
      (ShopController.getMyShop oldPayoutDb oldPayoutShop).availableWalletBalance = 90 ∧
      claimedAvailableBalance 90 oldPayoutShop.payouts = 40 := by
  refine ⟨oldPayoutDb_earnings, oldPayoutDb_available, oldPayoutDb_available, ?_⟩
  simp [claimedAvailableBalance, sumWhere, oldPayoutShop]
  norm_num

/-- C14 (amended): for every merchant payouts ledger, the available balance
computed by the shop's `requestPayoutFromWallet` and by `getMyShop` equals
`max(0, max(0, totalEarnings - C) - P)`, where C is the sum of the amounts of
the entries with status paid and P the sum of those with status pending or in
transit, both taken over the entries created on or after the sandbox start date
(1 December 2024) only; when every entry of the ledger was created on or after
that date, this is the formula over the whole ledger. -/
theorem available_balance_formula (db : Db) (shop : Shop) :
    ShopController.availableWalletBalance db shop
        = max 0 (max 0 (ShopController.totalShopEarnings db shop.id
              (getGpRate db.commissionPercentage)
            - sumWhere (fun p => p.status == PayoutStatus.paid && sinceSandboxStart p)
                shop.payouts)
          - sumWhere (fun p => (p.status == PayoutStatus.pending
              || p.status == PayoutStatus.inTransit) && sinceSandboxStart p) shop.payouts) ∧
      (ShopController.getMyShop db shop).availableWalletBalance
        = ShopController.availableWalletBalance db shop ∧
      ((∀ p ∈ shop.payouts, ShopController.newSandboxStartDate ≤ p.createdAt) →
        ShopController.availableWalletBalance db shop
          = claimedAvailableBalance
              (ShopController.totalShopEarnings db shop.id (getGpRate db.commissionPercentage))
              shop.payouts) := by
  have h1 : ShopController.availableWalletBalance db shop
      = max 0 (max 0 (ShopController.totalShopEarnings db shop.id
            (getGpRate db.commissionPercentage)
          - sumWhere (fun p => p.status == PayoutStatus.paid && sinceSandboxStart p)
              shop.payouts)
        - sumWhere (fun p => (p.status == PayoutStatus.pending
            || p.status == PayoutStatus.inTransit) && sinceSandboxStart p) shop.payouts) := by
    simp only [ShopController.availableWalletBalance, totalCompletedPayouts_eq,
      pendingPayouts_eq]
  refine ⟨h1, rfl, ?_⟩
  intro hall
  rw [h1]
  unfold claimedAvailableBalance
  rw [sumWhere_congr (fun p => p.status == PayoutStatus.paid && sinceSandboxStart p)
      (fun p => p.status == PayoutStatus.paid) shop.payouts
      (fun p hp => by simp [sinceSandboxStart, hall p hp]),
    sumWhere_congr (fun p => (p.status == PayoutStatus.pending
        || p.status == PayoutStatus.inTransit) && sinceSandboxStart p)
      (fun p => p.status == PayoutStatus.pending || p.status == PayoutStatus.inTransit)
      shop.payouts (fun p hp => by simp [sinceSandboxStart, hall p hp])]

/-- A ledger whose only entry, a paid payout of 30, is from January 2025: the
formula over the whole ledger applies. -/
theorem available_balance_formula_witness :
    ShopController.availableWalletBalance oldPayoutDb
        { oldPayoutShop with
          payouts := [{ payoutId := PayoutId.other "po_new", amount := 30,
                        status := PayoutStatus.paid, createdAt := 1736000000000 }] }
      = claimedAvailableBalance
          (ShopController.totalShopEarnings oldPayoutDb 5
            (getGpRate oldPayoutDb.commissionPercentage))
          [{ payoutId := PayoutId.other "po_new", amount := 30,
             status := PayoutStatus.paid, createdAt := 1736000000000 }] :=
  (available_balance_formula oldPayoutDb
    { oldPayoutShop with
      payouts := [{ payoutId := PayoutId.other "po_new", amount := 30,
                    status := PayoutStatus.paid, createdAt := 1736000000000 }] }).2.2
    (by
      intro p hp
      simp only [List.mem_singleton] at hp
      subst hp
      decide)

end FoodDelivery

namespace FoodDelivery

/-! ## C15 -/

theorem shopAvailable_nonneg (db : Db) (shop : Shop) :
    0 ≤ ShopController.availableWalletBalance db shop := by
  unfold ShopController.availableWalletBalance
  exact le_max_left _ _

theorem courierAvailable_nonneg (db : Db) (user : User) :
    0 ≤ UserController.availableWalletBalance db user := by
  unfold UserController.availableWalletBalance
  exact le_max_left _ _

/-- C15: a payout request for more than the computed available balance is
rejected, by the shop's handler with status 400 and by the courier's handler
with status 400 (403 when the caller is not a courier), and the rejection
leaves the whole database as it was: no ledger entry, no payout request. The
available balance of every shop and of every courier, recomputed after any
sequence of requests, is not negative. -/
theorem payout_request_over_balance (db : Db) (userId : Nat) (amount : ℚ)
    (now requestId : Nat) :
    (∀ shop, db.shops.find? (fun s => s.owner == some userId) = some shop →
      ShopController.availableWalletBalance db shop < amount →
      (ShopController.requestPayoutFromWallet db userId (some amount) now requestId).1.status
          = 400 ∧
        (ShopController.requestPayoutFromWallet db userId (some amount) now requestId).2
          = db) ∧
      (∀ user, findUser db userId = some user →
        UserController.availableWalletBalance db user < amount →
        ((UserController.requestPayoutFromWallet db userId (some amount) now requestId).1.status
            = 400 ∨
          (user.role ≠ Role.deliveryBoy ∧
            (UserController.requestPayoutFromWallet db userId (some amount) now
              requestId).1.status = 403)) ∧
          (UserController.requestPayoutFromWallet db userId (some amount) now requestId).2
            = db) ∧
      (∀ (calls : List PayoutCall) (shop : Shop) (user : User),
        0 ≤ ShopController.availableWalletBalance (runPayoutCalls db calls) shop ∧
          0 ≤ UserController.availableWalletBalance (runPayoutCalls db calls) user) := by
  refine ⟨?_, ?_, ?_⟩
  · intro shop hshop hlt
    have hpos : 0 < amount :=
      lt_of_le_of_lt (shopAvailable_nonneg db shop) hlt
    have h0 : ¬ (amount = 0 ∨ amount ≤ 0) := by
      rintro (h | h) <;> linarith
    have howner : shop.owner = some userId := by
      have := List.find?_some hshop
      simpa using this
    simp only [ShopController.requestPayoutFromWallet, if_neg h0, hshop, howner,
      ne_eq, not_true_eq_false, if_false]
    by_cases hbank : shop.ePaymentAccount.accountNumber = "" ∨ shop.ePaymentAccount.bank = ""
    · rw [if_pos hbank]
      exact ⟨rfl, rfl⟩
    · rw [if_neg hbank, if_pos hlt]
      exact ⟨rfl, rfl⟩
  · intro user huser hlt
    have hpos : 0 < amount :=
      lt_of_le_of_lt (courierAvailable_nonneg db user) hlt
    have h0 : ¬ (amount = 0 ∨ amount ≤ 0) := by
      rintro (h | h) <;> linarith
    simp only [UserController.requestPayoutFromWallet, if_neg h0, huser]
    by_cases hrole : user.role ≠ Role.deliveryBoy
    · rw [if_pos hrole]
      exact ⟨Or.inr ⟨hrole, rfl⟩, rfl⟩
    · rw [if_neg hrole]
      by_cases hbank : user.ePaymentAccount.accountNumber = "" ∨ user.ePaymentAccount.bank = ""
      · rw [if_pos hbank]
        exact ⟨Or.inl rfl, rfl⟩
      · rw [if_neg hbank, if_pos hlt]
        exact ⟨Or.inl rfl, rfl⟩
  · intro calls shop user
    exact ⟨shopAvailable_nonneg _ shop,
      courierAvailable_nonneg _ user⟩

/-- Shop 5 of `oldPayoutDb` has 90 available; its owner asks for 100. Courier 7
of `courierDb` has nothing available and asks for 10. -/
theorem payout_request_over_balance_witness :
    ((ShopController.requestPayoutFromWallet oldPayoutDb 9 (some 100) 1740000000000 1).1.status
          = 400 ∧
        (ShopController.requestPayoutFromWallet oldPayoutDb 9 (some 100) 1740000000000 1).2
          = oldPayoutDb) ∧
      (((UserController.requestPayoutFromWallet courierDb 7 (some 10) 1740000000000 1).1.status
            = 400 ∨
          (courier7.role ≠ Role.deliveryBoy ∧
            (UserController.requestPayoutFromWallet courierDb 7 (some 10) 1740000000000
              1).1.status = 403)) ∧
        (UserController.requestPayoutFromWallet courierDb 7 (some 10) 1740000000000 1).2
          = courierDb) :=
  ⟨(payout_request_over_balance oldPayoutDb 9 100 1740000000000 1).1 oldPayoutShop rfl
      (by
        rw [oldPayoutDb_available]
        norm_num),
    (payout_request_over_balance courierDb 7 10 1740000000000 1).2.1 courier7 rfl
      (by
        simp [UserController.availableWalletBalance, UserController.totalEarnings,
          UserController.payoutTotals, courierDb, courier7])⟩

end FoodDelivery

namespace FoodDelivery

/-! ## Cancellation -/

theorem jsTrim_empty : jsTrim "" = "" := by decide

/-- The shop order that `saveShopOrderByShop` leaves behind. -/
theorem shopOrderByShop_saveShopOrderByShop (db : Db) (oid shid : Nat) (order : Order)
    (so : ShopOrder) (f : ShopOrder → ShopOrder) (hf : ∀ x, (f x).shop = x.shop)
    (ho : findOrder db oid = some order) (hso : findShopOrderByShop db order shid = some so) :
    shopOrderByShop (saveShopOrderByShop db oid shid f) oid shid = some (f so) := by
  unfold shopOrderByShop findOrder saveShopOrderByShop
  simp only []
  rw [find?_modifyFirst_same _ _ (fun x => by simp)]
  unfold findOrder at ho
  rw [ho]
  simp only [Option.map_some', Option.some_bind]
  unfold findShopOrderByShop at hso ⊢
  change List.find? (hasShop db shid) (modifyFirst (hasShop db shid) f order.shopOrders)
    = some (f so)
  rw [find?_modifyFirst_same (hasShop db shid) f (fun x => by simp [hasShop, hf]), hso]
  rfl

/-- The pairs of role and status for which `allowedStatuses` lets a
cancellation through. -/
theorem mem_allowedStatuses (role : Role) (status : OrderStatus) :
    status ∈ allowedStatuses role ↔
      (role = Role.user ∧ (status = OrderStatus.pending ∨ status = OrderStatus.preparing ∨
          status = OrderStatus.outOfDelivery)) ∨
        (role = Role.owner ∧ (status = OrderStatus.pending ∨ status = OrderStatus.preparing)) ∨
        (role = Role.deliveryBoy ∧ status = OrderStatus.outOfDelivery) := by
  cases role <;> cases status <;> simp [allowedStatuses]

/-! ## C16 -/

/-- C16: `cancelShopOrder` called by the assigned courier on a shop order whose
`pickedUpAt` is set is rejected with status 400, whatever the status of the
shop order and whatever the reason given, and the database is left as it
was. -/
theorem cancelShopOrder_courier_after_pickup (db : Db) (oid shid : Nat)
    (reason : Option String) (callerId now : Nat) (order : Order) (so : ShopOrder)
    (user : User) (t : Nat)
    (ho : findOrder db oid = some order) (hso : findShopOrderByShop db order shid = some so)
    (hu : findUser db callerId = some user) (hrole : user.role = Role.deliveryBoy)
    (hassigned : so.assignedDeliveryBoy = some callerId) (hp : so.pickedUpAt = some t) :
    (cancelShopOrder db (some oid) (some shid) reason callerId now).1.status = 400 ∧
      (cancelShopOrder db (some oid) (some shid) reason callerId now).2 = db := by
  cases reason with
  | none => exact ⟨rfl, rfl⟩
  | some reason =>
    by_cases hr : reason = "" ∨ jsTrim reason = ""
    · constructor <;> simp [cancelShopOrder, hr]
    · have hauth : isAuthorized Role.deliveryBoy callerId order so = true := by
        simp [isAuthorized, hassigned]
      simp only [cancelShopOrder, if_neg hr, ho, hso, hu, hrole, hauth]
      by_cases hst : so.status ∈ allowedStatuses Role.deliveryBoy
      · simp [hst, hp]
      · simp [hst]

/-- Courier 7 tries to cancel the picked-up shop order of `cancelDb`. -/
theorem cancelShopOrder_courier_after_pickup_witness :
    (cancelShopOrder (cancelDb OrderStatus.outOfDelivery (some 1000)) (some 1) (some 5)
        (some "flat tyre") 7 2000).1.status = 400 ∧
      (cancelShopOrder (cancelDb OrderStatus.outOfDelivery (some 1000)) (some 1) (some 5)
        (some "flat tyre") 7 2000).2 = cancelDb OrderStatus.outOfDelivery (some 1000) :=
  cancelShopOrder_courier_after_pickup (cancelDb OrderStatus.outOfDelivery (some 1000)) 1 5
    (some "flat tyre") 7 2000
    { id := 1, user := some 3, paymentMethod := PaymentMethod.cod, totalAmount := 120,
      deliveryFee := 20,
      shopOrders := [{ id := 10, shop := some 5, owner := some 9, subtotal := 100,
                       status := OrderStatus.outOfDelivery, assignedDeliveryBoy := some 7,
                       pickedUpAt := some 1000 }] }
    { id := 10, shop := some 5, owner := some 9, subtotal := 100,
      status := OrderStatus.outOfDelivery, assignedDeliveryBoy := some 7,
      pickedUpAt := some 1000 }
    { id := 7, role := Role.deliveryBoy } 1000 rfl rfl rfl rfl rfl rfl

/-! ## C17 -/

/-- C17 (the code at the failing input): customer 3 cancels the shop order of
the own order after it was picked up (status out of delivery, `pickedUpAt`
set); the call is not rejected: it answers 200 and the shop order is
cancelled. -/
theorem cancelShopOrder_customer_after_pickup :
    (shopOrderByShop (cancelDb OrderStatus.outOfDelivery (some 1000)) 1 5).map
        (fun so => so.pickedUpAt) = some (some 1000) ∧
      (cancelShopOrder (cancelDb OrderStatus.outOfDelivery (some 1000)) (some 1) (some 5)
        (some "changed my mind") 3 2000).1 = ⟨200, "Order cancelled successfully"⟩ ∧
      (shopOrderByShop
        (cancelShopOrder (cancelDb OrderStatus.outOfDelivery (some 1000)) (some 1) (some 5)
          (some "changed my mind") 3 2000).2 1 5).map (fun so => so.status)
        = some OrderStatus.cancelled := by
  decide

/-! ## C18 -/

/-- C18: for an authorized caller, a reason that is not empty once trimmed and a
shop order that was not picked up, `cancelShopOrder` answers 200 if and only if
the caller is a customer and the status is pending, preparing or out of
delivery, or the caller is the owner and the status is pending or preparing, or
the caller is the assigned courier and the status is out of delivery. When it
does, the shop order becomes cancelled with the trimmed reason and `cancelledAt`
set; when it does not, the database is left as it was. -/
theorem cancelShopOrder_table (db : Db) (oid shid : Nat) (reason : String)
    (callerId now : Nat) (order : Order) (so : ShopOrder) (user : User)
    (ho : findOrder db oid = some order) (hso : findShopOrderByShop db order shid = some so)
    (hu : findUser db callerId = some user)
    (hauth : isAuthorized user.role callerId order so = true)
    (hreason : jsTrim reason ≠ "") (hp : so.pickedUpAt = none) :
    ((cancelShopOrder db (some oid) (some shid) (some reason) callerId now).1.status = 200 ↔
        ((user.role = Role.user ∧ (so.status = OrderStatus.pending ∨
              so.status = OrderStatus.preparing ∨ so.status = OrderStatus.outOfDelivery)) ∨
          (user.role = Role.owner ∧ (so.status = OrderStatus.pending ∨
              so.status = OrderStatus.preparing)) ∨
          (user.role = Role.deliveryBoy ∧ so.status = OrderStatus.outOfDelivery))) ∧
      ((cancelShopOrder db (some oid) (some shid) (some reason) callerId now).1.status = 200 →
        (cancelShopOrder db (some oid) (some shid) (some reason) callerId now).1
            = ⟨200, "Order cancelled successfully"⟩ ∧
          shopOrderByShop
              (cancelShopOrder db (some oid) (some shid) (some reason) callerId now).2 oid shid
            = some { so with status := OrderStatus.cancelled
                             cancelReason := some (jsTrim reason)
                             cancelledAt := some now }) ∧
      ((cancelShopOrder db (some oid) (some shid) (some reason) callerId now).1.status ≠ 200 →
        (cancelShopOrder db (some oid) (some shid) (some reason) callerId now).2 = db) := by
  have hr : ¬ (reason = "" ∨ jsTrim reason = "") := by
    rintro (h | h)
    · rw [h] at hreason
      exact hreason jsTrim_empty
    · exact hreason h
  have hpick : ¬ (user.role = Role.deliveryBoy ∧ so.pickedUpAt.isSome = true) := by
    rw [hp]
    simp
  rw [← mem_allowedStatuses]
  by_cases hst : so.status ∈ allowedStatuses user.role
  · have hcall : cancelShopOrder db (some oid) (some shid) (some reason) callerId now
        = (⟨200, "Order cancelled successfully"⟩,
            saveShopOrderByShop db oid shid
              (fun so => { so with status := OrderStatus.cancelled
                                   cancelReason := some (jsTrim reason)
                                   cancelledAt := some now })) := by
      simp only [cancelShopOrder, if_neg hr, ho, hso, hu, hauth, hst, hpick]
      simp
    rw [hcall]
    refine ⟨⟨fun _ => hst, fun _ => rfl⟩, fun _ => ⟨rfl, ?_⟩, fun h => absurd rfl h⟩
    exact shopOrderByShop_saveShopOrderByShop db oid shid order so
      (fun so => { so with status := OrderStatus.cancelled
                           cancelReason := some (jsTrim reason)
                           cancelledAt := some now })
      (fun _ => rfl) ho hso
  · have hcall : cancelShopOrder db (some oid) (some shid) (some reason) callerId now
        = (⟨400, "Cannot cancel order. Order status is: " ++ so.status.toJs⟩, db) := by
      simp only [cancelShopOrder, if_neg hr, ho, hso, hu, hauth, hst]
      simp
    rw [hcall]
    refine ⟨⟨fun h => ?_, fun h => absurd h hst⟩, fun h => ?_, fun _ => rfl⟩
    · simp at h
    · simp at h

/-- The owner 9 cancels the shop order of `cancelDb` while it is preparing. -/
theorem cancelShopOrder_table_witness :
    (cancelShopOrder (cancelDb OrderStatus.preparing none) (some 1) (some 5)
        (some " out of rice ") 9 2000).1.status = 200 ∧
      shopOrderByShop
          (cancelShopOrder (cancelDb OrderStatus.preparing none) (some 1) (some 5)
            (some " out of rice ") 9 2000).2 1 5
        = some { id := 10, shop := some 5, owner := some 9, subtotal := 100,
                 status := OrderStatus.cancelled, cancelReason := some "out of rice",
                 cancelledAt := some 2000, assignedDeliveryBoy := some 7 } :=
  have h := cancelShopOrder_table (cancelDb OrderStatus.preparing none) 1 5 " out of rice " 9 2000
    { id := 1, user := some 3, paymentMethod := PaymentMethod.cod, totalAmount := 120,
      deliveryFee := 20,
      shopOrders := [{ id := 10, shop := some 5, owner := some 9, subtotal := 100,
                       status := OrderStatus.preparing, assignedDeliveryBoy := some 7 }] }
    { id := 10, shop := some 5, owner := some 9, subtotal := 100,
      status := OrderStatus.preparing, assignedDeliveryBoy := some 7 }
    { id := 9, role := Role.owner } rfl rfl rfl rfl (by decide) rfl
  have h200 := h.1.mpr (Or.inr (Or.inl ⟨rfl, Or.inr rfl⟩))
  ⟨h200, (h.2.1 h200).2⟩

end FoodDelivery

namespace FoodDelivery

/-! ## C19 -/

/-- C19 (the code at the failing input): the order of `cancelDb` is pending with
subtotal 100, delivery fee 20 and total 120, so the invariant holds. The owner
replaces the line items by one item of price 50; the edit goes through, the
subtotal becomes 50 and the total is set to 50, not to 70: the invariant is
lost. When the request carries a subtotal of its own (1), that value is stored
and nothing is recomputed from the line items. -/
theorem updateOrderItems_breaks_total :
    (findOrder (cancelDb OrderStatus.pending none) 1).map totalMatches = some true ∧
      (updateOrderItems (cancelDb OrderStatus.pending none) (some 1) (some 5)
        (some [{ item := 1, price := some 50, quantity := some 1 }]) none 9).1
        = ⟨200, "Order items updated successfully"⟩ ∧
      (findOrder (updateOrderItems (cancelDb OrderStatus.pending none) (some 1) (some 5)
        (some [{ item := 1, price := some 50, quantity := some 1 }]) none 9).2 1).map
          (fun o => (o.totalAmount, (o.shopOrders.map (fun so => so.subtotal)).sum,
            o.deliveryFee)) = some (50, 50, 20) ∧
      (findOrder (updateOrderItems (cancelDb OrderStatus.pending none) (some 1) (some 5)
        (some [{ item := 1, price := some 50, quantity := some 1 }]) none 9).2 1).map
          totalMatches = some false ∧
      (findOrder (updateOrderItems (cancelDb OrderStatus.pending none) (some 1) (some 5)
        (some [{ item := 1, price := some 50, quantity := some 1 }]) (some 1) 9).2 1).map
          (fun o => (o.totalAmount, (o.shopOrders.map (fun so => so.subtotal)).sum))
        = some (1, 1) := by
  refine ⟨?_, ?_, ?_, ?_, ?_⟩
  · simp [findOrder, cancelDb, totalMatches]
    norm_num
  · decide
  · simp [updateOrderItems, findOrder, findShopOrderByShop, hasShop, findShop, cancelDb,
      modifyFirst, itemsTotal]
  · simp [updateOrderItems, findOrder, findShopOrderByShop, hasShop, findShop, cancelDb,
      modifyFirst, itemsTotal, totalMatches]
  · simp [updateOrderItems, findOrder, findShopOrderByShop, hasShop, findShop, cancelDb,
      modifyFirst, itemsTotal]

/-! ## C20 -/

/-- C20 (the code at the failing input): with a configured base fee of 10 and a
configured price per km of 0, `placeOrder` computes the fee with 5 per km, for
every distance function and whatever fee the client sent; at a distance of
2 km it stores 20, where the formula of the claim gives 10. -/
theorem placeOrderDeliveryFee_zero_rate :
    (∀ (calculateDistance : ℚ → ℚ → ℚ → ℚ → ℚ) (clientFee : Option ℚ),
      placeOrderDeliveryFee calculateDistance
          (some { baseDeliveryFee := 10, pricePerKm := 0 })
          (some { latitude := some 13, longitude := some 100 }) 14 101 clientFee
        = ⌊(10 : ℚ) + calculateDistance 13 100 14 101 * 5⌋) ∧
      placeOrderDeliveryFee (fun _ _ _ _ => 2)
          (some { baseDeliveryFee := 10, pricePerKm := 0 })
          (some { latitude := some 13, longitude := some 100 }) 14 101 none = 20 ∧
      ⌊(10 : ℚ) + 2 * 0⌋ = 10 := by
  refine ⟨?_, ?_, ?_⟩
  · intro calculateDistance clientFee
    simp [placeOrderDeliveryFee]
  · simp [placeOrderDeliveryFee]
    norm_num
  · norm_num

end FoodDelivery

namespace FoodDelivery

/-! ## Releasing a job -/

theorem find?_modifyFirst_isSome {α : Type} (p q : α → Bool) (f : α → α)
    (hf : ∀ x, p (f x) = p x) (l : List α) :
    ((modifyFirst q f l).find? p).isSome = (l.find? p).isSome := by
  induction l with
  | nil => rfl
  | cons x xs ih =>
    by_cases hq : q x = true
    · by_cases hp : p x = true
      · simp [modifyFirst, hq, List.find?, hf, hp]
      · have hp2 : p x = false := by simpa using hp
        simp [modifyFirst, hq, List.find?, hf, hp2]
    · have hq2 : q x = false := by simpa using hq
      by_cases hp : p x = true
      · simp [modifyFirst, hq2, List.find?, hp]
      · have hp2 : p x = false := by simpa using hp
        simp [modifyFirst, hq2, List.find?, hp2, ih]

theorem find?_and_of_find? {α : Type} (p q : α → Bool) (l : List α) (x : α)
    (h : l.find? p = some x) (hq : q x = true) :
    l.find? (fun y => p y && q y) = some x := by
  induction l with
  | nil => simp at h
  | cons y ys ih =>
    by_cases hp : p y = true
    · have hxy : y = x := by simpa [List.find?, hp] using h
      subst hxy
      simp [List.find?, hp, hq]
    · have hp2 : p y = false := by simpa using hp
      have h2 : ys.find? p = some x := by simpa [List.find?, hp2] using h
      simp [List.find?, hp2, ih h2]

theorem modifyFirst_and_of_find? {α : Type} (p q : α → Bool) (f : α → α) (l : List α) (x : α)
    (h : l.find? p = some x) (hq : q x = true) :
    modifyFirst (fun y => p y && q y) f l = modifyFirst p f l := by
  induction l with
  | nil => rfl
  | cons y ys ih =>
    by_cases hp : p y = true
    · have hxy : y = x := by simpa [List.find?, hp] using h
      subst hxy
      simp [modifyFirst, hp, hq]
    · have hp2 : p y = false := by simpa using hp
      have h2 : ys.find? p = some x := by simpa [List.find?, hp2] using h
      simp [modifyFirst, hp2, ih h2]

/-- The populated courier of a shop order is the caller exactly when the shop
order names the caller and the caller's document exists. -/
theorem populated_courier_eq (db : Db) (so : ShopOrder) (c : Nat) :
    (so.assignedDeliveryBoy.bind (findUser db)).map (fun u => u.id) = some c ↔
      so.assignedDeliveryBoy = some c ∧ (findUser db c).isSome = true := by
  cases ha : so.assignedDeliveryBoy with
  | none => simp
  | some a =>
    simp only [Option.some_bind]
    cases hu : findUser db a with
    | none =>
      constructor
      · intro h
        cases h
      · rintro ⟨hac, hs⟩
        have hac2 : a = c := by simpa using hac
        subst hac2
        simp [hu] at hs
    | some u =>
      have hid := findUser_id hu
      simp only [Option.map_some', Option.some.injEq]
      constructor
      · intro h
        have hac : a = c := by rw [← hid]; exact h
        subst hac
        simp [hu]
      · intro h
        rw [hid]; exact h.1

/-- A shop order found by its shop belongs to the order. -/
theorem any_id_of_findShopOrderByShop {db : Db} {order : Order} {shid : Nat} {so : ShopOrder}
    (h : findShopOrderByShop db order shid = some so) :
    order.shopOrders.any (fun s => s.id == so.id) = true := by
  have hmem := List.mem_of_find?_eq_some h
  rw [List.any_eq_true]
  exact ⟨so, hmem, by simp⟩

/-- Looking a shop order up by its shop succeeds after an update that leaves
the shops of the shop orders alone. -/
theorem findShopOrderByShop_update_ne_none (db db1 : Db) (order : Order) (sid shid : Nat)
    (f : ShopOrder → ShopOrder) (hshops : db1.shops = db.shops)
    (hf : ∀ s, (f s).shop = s.shop)
    (h : (findShopOrderByShop db order shid).isSome = true) :
    findShopOrderByShop db1
      { order with shopOrders := modifyFirst (fun s => s.id == sid) f order.shopOrders } shid
        ≠ none := by
  have hp : hasShop db1 shid = hasShop db shid := by
    funext s
    unfold hasShop findShop
    rw [hshops]
  have h2 : (findShopOrderByShop db1
      { order with shopOrders := modifyFirst (fun s => s.id == sid) f order.shopOrders }
      shid).isSome = true := by
    unfold findShopOrderByShop
    simp only []
    rw [hp, find?_modifyFirst_isSome (hasShop db shid) _ f
      (fun x => by unfold hasShop; rw [hf])]
    exact h
  intro hnone
  rw [hnone] at h2
  simp at h2

theorem cancelJobAssignment_found_aux (db : Db) (oid shid c : Nat) (order : Order) (so : ShopOrder)
    (ho : findOrder db oid = some order)
    (hso : findShopOrderByShop db order shid = some so) :
    cancelJobAssignment db (some oid) (some shid) c =
      if (so.assignedDeliveryBoy.bind (findUser db)).map (fun u => u.id) ≠ some c then
        (⟨403, "You are not assigned to this job"⟩, db)
      else if so.pickedUpAt.isSome then
        (⟨400, "Cannot cancel job. Order has already been picked up."⟩, db)
      else if so.status ≠ OrderStatus.preparing ∧ so.status ≠ OrderStatus.outOfDelivery then
        (⟨400, "Cannot cancel job. Order status is: " ++ so.status.toJs⟩, db)
      else
        (⟨200, "Job cancelled successfully. The job is now available for other deliverers."⟩,
          saveShopOrder db oid so.id (fun s => { s with assignedDeliveryBoy := none })) := by
  have hany := any_id_of_findShopOrderByShop hso
  have hmatch : db.orders.find? (cancelJobFilter oid so.id) = some order := by
    unfold findOrder at ho
    exact find?_and_of_find? (fun o => o.id == oid)
      (fun o => o.shopOrders.any (fun s => s.id == so.id)) db.orders order ho hany
  have hmod : ∀ f : Order → Order,
      modifyFirst (cancelJobFilter oid so.id) f db.orders
        = modifyFirst (fun o => o.id == oid) f db.orders := by
    intro f
    unfold findOrder at ho
    exact modifyFirst_and_of_find? (fun o => o.id == oid)
      (fun o => o.shopOrders.any (fun s => s.id == so.id)) f db.orders order ho hany
  unfold cancelJobAssignment
  simp only [ho, hso, hmatch, hmod]
  split
  · rfl
  · split
    · rfl
    · split
      · rfl
      · split
        · rename_i heq
          exact absurd heq (findShopOrderByShop_update_ne_none db _ order so.id shid _ rfl
            (fun _ => rfl) (by rw [hso]; rfl))
        · rfl

/-- The answers of `cancelJobAssignment` when the order and the shop order are
found. -/
theorem cancelJobAssignment_found (db : Db) (oid shid c : Nat) (order : Order) (so : ShopOrder)
    (ho : findOrder db oid = some order)
    (hso : findShopOrderByShop db order shid = some so) :
    cancelJobAssignment db (some oid) (some shid) c =
      if ¬ (so.assignedDeliveryBoy = some c ∧ (findUser db c).isSome = true) then
        (⟨403, "You are not assigned to this job"⟩, db)
      else if so.pickedUpAt.isSome = true then
        (⟨400, "Cannot cancel job. Order has already been picked up."⟩, db)
      else if so.status ≠ OrderStatus.preparing ∧ so.status ≠ OrderStatus.outOfDelivery then
        (⟨400, "Cannot cancel job. Order status is: " ++ so.status.toJs⟩, db)
      else
        (⟨200, "Job cancelled successfully. The job is now available for other deliverers."⟩,
          saveShopOrder db oid so.id (fun s => { s with assignedDeliveryBoy := none })) := by
  rw [cancelJobAssignment_found_aux db oid shid c order so ho hso]
  simp only [ne_eq, populated_courier_eq]

/-- Whenever `cancelJobAssignment` does not answer 200, it has written nothing. -/
theorem cancelJobAssignment_unchanged (db : Db) (o s : Option Nat) (c : Nat)
    (h : (cancelJobAssignment db o s c).1.status ≠ 200) :
    (cancelJobAssignment db o s c).2 = db := by
  cases o with
  | none => simp [cancelJobAssignment]
  | some oid =>
    cases s with
    | none => simp [cancelJobAssignment]
    | some shid =>
      cases ho : findOrder db oid with
      | none => simp [cancelJobAssignment, ho]
      | some order =>
        cases hso : findShopOrderByShop db order shid with
        | none => simp [cancelJobAssignment, ho, hso]
        | some so =>
          rw [cancelJobAssignment_found db oid shid c order so ho hso] at h ⊢
          split_ifs at h ⊢ <;> first | rfl | exact absurd rfl h

/-! ## C21 -/

/-- C21: for a caller whose document exists (the `isAuth` middleware has
looked it up) and an order and a shop order that `cancelJobAssignment` finds
(the shop order being the one its id designates in the order), the call answers
200 if and only if the caller is the courier assigned to the shop order,
`pickedUpAt` is unset and the status is preparing or out of delivery. On
success the database is the old one with `assignedDeliveryBoy` of that shop
order set to null and nothing else changed, and the shop order then passes the
candidate test of the assignment feed. In every other case, also for arguments
that designate no order or shop order, the database is unchanged; so it is once
`pickedUpAt` is set. -/
theorem cancelJobAssignment_contract (db : Db) (orderId shopId callerId : Nat) (order : Order)
    (shopOrder : ShopOrder)
    (hcaller : (findUser db callerId).isSome = true)
    (ho : findOrder db orderId = some order)
    (hso : findShopOrderByShop db order shopId = some shopOrder)
    (hid : findShopOrder order shopOrder.id = some shopOrder) :
    ((cancelJobAssignment db (some orderId) (some shopId) callerId).1.status = 200 ↔
        shopOrder.assignedDeliveryBoy = some callerId
          ∧ shopOrder.pickedUpAt = none
          ∧ (shopOrder.status = OrderStatus.preparing
              ∨ shopOrder.status = OrderStatus.outOfDelivery)) ∧
      ((cancelJobAssignment db (some orderId) (some shopId) callerId).1.status = 200 →
        (cancelJobAssignment db (some orderId) (some shopId) callerId).2
            = saveShopOrder db orderId shopOrder.id
                (fun so => { so with assignedDeliveryBoy := none }) ∧
          shopOrderOf (cancelJobAssignment db (some orderId) (some shopId) callerId).2
              orderId shopOrder.id
            = some { shopOrder with assignedDeliveryBoy := none } ∧
          isCandidate { shopOrder with assignedDeliveryBoy := none } = true) ∧
      (∀ o s : Option Nat, (cancelJobAssignment db o s callerId).1.status ≠ 200 →
        (cancelJobAssignment db o s callerId).2 = db) ∧
      (shopOrder.pickedUpAt.isSome = true →
        (cancelJobAssignment db (some orderId) (some shopId) callerId).2 = db) := by
  have hfound := cancelJobAssignment_found db orderId shopId callerId order shopOrder ho hso
  have hiff0 : (cancelJobAssignment db (some orderId) (some shopId) callerId).1.status = 200 ↔
      (shopOrder.assignedDeliveryBoy = some callerId ∧ (findUser db callerId).isSome = true)
        ∧ shopOrder.pickedUpAt = none
        ∧ (shopOrder.status = OrderStatus.preparing
            ∨ shopOrder.status = OrderStatus.outOfDelivery) := by
    rw [hfound]
    by_cases h1 : shopOrder.assignedDeliveryBoy = some callerId
        ∧ (findUser db callerId).isSome = true
    · rw [if_neg (not_not.mpr h1)]
      by_cases h2 : shopOrder.pickedUpAt.isSome = true
      · rw [if_pos h2]
        constructor
        · intro h; exact absurd h (by simp)
        · intro h; rw [h.2.1] at h2; exact absurd h2 (by simp)
      · rw [if_neg h2]
        by_cases h3 : shopOrder.status ≠ OrderStatus.preparing
            ∧ shopOrder.status ≠ OrderStatus.outOfDelivery
        · rw [if_pos h3]
          constructor
          · intro h; exact absurd h (by simp)
          · intro h
            cases h.2.2 with
            | inl hs => exact absurd hs h3.1
            | inr hs => exact absurd hs h3.2
        · rw [if_neg h3]
          constructor
          · intro _
            refine ⟨h1, ?_, ?_⟩
            · cases hp : shopOrder.pickedUpAt with
              | none => rfl
              | some t => rw [hp] at h2; exact absurd rfl h2
            · by_contra hn
              exact h3 ⟨fun h => hn (Or.inl h), fun h => hn (Or.inr h)⟩
          · intro _; rfl
    · rw [if_pos h1]
      constructor
      · intro h; exact absurd h (by simp)
      · intro h; exact absurd h.1 h1
  have hiff : (cancelJobAssignment db (some orderId) (some shopId) callerId).1.status = 200 ↔
      shopOrder.assignedDeliveryBoy = some callerId
        ∧ shopOrder.pickedUpAt = none
        ∧ (shopOrder.status = OrderStatus.preparing
            ∨ shopOrder.status = OrderStatus.outOfDelivery) :=
    hiff0.trans ⟨fun h => ⟨h.1.1, h.2⟩, fun h => ⟨⟨h.1, hcaller⟩, h.2⟩⟩
  refine ⟨hiff, ?_, fun o s h => cancelJobAssignment_unchanged db o s callerId h, ?_⟩
  · intro h200
    obtain ⟨hc, hp, hst⟩ := hiff0.mp h200
    have h2 : ¬ (shopOrder.pickedUpAt.isSome = true) := by rw [hp]; decide
    have h3 : ¬ (shopOrder.status ≠ OrderStatus.preparing
        ∧ shopOrder.status ≠ OrderStatus.outOfDelivery) := by
      intro h; cases hst with
      | inl hs => exact h.1 hs
      | inr hs => exact h.2 hs
    have hdb : (cancelJobAssignment db (some orderId) (some shopId) callerId).2
        = saveShopOrder db orderId shopOrder.id
            (fun so => { so with assignedDeliveryBoy := none }) := by
      rw [hfound, if_neg (not_not.mpr hc), if_neg h2, if_neg h3]
    refine ⟨hdb, ?_, ?_⟩
    · rw [hdb, shopOrderOf_saveShopOrder db orderId shopOrder.id
        (fun so => { so with assignedDeliveryBoy := none }) (fun _ => rfl)]
      simp [shopOrderOf, ho, hid]
    · cases hst with
      | inl hs => simp [isCandidate, hs]
      | inr hs => simp [isCandidate, hs]
  · intro hp
    rw [hfound]
    by_cases h1 : shopOrder.assignedDeliveryBoy = some callerId
        ∧ (findUser db callerId).isSome = true
    · rw [if_neg (not_not.mpr h1), if_pos hp]
    · rw [if_pos h1]

/-- Courier 7 releases the job of `cancelDb` before pickup: the call answers
200 and the shop order has no courier any more. -/
theorem cancelJobAssignment_contract_witness :
    (cancelJobAssignment (cancelDb OrderStatus.outOfDelivery none) (some 1) (some 5) 7).1.status
        = 200 ∧
      shopOrderOf
          (cancelJobAssignment (cancelDb OrderStatus.outOfDelivery none) (some 1) (some 5) 7).2
          1 10
        = some { id := 10, shop := some 5, owner := some 9, subtotal := 100,
                 status := OrderStatus.outOfDelivery, assignedDeliveryBoy := none } :=
  have h := cancelJobAssignment_contract (cancelDb OrderStatus.outOfDelivery none) 1 5 7
    { id := 1, user := some 3, paymentMethod := PaymentMethod.cod, totalAmount := 120,
      deliveryFee := 20,
      shopOrders := [{ id := 10, shop := some 5, owner := some 9, subtotal := 100,
                       status := OrderStatus.outOfDelivery, assignedDeliveryBoy := some 7 }] }
    { id := 10, shop := some 5, owner := some 9, subtotal := 100,
      status := OrderStatus.outOfDelivery, assignedDeliveryBoy := some 7 }
    (by decide) (by decide) (by decide) (by decide)
  have h200 := h.1.mpr ⟨rfl, rfl, Or.inr rfl⟩
  ⟨h200, (h.2.1 h200).2.1⟩

end FoodDelivery

namespace FoodDelivery

/-! ## The order of the feed -/

/-- The comparison function of the feed compares any two entries one way or
the other. -/
theorem compareAssignments_total (a b : Assignment) :
    compareAssignments a b ≤ 0 ∨ compareAssignments b a ≤ 0 := by
  unfold compareAssignments
  cases a.distance with
  | none =>
    cases b.distance with
    | none => left; simp
    | some y => right; simp
  | some x =>
    cases b.distance with
    | none => left; simp
    | some y =>
      simp only []
      rcases le_total x y with h | h
      · left; linarith
      · right; linarith

/-- The comparison function of the feed is transitive. -/
theorem compareAssignments_trans (a b c : Assignment)
    (hab : compareAssignments a b ≤ 0) (hbc : compareAssignments b c ≤ 0) :
    compareAssignments a c ≤ 0 := by
  unfold compareAssignments at hab hbc ⊢
  cases ha : a.distance with
  | none =>
    cases hb : b.distance with
    | none =>
      cases hc : c.distance with
      | none => simp
      | some z => rw [hb, hc] at hbc; simp at hbc; linarith
    | some y => rw [ha, hb] at hab; simp at hab; linarith
  | some x =>
    cases hc : c.distance with
    | none => simp
    | some z =>
      cases hb : b.distance with
      | none => rw [hb, hc] at hbc; simp at hbc; linarith
      | some y =>
        rw [ha, hb] at hab
        rw [hb, hc] at hbc
        simp only [] at hab hbc ⊢
        linarith

/-- What the comparison function says about two entries it leaves in order. -/
theorem compareAssignments_le (a b : Assignment) (h : compareAssignments a b ≤ 0) :
    (a.distance = none → b.distance = none) ∧
      ∀ x y, a.distance = some x → b.distance = some y → x ≤ y := by
  unfold compareAssignments at h
  cases ha : a.distance with
  | none =>
    cases hb : b.distance with
    | none => simp
    | some y => rw [ha, hb] at h; simp at h; linarith
  | some x =>
    cases hb : b.distance with
    | none => simp
    | some y =>
      rw [ha, hb] at h
      simp only [] at h
      refine ⟨fun hn => (by cases hn), ?_⟩
      intro x1 y1 hx hy
      cases hx; cases hy
      linarith

/-- The query's test on the order lets through every order that has an
eligible shop order, so dropping it changes nothing. -/
theorem flatMap_filter_any {β : Type} (g : Order → ShopOrder → β) (l : List Order) :
    (l.filter (fun o => o.shopOrders.any isCandidate)).flatMap
        (fun o => (o.shopOrders.filter isCandidate).map (g o))
      = l.flatMap (fun o => (o.shopOrders.filter isCandidate).map (g o)) := by
  induction l with
  | nil => rfl
  | cons o os ih =>
    by_cases h : o.shopOrders.any isCandidate = true
    · simp only [List.filter, h, List.flatMap_cons, ih]
    · have h2 : o.shopOrders.any isCandidate = false := by simpa using h
      have h3 : o.shopOrders.filter isCandidate = [] := filter_eq_nil_of_any_eq_false _ _ h2
      simp only [List.filter, h2, List.flatMap_cons, ih, h3, List.map_nil, List.nil_append]

/-- The feed of `feedDb` for courier 7, with the difference of the latitudes for
the distance: nearest first, the job without a distance last. -/
theorem getDeliveryBoyAssignment_feedDb :
    (getDeliveryBoyAssignment (fun lat1 _ lat2 _ => lat2 - lat1) feedDb 7).map
        (fun a => (a.shopOrderId, a.distance))
      = [(20, some 1), (10, some 2), (11, none)] := by
  simp [getDeliveryBoyAssignment, candidateAssignments, feedDb, findUser, isCandidate,
    makeAssignment, findShop, pickupLocation, assignmentDistance, cafeteriaLocationByName,
    List.insertionSort, List.orderedInsert, compareAssignments, List.flatMap, List.filter]

/-! ## C22 -/

/-- C22: in the list `getDeliveryBoyAssignment` returns, for every two
consecutive entries (and so for every two entries in the order of the list) an
entry with a known distance never follows one with unknown distance, and two
known distances are in non-decreasing order; the list is a permutation of the
entries built for the candidates, which are, order by order, the shop orders
that pass the candidate test. -/
theorem getDeliveryBoyAssignment_sorted (calculateDistance : ℚ → ℚ → ℚ → ℚ → ℚ) (db : Db)
    (callerId : Nat) :
    List.Chain'
        (fun a b : Assignment => (a.distance = none → b.distance = none) ∧
          ∀ x y, a.distance = some x → b.distance = some y → x ≤ y)
        (getDeliveryBoyAssignment calculateDistance db callerId) ∧
      List.Pairwise
        (fun a b : Assignment => (a.distance = none → b.distance = none) ∧
          ∀ x y, a.distance = some x → b.distance = some y → x ≤ y)
        (getDeliveryBoyAssignment calculateDistance db callerId) ∧
      List.Perm (getDeliveryBoyAssignment calculateDistance db callerId)
        (candidateAssignments calculateDistance db callerId) ∧
      List.Perm
        ((getDeliveryBoyAssignment calculateDistance db callerId).map
          (fun a => (a.orderId, a.shopOrderId)))
        (db.orders.flatMap
          (fun o => (o.shopOrders.filter isCandidate).map (fun so => (o.id, so.id)))) := by
  haveI : IsTotal Assignment (fun a b => compareAssignments a b ≤ 0) :=
    ⟨compareAssignments_total⟩
  haveI : IsTrans Assignment (fun a b => compareAssignments a b ≤ 0) :=
    ⟨compareAssignments_trans⟩
  have hsorted : List.Pairwise (fun a b => compareAssignments a b ≤ 0)
      (getDeliveryBoyAssignment calculateDistance db callerId) :=
    List.sorted_insertionSort (fun a b => compareAssignments a b ≤ 0) _
  have hpair := hsorted.imp (fun {a b} h => compareAssignments_le a b h)
  have hperm : List.Perm (getDeliveryBoyAssignment calculateDistance db callerId)
      (candidateAssignments calculateDistance db callerId) :=
    List.perm_insertionSort (fun a b => compareAssignments a b ≤ 0) _
  refine ⟨hpair.chain', hpair, hperm, ?_⟩
  refine (hperm.map _).trans (List.Perm.of_eq ?_)
  unfold candidateAssignments
  simp only []
  rw [flatMap_filter_any, List.map_flatMap]
  simp only [List.map_map]
  rfl

end FoodDelivery

namespace FoodDelivery

/-! ## Setting a status -/

/-- The assignments of `updateOrderStatus` leave the shop of the shop order
alone. -/
theorem applyStatus_shop (status previousStatus : OrderStatus) (now : Nat) (so : ShopOrder) :
    (applyStatus status previousStatus now so).shop = so.shop := by
  unfold applyStatus
  split_ifs <;> rfl

/-- The status after the assignments of `updateOrderStatus`. -/
theorem applyStatus_status (status previousStatus : OrderStatus) (now : Nat) (so : ShopOrder) :
    (applyStatus status previousStatus now so).status = status := by
  unfold applyStatus
  split_ifs <;> rfl

/-- A text that passes the enum validation is not empty. -/
theorem ofJs_ne_empty {status : String} {st : OrderStatus}
    (h : OrderStatus.ofJs status = some st) : status ≠ "" := by
  intro he
  subst he
  simp [OrderStatus.ofJs] at h

/-- The answer of `updateOrderStatus` for an order and a shop order it finds and
a status of the enum. -/
theorem updateOrderStatus_found (db : Db) (oid shid now : Nat) (order : Order) (so : ShopOrder)
    (status : String) (st : OrderStatus)
    (ho : findOrder db oid = some order)
    (hso : findShopOrderByShop db order shid = some so)
    (hst : OrderStatus.ofJs status = some st) :
    updateOrderStatus db (some oid) (some shid) (some status) now
      = (⟨200, "Order status updated successfully"⟩,
          saveShopOrderByShop db oid shid (applyStatus st so.status now)) := by
  unfold updateOrderStatus
  simp only [ho, hso, hst, if_neg (ofJs_ne_empty hst)]

/-- The shop order `updateOrderStatus` leaves behind. -/
theorem shopOrderByShop_updateOrderStatus (db : Db) (oid shid now : Nat) (order : Order)
    (so : ShopOrder) (status : String) (st : OrderStatus)
    (ho : findOrder db oid = some order)
    (hso : findShopOrderByShop db order shid = some so)
    (hst : OrderStatus.ofJs status = some st) :
    shopOrderByShop (updateOrderStatus db (some oid) (some shid) (some status) now).2 oid shid
      = some (applyStatus st so.status now so) := by
  rw [updateOrderStatus_found db oid shid now order so status st ho hso hst]
  exact shopOrderByShop_saveShopOrderByShop db oid shid order so (applyStatus st so.status now)
    (applyStatus_shop st so.status now) ho hso

/-! ## C23 -/

/-- C23 as stated fails on both counts. A pending shop order that
`updateOrderStatus` moves straight to out of delivery gets no
`readyForDeliveryAt`; and a shop order that enters preparing at time 1000, goes
on to out of delivery and is moved back into preparing at time 3000 has its
`preparingStartedAt` overwritten with 3000. -/
theorem updateOrderStatus_stamps_counterexample :
    (shopOrderByShop
        (updateOrderStatus (cancelDb OrderStatus.pending none) (some 1) (some 5)
          (some "out of delivery") 1000).2 1 5).map
        (fun so => (so.status, so.readyForDeliveryAt))
      = some (OrderStatus.outOfDelivery, none) ∧
    (shopOrderByShop
        (updateOrderStatus (cancelDb OrderStatus.pending none) (some 1) (some 5)
          (some "preparing") 1000).2 1 5).map
        (fun so => (so.status, so.preparingStartedAt))
      = some (OrderStatus.preparing, some 1000) ∧
    (shopOrderByShop
        (updateOrderStatus
          (updateOrderStatus
            (updateOrderStatus (cancelDb OrderStatus.pending none) (some 1) (some 5)
              (some "preparing") 1000).2
            (some 1) (some 5) (some "out of delivery") 2000).2
          (some 1) (some 5) (some "preparing") 3000).2 1 5).map
        (fun so => (so.status, so.preparingStartedAt))
      = some (OrderStatus.preparing, some 3000) := by
  decide

/-- C23, amended: a call of `updateOrderStatus` with a status of the enum, for an
order and shop order it finds, answers 200 and sets that status. When the new
status is out of delivery, `readyForDeliveryAt` is stamped exactly when the
previous status was preparing and is otherwise left as it was. When the new
status is preparing, `preparingStartedAt` is stamped whenever the previous
status was not preparing (on the first entry and on every later re-entry, which
overwrites the earlier stamp) and is left as it was when the shop order was in
preparation already. -/
theorem updateOrderStatus_stamps (db : Db) (orderId shopId now : Nat) (order : Order)
    (shopOrder : ShopOrder) (status : String) (newStatus : OrderStatus)
    (ho : findOrder db orderId = some order)
    (hso : findShopOrderByShop db order shopId = some shopOrder)
    (hst : OrderStatus.ofJs status = some newStatus) :
    (updateOrderStatus db (some orderId) (some shopId) (some status) now).1
        = ⟨200, "Order status updated successfully"⟩ ∧
      ∃ updated,
        shopOrderByShop (updateOrderStatus db (some orderId) (some shopId) (some status) now).2
            orderId shopId = some updated ∧
          updated.status = newStatus ∧
          (newStatus = OrderStatus.outOfDelivery →
            updated.readyForDeliveryAt
                = (if shopOrder.status = OrderStatus.preparing then some now
                   else shopOrder.readyForDeliveryAt) ∧
              updated.preparingStartedAt = shopOrder.preparingStartedAt) ∧
          (newStatus = OrderStatus.preparing →
            updated.preparingStartedAt
                = (if shopOrder.status = OrderStatus.preparing then shopOrder.preparingStartedAt
                   else some now) ∧
              updated.readyForDeliveryAt = shopOrder.readyForDeliveryAt) := by
  refine ⟨?_, applyStatus newStatus shopOrder.status now shopOrder,
    shopOrderByShop_updateOrderStatus db orderId shopId now order shopOrder status newStatus
      ho hso hst,
    applyStatus_status _ _ _ _, ?_, ?_⟩
  · rw [updateOrderStatus_found db orderId shopId now order shopOrder status newStatus ho hso hst]
  · intro hn
    subst hn
    unfold applyStatus
    by_cases hp : shopOrder.status = OrderStatus.preparing
    · simp [hp]
    · simp [hp]
  · intro hn
    subst hn
    unfold applyStatus
    by_cases hp : shopOrder.status = OrderStatus.preparing
    · simp [hp]
    · simp [hp]

/-- The shop order of `cancelDb` in preparation, moved to out of delivery at
time 2000: the call answers 200 and `readyForDeliveryAt` is 2000. -/
theorem updateOrderStatus_stamps_witness :
    (updateOrderStatus (cancelDb OrderStatus.preparing none) (some 1) (some 5)
        (some "out of delivery") 2000).1 = ⟨200, "Order status updated successfully"⟩ ∧
      ∃ updated,
        shopOrderByShop
            (updateOrderStatus (cancelDb OrderStatus.preparing none) (some 1) (some 5)
              (some "out of delivery") 2000).2 1 5 = some updated ∧
          updated.status = OrderStatus.outOfDelivery ∧
          updated.readyForDeliveryAt = some 2000 :=
  have h := updateOrderStatus_stamps (cancelDb OrderStatus.preparing none) 1 5 2000
    { id := 1, user := some 3, paymentMethod := PaymentMethod.cod, totalAmount := 120,
      deliveryFee := 20,
      shopOrders := [{ id := 10, shop := some 5, owner := some 9, subtotal := 100,
                       status := OrderStatus.preparing, assignedDeliveryBoy := some 7 }] }
    { id := 10, shop := some 5, owner := some 9, subtotal := 100,
      status := OrderStatus.preparing, assignedDeliveryBoy := some 7 }
    "out of delivery" OrderStatus.outOfDelivery (by decide) (by decide) (by decide)
  ⟨h.1, h.2.elim (fun updated hu => ⟨updated, hu.1, hu.2.1, (hu.2.2.1 rfl).1⟩)⟩

end FoodDelivery

namespace FoodDelivery

/-! ## Status changes -/

theorem map_modifyFirst_eq {α β : Type} (g : α → β) (p : α → Bool) (f : α → α)
    (h : ∀ x, g (f x) = g x) (l : List α) :
    (modifyFirst p f l).map g = l.map g := by
  induction l with
  | nil => rfl
  | cons x xs ih =>
    by_cases hp : p x = true
    · simp [modifyFirst, hp, h]
    · have hp2 : p x = false := by simpa using hp
      simp [modifyFirst, hp2, ih]

theorem map_modifyAt_eq {α β : Type} (g : α → β) (f : α → α)
    (h : ∀ x, g (f x) = g x) (i : Nat) (l : List α) :
    (modifyAt f i l).map g = l.map g := by
  induction l generalizing i with
  | nil => cases i <;> rfl
  | cons x xs ih =>
    cases i with
    | zero => simp [modifyAt, h]
    | succ j => simp [modifyAt, ih]

theorem forall₂_map_modifyFirst {α β : Type} (R : β → β → Prop) (hR : ∀ y, R y y)
    (g : α → β) (p : α → Bool) (f : α → α) (l : List α)
    (h : ∀ x, l.find? p = some x → R (g x) (g (f x))) :
    List.Forall₂ R (l.map g) ((modifyFirst p f l).map g) := by
  induction l with
  | nil => exact List.Forall₂.nil
  | cons x xs ih =>
    by_cases hp : p x = true
    · have hx : R (g x) (g (f x)) := h x (by simp [List.find?, hp])
      simp only [modifyFirst, hp, if_true, List.map_cons]
      exact List.Forall₂.cons hx (List.forall₂_same.mpr (fun y _ => hR y))
    · have hp2 : p x = false := by simpa using hp
      simp only [modifyFirst, hp2, List.map_cons]
      refine List.Forall₂.cons (hR _) (ih ?_)
      intro y hy
      exact h y (by simpa [List.find?, hp2] using hy)

/-- Writing a shop order back with its status as it was changes no status. -/
theorem statusesOf_saveShopOrder (db : Db) (oid sid : Nat) (f : ShopOrder → ShopOrder)
    (hf : ∀ so, (f so).status = so.status) :
    statusesOf (saveShopOrder db oid sid f) = statusesOf db := by
  unfold statusesOf saveShopOrder
  simp only []
  apply map_modifyFirst_eq
  intro o
  simp only []
  exact map_modifyFirst_eq (fun so => so.status) _ f hf o.shopOrders

/-- The statuses depend on the orders only. -/
theorem statusesOf_congr {db1 db2 : Db} (h : db1.orders = db2.orders) :
    statusesOf db1 = statusesOf db2 := by
  unfold statusesOf
  rw [h]

/-- `confirmPickup` changes no status. -/
theorem statusesOf_confirmPickup (db : Db) (o s : Option Nat) (now : Nat) :
    statusesOf (confirmPickup db o s now).2 = statusesOf db := by
  rcases confirmPickup_cases db o s now with h | ⟨oid, sid, order, so, ho, hs, hfo, hfs, hp, hst⟩
  · rw [h.1]
  · subst ho; subst hs
    rw [confirmPickup_success db oid sid now order so hfo hfs hp hst]
    simp only []
    rw [statusesOf_saveShopOrder _ oid sid (fun s => { s with pickedUpAt := some now })
      (fun _ => rfl)]
    rw [statusesOf_congr (deductCourierAtPickup_frame _ _ _ _).1,
      statusesOf_congr (creditShopAtPickup_frame _ _ _ _ _).1]

/-- Rewriting the first matching order so that the statuses of its shop orders
stay changes no status. -/
theorem statusesOf_modifyFirst (db : Db) (p : Order → Bool) (f : Order → Order)
    (hf : ∀ o, (f o).shopOrders.map (fun so => so.status)
      = o.shopOrders.map (fun so => so.status)) :
    statusesOf { db with orders := modifyFirst p f db.orders } = statusesOf db := by
  unfold statusesOf
  simp only []
  exact map_modifyFirst_eq _ p f hf db.orders

/-- `acceptOrder` changes no status. -/
theorem statusesOf_acceptOrder (rule : PositionalRule) (db : Db) (a : Option Nat) (u : Nat) :
    statusesOf (acceptOrder rule db a u).2 = statusesOf db := by
  cases a with
  | none => rfl
  | some aid =>
    unfold acceptOrder
    simp only []
    split
    · rfl
    · split
      · apply statusesOf_modifyFirst
        intro o
        simp only []
        apply map_modifyAt_eq
        intro _
        rfl
      · apply statusesOf_modifyFirst
        intro o
        simp only []
        apply map_modifyAt_eq
        intro _
        rfl

/-- Every call of `cancelShopOrder` either leaves the database alone or cancels
the shop order it found, whose status was one the caller's role may cancel. -/
theorem cancelShopOrder_cases (db : Db) (o s : Option Nat) (reason : Option String)
    (c now : Nat) :
    (cancelShopOrder db o s reason c now).2 = db ∨
      ∃ oid shid order so role r, findOrder db oid = some order ∧
        findShopOrderByShop db order shid = some so ∧ so.status ∈ allowedStatuses role ∧
        (cancelShopOrder db o s reason c now).2
          = saveShopOrderByShop db oid shid (fun x =>
              { x with status := OrderStatus.cancelled, cancelReason := some r,
                       cancelledAt := some now }) := by
  cases o with
  | none => left; simp [cancelShopOrder]
  | some oid =>
    cases s with
    | none => left; simp [cancelShopOrder]
    | some shid =>
      cases reason with
      | none => left; simp [cancelShopOrder]
      | some reason =>
        by_cases hr : reason = "" ∨ jsTrim reason = ""
        · left; simp [cancelShopOrder, hr]
        · cases ho : findOrder db oid with
          | none => left; simp [cancelShopOrder, hr, ho]
          | some order =>
            cases hso : findShopOrderByShop db order shid with
            | none => left; simp [cancelShopOrder, hr, ho, hso]
            | some so =>
              cases hu : findUser db c with
              | none => left; simp [cancelShopOrder, hr, ho, hso, hu]
              | some user =>
                by_cases hauth : isAuthorized user.role c order so = false
                · left; simp [cancelShopOrder, hr, ho, hso, hu, hauth]
                · by_cases hst : so.status ∈ allowedStatuses user.role
                  · by_cases hp : user.role = Role.deliveryBoy ∧ so.pickedUpAt.isSome = true
                    · left
                      unfold cancelShopOrder
                      simp only [ho, hso, hu, if_neg hr, if_neg hauth, if_pos hp,
                        if_neg (not_not.mpr hst)]
                    · right
                      refine ⟨oid, shid, order, so, user.role, jsTrim reason, ho, hso, hst, ?_⟩
                      unfold cancelShopOrder
                      simp only [ho, hso, hu, if_neg hr, if_neg hauth, if_neg hp,
                        if_neg (not_not.mpr hst)]
                  · left
                    unfold cancelShopOrder
                    simp only [ho, hso, hu, if_neg hr, if_neg hauth, if_pos hst]

/-- A cancellation request changes statuses only to cancelled, and only from
pending, preparing or out of delivery. -/
theorem statusesOf_cancelShopOrder (db : Db) (o s : Option Nat) (reason : Option String)
    (c now : Nat) :
    List.Forall₂ (List.Forall₂ cancelStep) (statusesOf db)
      (statusesOf (cancelShopOrder db o s reason c now).2) := by
  have hrefl : ∀ y : OrderStatus, cancelStep y y := fun y => Or.inl rfl
  have hrefl2 : ∀ l : List OrderStatus, List.Forall₂ cancelStep l l :=
    fun l => List.forall₂_same.mpr (fun y _ => hrefl y)
  rcases cancelShopOrder_cases db o s reason c now with h | ⟨oid, shid, order, so, role, r, ho, hso, hst, h⟩
  · rw [h]
    exact List.forall₂_same.mpr (fun l _ => hrefl2 l)
  · rw [h]
    unfold statusesOf saveShopOrderByShop
    simp only []
    apply forall₂_map_modifyFirst _ hrefl2
    intro x hx
    unfold findOrder at ho
    rw [ho] at hx
    cases hx
    simp only []
    apply forall₂_map_modifyFirst _ hrefl
    intro y hy
    unfold findShopOrderByShop at hso
    rw [hso] at hy
    cases hy
    right
    refine ⟨rfl, ?_⟩
    rcases (mem_allowedStatuses role so.status).mp hst with h1 | h1 | h1
    · exact h1.2
    · rcases h1.2 with h2 | h2
      · exact Or.inl h2
      · exact Or.inr (Or.inl h2)
    · exact Or.inr (Or.inr h1.2)

/-- Every status of the enum passes the validation under its own text. -/
theorem ofJs_toJs (st : OrderStatus) : OrderStatus.ofJs st.toJs = some st := by
  cases st <;> decide

/-- The answer of `verifyDeliveryOtp` to the code of the shop order, before it
expires. -/
theorem verifyDeliveryOtp_success (db : Db) (oid sid now : Nat) (order : Order) (so : ShopOrder)
    (otp : String)
    (ho : findOrder db oid = some order) (hso : findShopOrder order sid = some so)
    (hotp : so.deliveryOtp = some otp) (hne : otp ≠ "")
    (hexp : ∀ t, so.otpExpires = some t → now ≤ t) :
    verifyDeliveryOtp db (some oid) (some sid) (some otp) now
      = (⟨200, "OTP verified successfully"⟩,
          saveShopOrder db oid sid (fun s =>
            { s with deliveryOtp := none, otpExpires := none,
                     status := OrderStatus.delivered, deliveredAt := some now })) := by
  unfold verifyDeliveryOtp
  simp only [ho, hso, if_neg hne]
  have hcond : ¬ (so.deliveryOtp ≠ some otp ∨
      (match so.otpExpires with
        | some otpExpires => decide (otpExpires < now)
        | none => false) = true) := by
    intro h
    rcases h with h | h
    · exact h hotp
    · cases ht : so.otpExpires with
      | none => rw [ht] at h; simp at h
      | some t =>
        rw [ht] at h
        have := hexp t ht
        simp only [decide_eq_true_eq] at h
        omega
  rw [if_neg hcond]

/-- The shop order a successful `verifyDeliveryOtp` leaves behind. -/
theorem shopOrderOf_verifyDeliveryOtp (db : Db) (oid sid now : Nat) (order : Order)
    (so : ShopOrder) (otp : String)
    (ho : findOrder db oid = some order) (hso : findShopOrder order sid = some so)
    (hotp : so.deliveryOtp = some otp) (hne : otp ≠ "")
    (hexp : ∀ t, so.otpExpires = some t → now ≤ t) :
    shopOrderOf (verifyDeliveryOtp db (some oid) (some sid) (some otp) now).2 oid sid
      = some { so with deliveryOtp := none, otpExpires := none,
                       status := OrderStatus.delivered, deliveredAt := some now } := by
  rw [verifyDeliveryOtp_success db oid sid now order so otp ho hso hotp hne hexp]
  simp only []
  rw [shopOrderOf_saveShopOrder db oid sid
    (fun s => { s with deliveryOtp := none, otpExpires := none,
                       status := OrderStatus.delivered, deliveredAt := some now })
    (fun _ => rfl)]
  simp [shopOrderOf, ho, hso]

/-! ## C24 -/

/-- C24 as stated fails: `updateOrderStatus` moves the cancelled shop order of
`cancelDb` back into preparing, `confirmDelivery` moves it to delivered, and
`updateOrderStatus` moves a delivered shop order back to pending. -/
theorem cancelled_terminal_counterexample :
    (shopOrderByShop (cancelDb OrderStatus.cancelled none) 1 5).map (fun so => so.status)
        = some OrderStatus.cancelled ∧
      (shopOrderByShop
          (updateOrderStatus (cancelDb OrderStatus.cancelled none) (some 1) (some 5)
            (some "preparing") 1000).2 1 5).map (fun so => so.status)
        = some OrderStatus.preparing ∧
      (shopOrderOf
          (confirmDelivery (cancelDb OrderStatus.cancelled none) (some 1) (some 10) 1000).2
          1 10).map (fun so => so.status)
        = some OrderStatus.delivered ∧
      (shopOrderByShop
          (updateOrderStatus (cancelDb OrderStatus.delivered none) (some 1) (some 5)
            (some "pending") 1000).2 1 5).map (fun so => so.status)
        = some OrderStatus.pending := by
  refine ⟨by decide, by decide, ?_, by decide⟩
  rw [shopOrderOf_confirmDelivery (cancelDb OrderStatus.cancelled none) 1 10 1000
    { id := 1, user := some 3, paymentMethod := PaymentMethod.cod, totalAmount := 120,
      deliveryFee := 20,
      shopOrders := [{ id := 10, shop := some 5, owner := some 9, subtotal := 100,
                       status := OrderStatus.cancelled, assignedDeliveryBoy := some 7 }] }
    { id := 10, shop := some 5, owner := some 9, subtotal := 100,
      status := OrderStatus.cancelled, assignedDeliveryBoy := some 7 }
    (by decide) (by decide) (by decide)]
  rfl

/-- C24, amended to what the six operations do to the statuses. `confirmPickup`
and `acceptOrder` change no status of any shop order. `cancelShopOrder` changes
a status only to cancelled, and only from pending, preparing or out of
delivery, so a cancelled shop order stays cancelled under these three.
`updateOrderStatus` sets whatever status of the enum it is sent, whatever the
status was before, cancelled and delivered included. `confirmDelivery` sets
delivered from every status other than delivered, and `verifyDeliveryOtp` sets
delivered from every status when the code is the one of the shop order and has
not expired. -/
theorem status_changes (db : Db) :
    (∀ (o s : Option Nat) (now : Nat),
        statusesOf (confirmPickup db o s now).2 = statusesOf db) ∧
      (∀ (rule : PositionalRule) (a : Option Nat) (u : Nat),
        statusesOf (acceptOrder rule db a u).2 = statusesOf db) ∧
      (∀ (o s : Option Nat) (reason : Option String) (c now : Nat),
        List.Forall₂ (List.Forall₂ cancelStep) (statusesOf db)
          (statusesOf (cancelShopOrder db o s reason c now).2)) ∧
      (∀ (oid shid now : Nat) (order : Order) (so : ShopOrder) (st : OrderStatus),
        findOrder db oid = some order → findShopOrderByShop db order shid = some so →
        (updateOrderStatus db (some oid) (some shid) (some st.toJs) now).1.status = 200 ∧
          (shopOrderByShop
              (updateOrderStatus db (some oid) (some shid) (some st.toJs) now).2 oid shid).map
            (fun x => x.status) = some st) ∧
      (∀ (oid sid now : Nat) (order : Order) (so : ShopOrder),
        findOrder db oid = some order → findShopOrder order sid = some so →
        so.status ≠ OrderStatus.delivered →
        (shopOrderOf (confirmDelivery db (some oid) (some sid) now).2 oid sid).map
          (fun x => x.status) = some OrderStatus.delivered) ∧
      (∀ (oid sid now : Nat) (order : Order) (so : ShopOrder) (otp : String),
        findOrder db oid = some order → findShopOrder order sid = some so →
        so.deliveryOtp = some otp → otp ≠ "" → (∀ t, so.otpExpires = some t → now ≤ t) →
        (shopOrderOf (verifyDeliveryOtp db (some oid) (some sid) (some otp) now).2 oid sid).map
          (fun x => x.status) = some OrderStatus.delivered) := by
  refine ⟨statusesOf_confirmPickup db, fun rule a u => statusesOf_acceptOrder rule db a u,
    statusesOf_cancelShopOrder db, ?_, ?_, ?_⟩
  · intro oid shid now order so st ho hso
    rw [shopOrderByShop_updateOrderStatus db oid shid now order so st.toJs st ho hso
        (ofJs_toJs st),
      updateOrderStatus_found db oid shid now order so st.toJs st ho hso (ofJs_toJs st)]
    exact ⟨rfl, by simp [applyStatus_status]⟩
  · intro oid sid now order so ho hso hst
    rw [shopOrderOf_confirmDelivery db oid sid now order so ho hso hst]
    rfl
  · intro oid sid now order so otp ho hso hotp hne hexp
    rw [shopOrderOf_verifyDeliveryOtp db oid sid now order so otp ho hso hotp hne hexp]
    rfl

/-- On the cancelled shop order of `cancelDb`: a cancellation request by the
customer leaves every status as it is, and `updateOrderStatus` with the text
`preparing` puts the shop order back into preparation. -/
theorem status_changes_witness :
    statusesOf
        (cancelShopOrder (cancelDb OrderStatus.cancelled none) (some 1) (some 5)
          (some "again") 3 2000).2
        = [[OrderStatus.cancelled]] ∧
      (shopOrderByShop
          (updateOrderStatus (cancelDb OrderStatus.cancelled none) (some 1) (some 5)
            (some "preparing") 1000).2 1 5).map (fun x => x.status)
        = some OrderStatus.preparing :=
  ⟨by decide,
    ((status_changes (cancelDb OrderStatus.cancelled none)).2.2.2.1 1 5 1000
      { id := 1, user := some 3, paymentMethod := PaymentMethod.cod, totalAmount := 120,
        deliveryFee := 20,
        shopOrders := [{ id := 10, shop := some 5, owner := some 9, subtotal := 100,
                         status := OrderStatus.cancelled, assignedDeliveryBoy := some 7 }] }
      { id := 10, shop := some 5, owner := some 9, subtotal := 100,
        status := OrderStatus.cancelled, assignedDeliveryBoy := some 7 }
      OrderStatus.preparing (by decide) (by decide)).2⟩

end FoodDelivery

namespace FoodDelivery

/-! ## C25 -/

/-- The shop of `payoutDb` has 90 available. -/
theorem payoutDb_available : ShopController.availableWalletBalance payoutDb payoutShop = 90 := by
  have hE : ShopController.totalShopEarnings payoutDb 5 (getGpRate payoutDb.commissionPercentage)
      = 90 := by
    simp [ShopController.totalShopEarnings, ShopController.deliveredOrdersFilter, payoutDb,
      getGpRate, shopEarnings, platformIncome, mathRound]
    norm_num
  have hC : ShopController.totalCompletedPayouts payoutShop.payouts = 0 := by
    simp [ShopController.totalCompletedPayouts, payoutShop]
  have hP : ShopController.pendingPayouts payoutShop.payouts = 0 := by
    simp [ShopController.pendingPayouts, payoutShop]
  have hid : payoutShop.id = 5 := rfl
  simp only [ShopController.availableWalletBalance, hid, hE, hC, hP]
  norm_num

/-- The owner of the shop of `payoutDb` asks for 50: the request goes through
and leaves `pendingPayoutDb`. -/
theorem requestPayoutFromWallet_payoutDb :
    ShopController.requestPayoutFromWallet payoutDb 9 (some 50) 1800000000000 1
      = (⟨200, "Payout request submitted successfully"⟩, pendingPayoutDb) := by
  have hfind : payoutDb.shops.find? (fun s => s.owner == some 9) = some payoutShop := by
    decide
  have hamount : ¬ ((50 : ℚ) = 0 ∨ (50 : ℚ) ≤ 0) := by norm_num
  have hbal : ¬ ((50 : ℚ) > ShopController.availableWalletBalance payoutDb payoutShop) := by
    rw [payoutDb_available]; norm_num
  have hbank : ¬ (payoutShop.ePaymentAccount.accountNumber = ""
      ∨ payoutShop.ePaymentAccount.bank = "") := by decide
  have howner : ¬ (payoutShop.owner ≠ some 9) := by decide
  have hpending : ¬ (payoutDb.payoutRequests.any (fun r =>
      r.shop == some payoutShop.id && r.status == PayoutRequestStatus.pending) = true) := by
    decide
  unfold ShopController.requestPayoutFromWallet
  simp only [if_neg hamount, hfind, if_neg howner, if_neg hbank, if_neg hbal, if_neg hpending]
  decide

/-- C25 (the code at the failing input): the owner of the shop of `payoutDb`
asks for 50, which leaves a pending payout request and a pending ledger entry
under one reference. The administrator approves the request and supplies a
transaction id: the call answers 200, the request is approved and carries the
supplied id, and the ledger entry of the shop is still pending, not in transit.
The same approval without a transaction id does set the entry to in transit. -/
theorem processPayoutRequest_supplied_reference :
    payoutRequestStates
        (ShopController.requestPayoutFromWallet payoutDb 9 (some 50) 1800000000000 1).2
        = [(PayoutRequestStatus.pending, some (PayoutId.manual 1800000000000 5))] ∧
      shopPayoutStates
        (ShopController.requestPayoutFromWallet payoutDb 9 (some 50) 1800000000000 1).2 5
        = [(PayoutId.manual 1800000000000 5, PayoutStatus.pending)] ∧
      (processPayoutRequest
          (ShopController.requestPayoutFromWallet payoutDb 9 (some 50) 1800000000000 1).2
          1 "approved" none (some (PayoutId.other "TXN-1")) 99 1800000001000 none).1
        = ⟨200, "Payout request approved"⟩ ∧
      payoutRequestStates
        (processPayoutRequest
          (ShopController.requestPayoutFromWallet payoutDb 9 (some 50) 1800000000000 1).2
          1 "approved" none (some (PayoutId.other "TXN-1")) 99 1800000001000 none).2
        = [(PayoutRequestStatus.approved, some (PayoutId.other "TXN-1"))] ∧
      shopPayoutStates
        (processPayoutRequest
          (ShopController.requestPayoutFromWallet payoutDb 9 (some 50) 1800000000000 1).2
          1 "approved" none (some (PayoutId.other "TXN-1")) 99 1800000001000 none).2 5
        = [(PayoutId.manual 1800000000000 5, PayoutStatus.pending)] ∧
      shopPayoutStates
        (processPayoutRequest
          (ShopController.requestPayoutFromWallet payoutDb 9 (some 50) 1800000000000 1).2
          1 "approved" none none 99 1800000001000 none).2 5
        = [(PayoutId.manual 1800000000000 5, PayoutStatus.inTransit)] := by
  rw [requestPayoutFromWallet_payoutDb]
  decide

end FoodDelivery

namespace FoodDelivery

/-! ## C26 -/

/-- C26 (the code at the failing input): the event `checkout.session.completed`
of a credit top-up of 100 for courier 7, whose job credit is 0. Processed once
it leaves a job credit of 100; processed a second time it leaves 200, so the
state after two deliveries of the event is not the state after one. An event
`payout.created` for shop 5, by contrast, adds its ledger entry once. -/
theorem handleStripeWebhook_topup_twice :
    jobCreditOf courierDb 7 = some 0 ∧
      jobCreditOf
          (handleStripeWebhook courierDb
            (StripeEvent.checkoutSessionCompleted "cs_1" (some "credit_topup") (some 7) 100 none))
          7 = some 100 ∧
      jobCreditOf
          (handleStripeWebhook
            (handleStripeWebhook courierDb
              (StripeEvent.checkoutSessionCompleted "cs_1" (some "credit_topup") (some 7) 100
                none))
            (StripeEvent.checkoutSessionCompleted "cs_1" (some "credit_topup") (some 7) 100 none))
          7 = some 200 ∧
      handleStripeWebhook
          (handleStripeWebhook courierDb
            (StripeEvent.checkoutSessionCompleted "cs_1" (some "credit_topup") (some 7) 100 none))
          (StripeEvent.checkoutSessionCompleted "cs_1" (some "credit_topup") (some 7) 100 none)
        ≠ handleStripeWebhook courierDb
            (StripeEvent.checkoutSessionCompleted "cs_1" (some "credit_topup") (some 7) 100 none) ∧
      handleStripeWebhook
          (handleStripeWebhook payoutDb
            (StripeEvent.payoutCreated
              { id := PayoutId.other "po_1", amount := 5000, metadataShopId := some 5 }))
          (StripeEvent.payoutCreated
            { id := PayoutId.other "po_1", amount := 5000, metadataShopId := some 5 })
        = handleStripeWebhook payoutDb
            (StripeEvent.payoutCreated
              { id := PayoutId.other "po_1", amount := 5000, metadataShopId := some 5 }) := by
  have h1 : jobCreditOf
      (handleStripeWebhook courierDb
        (StripeEvent.checkoutSessionCompleted "cs_1" (some "credit_topup") (some 7) 100 none))
      7 = some 100 := by
    simp [handleStripeWebhook, jobCreditOf, findUser, saveUser, modifyFirst, courierDb, courier7]
  have h2 : jobCreditOf
      (handleStripeWebhook
        (handleStripeWebhook courierDb
          (StripeEvent.checkoutSessionCompleted "cs_1" (some "credit_topup") (some 7) 100 none))
        (StripeEvent.checkoutSessionCompleted "cs_1" (some "credit_topup") (some 7) 100 none))
      7 = some 200 := by
    simp [handleStripeWebhook, jobCreditOf, findUser, saveUser, modifyFirst, courierDb, courier7]
    norm_num
  refine ⟨by decide, h1, h2, ?_, ?_⟩
  · intro h
    rw [h, h1] at h2
    exact absurd h2 (by norm_num)
  · simp [handleStripeWebhook, findPayoutShop, findShop, saveShop, modifyFirst, payoutDb,
      payoutShop]

end FoodDelivery

namespace FoodDelivery

/-! ## C27 -/

/-- C27 (the code at the failing input): the administrator calls
`adminReassignRider` without a new rider for the shop order of `cancelDb`, which
is in preparation and assigned to courier 7. The status text `ready` that the
handler assigns is not in the enum of the schema, so the save fails: the answer
is 500, the database is as it was, the shop order is still assigned to courier
7, does not pass the candidate test of the feed, and a claim of it by courier 8
is turned away with 404. The same holds for every database and every shop
order: the call never answers 200 and never writes. -/
theorem adminReassignRider_unassign_fails :
    adminReassignRider (cancelDb OrderStatus.preparing none) 1 10 none
        = (⟨500, "Reassign rider error: "⟩, cancelDb OrderStatus.preparing none) ∧
      (shopOrderOf (adminReassignRider (cancelDb OrderStatus.preparing none) 1 10 none).2
          1 10).map (fun so => (so.assignedDeliveryBoy, so.status, isCandidate so))
        = some (some 7, OrderStatus.preparing, false) ∧
      (∀ rule : PositionalRule,
        (acceptOrder rule (adminReassignRider (cancelDb OrderStatus.preparing none) 1 10 none).2
          (some 10) 8).1 = ⟨404, "Assignment not found or already taken"⟩) ∧
      (∀ (db : Db) (orderId shopOrderId : Nat),
        (adminReassignRider db orderId shopOrderId none).1.status ≠ 200 ∧
          (adminReassignRider db orderId shopOrderId none).2 = db) := by
  refine ⟨by decide, by decide, fun rule => by cases rule <;> decide, ?_⟩
  intro db orderId shopOrderId
  have hready : OrderStatus.ofJs "ready" = none := by decide
  cases ho : findOrder db orderId with
  | none => simp [adminReassignRider, ho]
  | some order =>
    cases hso : findShopOrder order shopOrderId with
    | none => simp [adminReassignRider, ho, hso]
    | some so => simp [adminReassignRider, ho, hso, hready]

/-! ## C28 -/

/-- C28 (the code at the failing inputs). In an order whose shop order 10 is
assigned to courier 8 already while its shop order 11 is unassigned, courier 7
calls `acceptOrder` for shop order 10: whichever clause the store takes the
position from, the answer is 200 and not 404, and the call either replaces
courier 8 on shop order 10 by courier 7 or hands shop order 11 to courier 7. In
an order whose shop order 10 is still pending and unassigned while shop order 11
is in preparation, the same call answers 200 and assigns a shop order again. -/
theorem acceptOrder_sibling_lets_through (rule : PositionalRule) :
    assignedCouriers (siblingDb OrderStatus.preparing (some 8)) = [[some 8, none]] ∧
      (acceptOrder rule (siblingDb OrderStatus.preparing (some 8)) (some 10) 7).1
        = ⟨200, "Order accepted successfully"⟩ ∧
      assignedCouriers (acceptOrder rule (siblingDb OrderStatus.preparing (some 8)) (some 10) 7).2
        = (if rule = PositionalRule.unassignedClause then [[some 8, some 7]]
           else [[some 7, none]]) ∧
      (acceptOrder rule (siblingDb OrderStatus.pending none) (some 10) 7).1
        = ⟨200, "Order accepted successfully"⟩ ∧
      assignedCouriers (acceptOrder rule (siblingDb OrderStatus.pending none) (some 10) 7).2
        = (if rule = PositionalRule.statusClause then [[none, some 7]]
           else [[some 7, none]]) := by
  cases rule <;> decide

/-! ## C29 -/

/-- C29 (the code at the failing input): in `mixedDb` the only shop order of
shop 5 is pending, and the order holds a delivered shop order of shop 6. The
sum the claim describes is 0 for shop 5; the code finds total earnings of 90 and
an available balance of 90 for it, in `getMyShop` and in
`requestPayoutFromWallet` alike, and lets its owner withdraw 50. -/
theorem totalShopEarnings_counts_pending :
    claimedShopEarnings mixedDb 5 (getGpRate mixedDb.commissionPercentage) = 0 ∧
      ShopController.totalShopEarnings mixedDb 5 (getGpRate mixedDb.commissionPercentage) = 90 ∧
      (ShopController.getMyShop mixedDb payoutShop).totalShopEarnings = 90 ∧
      (ShopController.getMyShop mixedDb payoutShop).availableWalletBalance = 90 ∧
      ShopController.availableWalletBalance mixedDb payoutShop = 90 ∧
      (ShopController.requestPayoutFromWallet mixedDb 9 (some 50) 1800000000000 1).1
        = ⟨200, "Payout request submitted successfully"⟩ := by
  have hE : ShopController.totalShopEarnings mixedDb 5 (getGpRate mixedDb.commissionPercentage)
      = 90 := by
    simp [ShopController.totalShopEarnings, ShopController.deliveredOrdersFilter, mixedDb,
      getGpRate, shopEarnings, platformIncome, mathRound]
    norm_num
  have hC : ShopController.totalCompletedPayouts payoutShop.payouts = 0 := by
    simp [ShopController.totalCompletedPayouts, payoutShop]
  have hP : ShopController.pendingPayouts payoutShop.payouts = 0 := by
    simp [ShopController.pendingPayouts, payoutShop]
  have hid : payoutShop.id = 5 := rfl
  have hA : ShopController.availableWalletBalance mixedDb payoutShop = 90 := by
    simp only [ShopController.availableWalletBalance, hid, hE, hC, hP]
    norm_num
  refine ⟨?_, hE, ?_, ?_, hA, ?_⟩
  · simp [claimedShopEarnings, mixedDb, payoutShop]
  · simp only [ShopController.getMyShop, hid, hE]
  · simp only [ShopController.getMyShop, hid, hE, hC, hP]
    norm_num
  · have hfind : mixedDb.shops.find? (fun s => s.owner == some 9) = some payoutShop := by
      decide
    have hamount : ¬ ((50 : ℚ) = 0 ∨ (50 : ℚ) ≤ 0) := by norm_num
    have hbal : ¬ ((50 : ℚ) > ShopController.availableWalletBalance mixedDb payoutShop) := by
      rw [hA]; norm_num
    have hbank : ¬ (payoutShop.ePaymentAccount.accountNumber = ""
        ∨ payoutShop.ePaymentAccount.bank = "") := by decide
    have howner : ¬ (payoutShop.owner ≠ some 9) := by decide
    have hpending : ¬ (mixedDb.payoutRequests.any (fun r =>
        r.shop == some payoutShop.id && r.status == PayoutRequestStatus.pending) = true) := by
      decide
    unfold ShopController.requestPayoutFromWallet
    simp only [if_neg hamount, hfind, if_neg howner, if_neg hbank, if_neg hbal, if_neg hpending]

/-! ## C30 -/

/-- C30 (the code at the failing input): courier 7 of `courierDb`, whose job
credit is 0, asks `withdrawToBankDeliveryBoy` for an amount of -50. The credit
test lets the amount through, the job credit is raised to 50 and saved, and only
then the creation of the payout request fails on the negative amount: the answer
is 500 and the raised job credit stays. A request for 0 is answered with 200. -/
theorem withdrawToBankDeliveryBoy_negative_amount :
    jobCreditOf courierDb 7 = some 0 ∧
      (withdrawToBankDeliveryBoy courierDb 7 (some (-50)) 1800000000000 1).1
        = ⟨500, "Withdrawal error: "⟩ ∧
      jobCreditOf (withdrawToBankDeliveryBoy courierDb 7 (some (-50)) 1800000000000 1).2 7
        = some 50 ∧
      (courierPayouts (withdrawToBankDeliveryBoy courierDb 7 (some (-50)) 1800000000000 1).2
          7).map (fun p => (p.amount, p.status)) = [(-50, PayoutStatus.pending)] ∧
      (withdrawToBankDeliveryBoy courierDb 7 (some 0) 1800000000000 1).1
        = ⟨200, "Withdrawal request submitted"⟩ := by
  have h50 : ¬ ((50 : ℚ) < 0) := by norm_num
  refine ⟨by decide, ?_, ?_, ?_, ?_⟩
  · simp [withdrawToBankDeliveryBoy, findUser, courierDb, courier7, h50]
  · simp [withdrawToBankDeliveryBoy, findUser, saveUser, modifyFirst, jobCreditOf, courierDb,
      courier7, h50]
  · simp [withdrawToBankDeliveryBoy, findUser, saveUser, modifyFirst, courierPayouts, courierDb,
      courier7, h50]
  · simp [withdrawToBankDeliveryBoy, findUser, courierDb, courier7]

end FoodDelivery
